import Mathlib

/-!
# Empathy: channel-class matching and authentication-channel routing

A shallow embedding of the bookkeeping code of `libempathy/empathy-dispatcher.c`
and `libempathy/empathy-auth-factory.c`.

Conventions of the embedding:
* a C string that may be `NULL` is an `Option String`;
* a pointer to a GObject (connection, callback, user data, operation) is a `Nat`
  standing for its identity;
* a `GHashTable` is an association list, looked up by key;
* calls into other libraries that a function makes (context accept/fail/delay,
  asynchronous constructors, signal emissions) are recorded, in order, in a
  list of effects that the function returns.
-/

namespace Empathy

/-! ## GLib / telepathy-glib values -/

/-- A `GValue` as carried in an `a{sv}` map: the types that `tp_asv_get_string`
and `tp_asv_get_uint32` distinguish, and one constructor for all the others. -/
inductive GValue where
  | string (s : Option String)
  | uchar (n : Nat)
  | uint (n : Nat)
  | int (i : Int)
  | int64 (i : Int)
  | uint64 (n : Nat)
  | boolean (b : Bool)
  | strv (l : List String)
  | other
  deriving DecidableEq, Repr

/-- `G_MAXUINT32`. -/
def G_MAXUINT32 : Nat := 4294967295

/-- `TP_UNKNOWN_HANDLE_TYPE`, that is `((guint) -1)`. -/
def TP_UNKNOWN_HANDLE_TYPE : Nat := 4294967295

/-- `TP_IFACE_CHANNEL ".ChannelType"`. -/
def PROP_CHANNEL_TYPE : String := "org.freedesktop.Telepathy.Channel.ChannelType"

/-- `TP_IFACE_CHANNEL ".TargetHandleType"`. -/
def PROP_TARGET_HANDLE_TYPE : String := "org.freedesktop.Telepathy.Channel.TargetHandleType"

/-- A `GHashTable`: an association list of key/value entries. -/
structure GHashTable (κ : Type) (ν : Type) where
  entries : List (κ × ν)
  deriving DecidableEq, Repr

namespace GHashTable

variable {κ ν : Type} [DecidableEq κ]

/-- `g_hash_table_new`. -/
def empty : GHashTable κ ν := ⟨[]⟩

/-- `g_hash_table_lookup`: `none` is the `NULL` of a missing key. -/
def lookup (t : GHashTable κ ν) (k : κ) : Option ν :=
  (t.entries.find? (fun e => decide (e.1 = k))).map Prod.snd

/-- `g_hash_table_remove`. -/
def remove (t : GHashTable κ ν) (k : κ) : GHashTable κ ν :=
  ⟨t.entries.filter (fun e => decide (e.1 ≠ k))⟩

/-- `g_hash_table_insert`: the entry of an existing key is replaced. -/
def insert (t : GHashTable κ ν) (k : κ) (v : ν) : GHashTable κ ν :=
  ⟨(k, v) :: (t.remove k).entries⟩

/-- A write through the pointer that `g_hash_table_lookup` returned for `k`: the
value stored under `k` becomes `v`, the table is otherwise unchanged. -/
def store (t : GHashTable κ ν) (k : κ) (v : ν) : GHashTable κ ν :=
  ⟨t.entries.map (fun e => if e.1 = k then (e.1, v) else e)⟩

/-- `g_hash_table_size`. -/
def size (t : GHashTable κ ν) : Nat := t.entries.length

/-- The keys, in iteration order. -/
def keys (t : GHashTable κ ν) : List κ := t.entries.map Prod.fst

end GHashTable

/-- An `a{sv}` map (string to `GValue`). -/
abbrev Asv := GHashTable String GValue

/-- `tp_strdiff (left, right)`: `g_strcmp0 (left, right) != 0`; two `NULL`s are
equal and `NULL` differs from every string. -/
def tp_strdiff (left right : Option String) : Bool := decide (left ≠ right)

/-- `tp_asv_get_string`: the string stored under `key`, `NULL` when the key is
missing or its value is not a string. -/
def tp_asv_get_string (asv : Asv) (key : String) : Option String :=
  match asv.lookup key with
  | some (GValue.string s) => s
  | _ => none

/-- `tp_asv_get_uint32 (asv, key, &valid)`: the pair `(result, valid)`; the result
is `0` with `valid = FALSE` when the key is missing, the value is not of an
integer type, or it does not fit an unsigned 32-bit integer. -/
def tp_asv_get_uint32 (asv : Asv) (key : String) : Nat × Bool :=
  match asv.lookup key with
  | some (GValue.uchar n) => (n % 256, true)
  | some (GValue.uint n) => (n % 4294967296, true)
  | some (GValue.int i) => if i < 0 then (0, false) else (i.toNat % 4294967296, true)
  | some (GValue.int64 i) =>
      if i < 0 ∨ i > (G_MAXUINT32 : Int) then (0, false) else (i.toNat, true)
  | some (GValue.uint64 n) => if n > G_MAXUINT32 then (0, false) else (n, true)
  | _ => (0, false)

/-- `tp_asv_get_boxed (asv, key, G_TYPE_STRV)`: the string vector stored under
`key`, `NULL` when the key is missing or its value is not a string vector. -/
def tp_asv_get_strv (asv : Asv) (key : String) : Option (List String) :=
  match asv.lookup key with
  | some (GValue.strv l) => some l
  | _ => none

/-- `tp_strv_contains (strv, str)`: `FALSE` for a `NULL` vector. -/
def tp_strv_contains (strv : Option (List String)) (str : String) : Bool :=
  match strv with
  | none => false
  | some l => l.any (fun s => decide (s = str))

/-- A requestable channel class, a `GValueArray` of two elements: the hash table
of fixed properties and the vector of allowed property names. -/
structure ChannelClass where
  fixed : Asv
  allowed : List String
  deriving DecidableEq, Repr

/-! ## empathy-dispatcher.c: channel class matching -/

/-- The inner `for` loop of `channel_class_matches`: is `h_key` one of the names
of `fixed_properties`? -/
def key_in_fixed_properties (h_key : String) : List String → Bool
  | [] => false
  | p :: rest =>
      if !tp_strdiff (some h_key) (some p) then true
      else key_in_fixed_properties h_key rest

/-- The `while (g_hash_table_iter_next ...)` loop of `channel_class_matches`:
`false` as soon as a key other than ChannelType and TargetHandleType is not
found in `fixed_properties`. -/
def fixed_keys_allowed (fixed_properties : List String) : List (String × GValue) → Bool
  | [] => true
  | (h_key, _) :: rest =>
      if !tp_strdiff (some h_key) (some PROP_CHANNEL_TYPE) ||
          !tp_strdiff (some h_key) (some PROP_TARGET_HANDLE_TYPE) then
        fixed_keys_allowed fixed_properties rest
      else if !key_in_fixed_properties h_key fixed_properties then false
      else fixed_keys_allowed fixed_properties rest

/-- `channel_class_matches (class, channel_type, handle_type, fixed_properties)`. -/
def channel_class_matches (cls : ChannelClass) (channel_type : Option String)
    (handle_type : Nat) (fixed_properties : Option (List String)) : Bool :=
  let fprops := cls.fixed
  let c_type := tp_asv_get_string fprops PROP_CHANNEL_TYPE
  if tp_strdiff channel_type c_type then false
  else
    let r := tp_asv_get_uint32 fprops PROP_TARGET_HANDLE_TYPE
    let h_type := r.1
    let valid := r.2
    if !valid || (handle_type != h_type && handle_type != TP_UNKNOWN_HANDLE_TYPE) then false
    else
      match fixed_properties with
      | some props => fixed_keys_allowed props fprops.entries
      | none => if fprops.size > 2 then false else true

/-- `setup_varargs (var_args, channel_namespace, first_property_name)`: `NULL`
when the first name is `NULL`, otherwise the array of the first name followed
by the names read from `var_args` up to its terminating `NULL`. -/
def setup_varargs (var_args : List String) (first_property_name : Option String) :
    Option (List String) :=
  match first_property_name with
  | none => none
  | some name => some (name :: var_args)

/-! ## empathy-dispatcher.c: per-connection bookkeeping -/

/-- A `TpConnection *`, by identity. -/
abbrev TpConnection := Nat

/-- `DispatchData`: the channel and its type-specific wrapper object. -/
structure DispatchData where
  channel : Nat
  channel_wrapper : Option Nat
  deriving DecidableEq, Repr

/-- `DispatcherRequestData`: one outstanding channel request. -/
structure DispatcherRequestData where
  operation : Option Nat
  connection : TpConnection
  should_ensure : Bool
  channel_type : Option String
  handle_type : Nat
  handle : Nat
  contact : Option Nat
  request : Option Asv
  cb : Option Nat
  user_data : Nat
  channel_request : Option Nat
  deriving DecidableEq, Repr

/-- `ConnectionData`: what the dispatcher keeps for one connection;
`requestable_channels` is `NULL` until the RequestableChannelClasses property
has been received. -/
structure ConnectionData where
  dispatched_channels : GHashTable String DispatchData
  dispatching_channels : GHashTable String Nat
  outstanding_requests : List DispatcherRequestData
  requestable_channels : Option (List ChannelClass)
  deriving DecidableEq, Repr

/-- `new_connection_data ()`. -/
def new_connection_data : ConnectionData :=
  { dispatched_channels := GHashTable.empty
    dispatching_channels := GHashTable.empty
    outstanding_requests := []
    requestable_channels := none }

/-- `FindChannelRequest`: a queued asynchronous class lookup. `id` is the
identity of the `g_slice_new0` allocation; the other fields are those of the C
structure. -/
structure FindChannelRequest where
  id : Nat
  connection : TpConnection
  channel_type : Option String
  handle_type : Nat
  properties : Option (List String)
  callback : Nat
  user_data : Nat
  deriving DecidableEq, Repr

/-- The fields of `EmpathyDispatcherPriv` that the class lookups read and write. -/
structure EmpathyDispatcherPriv where
  connections : GHashTable TpConnection ConnectionData
  outstanding_classes_requests : GHashTable TpConnection (List FindChannelRequest)
  request_channel_class_async_ids : GHashTable Nat Nat
  deriving DecidableEq, Repr

/-- `empathy_dispatcher_find_channel_classes`: the `for` loop prepends every
matching class to `matching_classes`. -/
def empathy_dispatcher_find_channel_classes (priv : EmpathyDispatcherPriv)
    (connection : TpConnection) (channel_type : Option String) (handle_type : Nat)
    (fixed_properties : Option (List String)) : List ChannelClass :=
  match channel_type with
  | none => []
  | some _ =>
    match priv.connections.lookup connection with
    | none => []
    | some cd =>
      match cd.requestable_channels with
      | none => []
      | some classes =>
          classes.foldl
            (fun matching_classes cls =>
              if !channel_class_matches cls channel_type handle_type fixed_properties then
                matching_classes
              else cls :: matching_classes)
            []

/-- `empathy_dispatcher_find_requestable_channel_classes (self, connection,
channel_type, handle_type, first_property_name, ...)`; `var_args` are the names
that follow the first one, up to the terminating `NULL`. -/
def empathy_dispatcher_find_requestable_channel_classes (priv : EmpathyDispatcherPriv)
    (connection : TpConnection) (channel_type : Option String) (handle_type : Nat)
    (first_property_name : Option String) (var_args : List String) : List ChannelClass :=
  match channel_type with
  | none => []
  | some _ =>
      let properties := setup_varargs var_args first_property_name
      empathy_dispatcher_find_channel_classes priv connection channel_type handle_type
        properties

/-- The requested handle type matches the handle type `h` of a class: it is
`h`, or it is `TP_UNKNOWN_HANDLE_TYPE` (the caller does not care). -/
def handle_type_matches (handle_type h : Nat) : Prop :=
  handle_type = h ∨ handle_type = TP_UNKNOWN_HANDLE_TYPE

/-- No fixed property of the class other than ChannelType, TargetHandleType and
the names of `props`. -/
def only_fixed_properties (cls : ChannelClass) (props : List String) : Prop :=
  ∀ k ∈ cls.fixed.keys, k = PROP_CHANNEL_TYPE ∨ k = PROP_TARGET_HANDLE_TYPE ∨ k ∈ props

/-- The domain of a `GError`: `TP_ERROR`, or another quark. -/
inductive GErrorDomain where
  | TP_ERROR
  | other (quark : Nat)
  deriving DecidableEq, Repr

/-- A `GError`. -/
structure GError where
  domain : GErrorDomain
  code : Int
  message : String
  deriving DecidableEq, Repr

/-! ## empathy-dispatcher.c: the asynchronous class lookup -/

/-- One invocation of an `EmpathyDispatcherFindChannelClassCb`: the request whose
callback and user data were used, and the list handed to the callback. -/
structure FindChannelClassCall where
  request : FindChannelRequest
  classes : List ChannelClass
  deriving DecidableEq, Repr

/-- One invocation of an `EmpathyDispatcherRequestCb`. -/
structure DispatcherRequestCall where
  cb : Nat
  operation : Option Nat
  error : Option GError
  user_data : Nat
  deriving DecidableEq, Repr

/-- The dispatcher and what surrounds it: the private structure, the idle
sources pending in the GLib main loop (source id and user data), the counters
from which `g_idle_add` and `g_slice_new0` take fresh identities, and the
callback invocations made so far, oldest first. -/
structure Dispatcher where
  priv : EmpathyDispatcherPriv
  idle_sources : List (Nat × FindChannelRequest)
  next_source_id : Nat
  next_request_id : Nat
  class_calls : List FindChannelClassCall
  request_calls : List DispatcherRequestCall
  deriving DecidableEq, Repr

/-- `empathy_dispatcher_init`: empty tables, nothing pending. -/
def empathy_dispatcher_init : Dispatcher :=
  { priv :=
      { connections := GHashTable.empty
        outstanding_classes_requests := GHashTable.empty
        request_channel_class_async_ids := GHashTable.empty }
    idle_sources := []
    next_source_id := 1
    next_request_id := 0
    class_calls := []
    request_calls := [] }

/-- `empathy_dispatcher_find_requestable_channel_classes_async`: after the
`g_return_if_fail` guards, a new request is allocated and an idle source is
added for it. -/
def empathy_dispatcher_find_requestable_channel_classes_async (d : Dispatcher)
    (connection : TpConnection) (channel_type : Option String) (handle_type : Nat)
    (callback : Nat) (user_data : Nat) (first_property_name : Option String)
    (var_args : List String) : Dispatcher :=
  match channel_type with
  | none => d
  | some _ =>
    if handle_type == 0 then d
    else
      let properties := setup_varargs var_args first_property_name
      let request : FindChannelRequest :=
        { id := d.next_request_id
          connection := connection
          channel_type := channel_type
          handle_type := handle_type
          properties := properties
          callback := callback
          user_data := user_data }
      let source_id := d.next_source_id
      { d with
        priv := { d.priv with
          request_channel_class_async_ids :=
            d.priv.request_channel_class_async_ids.insert request.id source_id }
        idle_sources := d.idle_sources ++ [(source_id, request)]
        next_source_id := d.next_source_id + 1
        next_request_id := d.next_request_id + 1 }

/-- `find_channel_class_idle_cb (request)`. -/
def find_channel_class_idle_cb (d : Dispatcher) (request : FindChannelRequest) :
    Dispatcher :=
  let priv : EmpathyDispatcherPriv := { d.priv with
    request_channel_class_async_ids :=
      d.priv.request_channel_class_async_ids.remove request.id }
  let is_ready : Bool :=
    match priv.connections.lookup request.connection with
    | none => false
    | some cd =>
      match cd.requestable_channels with
      | none => false
      | some _ => true
  if is_ready then
    let retval := empathy_dispatcher_find_channel_classes priv request.connection
      request.channel_type request.handle_type request.properties
    { d with priv := priv, class_calls := d.class_calls ++ [⟨request, retval⟩] }
  else
    let requests := (priv.outstanding_classes_requests.lookup request.connection).getD []
    let requests := request :: requests
    { d with
      priv := { priv with
        outstanding_classes_requests :=
          priv.outstanding_classes_requests.insert request.connection requests } }

/-- The main loop dispatches the idle source `source_id`: its callback runs and,
as it returns `FALSE`, the source is removed. -/
def dispatch_idle (d : Dispatcher) (source_id : Nat) : Dispatcher :=
  match d.idle_sources.find? (fun s => decide (s.1 = source_id)) with
  | none => d
  | some (_, request) =>
      find_channel_class_idle_cb
        { d with idle_sources := d.idle_sources.filter (fun s => decide (s.1 ≠ source_id)) }
        request

/-- `dispatcher_connection_got_all (proxy, properties, error, ...)`;
`requestable_channels` is the RequestableChannelClasses entry of `properties`
(`NULL` when absent). `none` is the failure of `g_assert (cd != NULL)`. -/
def dispatcher_connection_got_all (d : Dispatcher) (proxy : TpConnection)
    (requestable_channels : Option (List ChannelClass)) (error : Option GError) :
    Option Dispatcher :=
  match error with
  | some _ => some d
  | none =>
    match requestable_channels with
    | none => some d
    | some classes =>
      match d.priv.connections.lookup proxy with
      | none => none
      | some cd =>
        let priv : EmpathyDispatcherPriv := { d.priv with
          connections := d.priv.connections.store proxy
            { cd with requestable_channels := some classes } }
        let requests := (priv.outstanding_classes_requests.lookup proxy).getD []
        let calls := requests.map (fun request =>
          (⟨request, empathy_dispatcher_find_channel_classes priv proxy
            request.channel_type request.handle_type request.properties⟩ :
              FindChannelClassCall))
        some { d with
          priv := { priv with
            outstanding_classes_requests := priv.outstanding_classes_requests.remove proxy }
          class_calls := d.class_calls ++ calls }

/-- `dispatcher_init_connection_if_needed`: a connection not yet in the table
gets a fresh `ConnectionData`. -/
def dispatcher_init_connection_if_needed (d : Dispatcher) (connection : TpConnection) :
    Dispatcher :=
  match d.priv.connections.lookup connection with
  | some _ => d
  | none =>
      { d with priv := { d.priv with
          connections := d.priv.connections.insert connection new_connection_data } }

/-- `dispatcher_connection_invalidated_cb (connection, domain, code, message)`. -/
def dispatcher_connection_invalidated_cb (d : Dispatcher) (connection : TpConnection)
    (domain : GErrorDomain) (code : Int) (message : String) : Dispatcher :=
  let calls : List DispatcherRequestCall :=
    match d.priv.connections.lookup connection with
    | none => []
    | some connection_data =>
        let error : GError := { domain := domain, code := code, message := message }
        connection_data.outstanding_requests.filterMap (fun request_data =>
          match request_data.cb with
          | some cb =>
              some { cb := cb, operation := none, error := some error,
                     user_data := request_data.user_data }
          | none => none)
  { d with
    priv := { d.priv with connections := d.priv.connections.remove connection }
    request_calls := d.request_calls ++ calls }

/-- What can happen to the dispatcher, as far as class lookups are concerned. -/
inductive DispatcherEvent where
  | find_classes_async (connection : TpConnection) (channel_type : Option String)
      (handle_type : Nat) (callback : Nat) (user_data : Nat)
      (first_property_name : Option String) (var_args : List String)
  | idle (source_id : Nat)
  | got_all (proxy : TpConnection) (requestable_channels : Option (List ChannelClass))
      (error : Option GError)
  | init_connection (connection : TpConnection)
  | connection_invalidated (connection : TpConnection) (domain : GErrorDomain) (code : Int)
      (message : String)

/-- One event; `none` when an assertion of the code fails. -/
def Dispatcher.step (d : Dispatcher) : DispatcherEvent → Option Dispatcher
  | DispatcherEvent.find_classes_async connection channel_type handle_type callback
      user_data first_property_name var_args =>
      some (empathy_dispatcher_find_requestable_channel_classes_async d connection
        channel_type handle_type callback user_data first_property_name var_args)
  | DispatcherEvent.idle source_id => some (dispatch_idle d source_id)
  | DispatcherEvent.got_all proxy requestable_channels error =>
      dispatcher_connection_got_all d proxy requestable_channels error
  | DispatcherEvent.init_connection connection =>
      some (dispatcher_init_connection_if_needed d connection)
  | DispatcherEvent.connection_invalidated connection domain code message =>
      some (dispatcher_connection_invalidated_cb d connection domain code message)

/-- A sequence of events, from a given state. -/
def Dispatcher.run (d : Dispatcher) : List DispatcherEvent → Option Dispatcher
  | [] => some d
  | e :: rest =>
      match d.step e with
      | none => none
      | some d' => d'.run rest

/-- The requests queued in `outstanding_classes_requests`, over all connections. -/
def queued_requests (t : GHashTable TpConnection (List FindChannelRequest)) :
    List FindChannelRequest :=
  t.entries.flatMap Prod.snd

/-- The requests made so far that are still allocated or have been answered: those
waiting on an idle source, those queued, and those whose callback was invoked. -/
def Dispatcher.requests (d : Dispatcher) : Multiset FindChannelRequest :=
  (d.idle_sources.map Prod.snd : Multiset FindChannelRequest) +
    (queued_requests d.priv.outstanding_classes_requests : Multiset FindChannelRequest) +
    (d.class_calls.map (fun c => c.request) : Multiset FindChannelRequest)

/-- What holds of the requests in every reachable state: their identities are
pairwise distinct and below the allocation counter, and a request is queued
under its own connection. -/
structure Dispatcher.Inv (d : Dispatcher) : Prop where
  nodup : (d.requests.map (fun r => r.id)).Nodup
  fresh : ∀ r ∈ d.requests, r.id < d.next_request_id
  keyed : ∀ e ∈ d.priv.outstanding_classes_requests.entries, ∀ r ∈ e.2, r.connection = e.1

/-- The classes of a connection have been received. -/
def classes_known (priv : EmpathyDispatcherPriv) (connection : TpConnection) : Prop :=
  ∃ cd classes, priv.connections.lookup connection = some cd ∧
    cd.requestable_channels = some classes

/-! ## empathy-dispatcher.c: dispatch operations -/

/-- `EmpathyDispatchOperationState`. -/
inductive EmpathyDispatchOperationState where
  | PREPARING
  | PENDING
  | APPROVING
  | DISPATCHING
  | CLAIMED
  | INVALIDATED
  deriving DecidableEq, Repr

/-- What the dispatcher reads of an `EmpathyDispatchOperation`: its identity, its
connection, the object path of its channel, the channel and the channel
wrapper. Its status changes over time and is given where it is read. -/
structure EmpathyDispatchOperation where
  ptr : Nat
  connection : TpConnection
  object_path : String
  channel : Nat
  channel_wrapper : Option Nat
  deriving DecidableEq, Repr

/-- `new_dispatch_data (channel, channel_wrapper)`. -/
def new_dispatch_data (channel : Nat) (channel_wrapper : Option Nat) : DispatchData :=
  { channel := channel, channel_wrapper := channel_wrapper }

/-- The `while` loop of `dispatch_operation_flush_requests` over the list of
outstanding requests: the requests that stay in the list, and the callback
invocations made, in the order of the list. -/
def flush_requests_loop (operation : Option Nat) (error : Option GError) :
    List DispatcherRequestData → List DispatcherRequestData × List DispatcherRequestCall
  | [] => ([], [])
  | d :: l =>
      let rest := flush_requests_loop operation error l
      if d.operation == operation then
        let calls : List DispatcherRequestCall :=
          match d.cb with
          | some cb =>
              match error with
              | some e =>
                  [{ cb := cb, operation := none, error := some e, user_data := d.user_data }]
              | none =>
                  [{ cb := cb, operation := operation, error := none,
                     user_data := d.user_data }]
          | none => []
        (rest.1, calls ++ rest.2)
      else (d :: rest.1, rest.2)

/-- `dispatch_operation_flush_requests (self, operation, error, cd)`: the
connection data afterwards and the callback invocations made. -/
def dispatch_operation_flush_requests (operation : Option Nat) (error : Option GError)
    (cd : ConnectionData) : ConnectionData × List DispatcherRequestCall :=
  let r := flush_requests_loop operation error cd.outstanding_requests
  ({ cd with outstanding_requests := r.1 }, r.2)

/-- `dispatch_operation_claimed_cb (operation, self)`; `none` is the failure of
`g_assert (cd != NULL)`. -/
def dispatch_operation_claimed_cb (d : Dispatcher) (operation : EmpathyDispatchOperation) :
    Option Dispatcher :=
  let connection := operation.connection
  match d.priv.connections.lookup connection with
  | none => none
  | some cd =>
      let object_path := operation.object_path
      let cd1 : ConnectionData :=
        match cd.dispatched_channels.lookup object_path with
        | none =>
            let data := new_dispatch_data operation.channel operation.channel_wrapper
            { cd with
              dispatched_channels := GHashTable.insert cd.dispatched_channels object_path data }
        | some _ => cd
      let cd2 : ConnectionData :=
        { cd1 with dispatching_channels := cd1.dispatching_channels.remove object_path }
      some { d with priv := { d.priv with
        connections := d.priv.connections.store connection cd2 } }

/-- What `dispatch_operation_ready_cb` does, in order: signal connections, signal
emissions, the start of the operation and the callbacks of flushed requests. -/
inductive DispatcherEffect where
  | connect_approved (operation : Nat)
  | connect_claimed (operation : Nat)
  | emit_observe (operation : Nat)
  | operation_start (operation : Nat)
  | request_cb (call : DispatcherRequestCall)
  | emit_approve (operation : Nat)
  | emit_dispatch (operation : Nat)
  deriving DecidableEq, Repr

/-- `dispatch_operation_ready_cb (operation, self)`; `status` is what
`empathy_dispatch_operation_get_status` returns after the requests have been
flushed. `none` is the failure of one of the two assertions. -/
def dispatch_operation_ready_cb (d : Dispatcher) (operation : EmpathyDispatchOperation)
    (status : EmpathyDispatchOperationState) : Option (Dispatcher × List DispatcherEffect) :=
  let first : List DispatcherEffect :=
    [DispatcherEffect.connect_approved operation.ptr,
     DispatcherEffect.connect_claimed operation.ptr,
     DispatcherEffect.emit_observe operation.ptr,
     DispatcherEffect.operation_start operation.ptr]
  let connection := operation.connection
  match d.priv.connections.lookup connection with
  | none => none
  | some cd =>
      let r := dispatch_operation_flush_requests (some operation.ptr) none cd
      let d' : Dispatcher := { d with
        priv := { d.priv with connections := d.priv.connections.store connection r.1 }
        request_calls := d.request_calls ++ r.2 }
      let effects := first ++ r.2.map DispatcherEffect.request_cb
      if status == EmpathyDispatchOperationState.CLAIMED then some (d', effects)
      else if status == EmpathyDispatchOperationState.APPROVING then
        some (d', effects ++ [DispatcherEffect.emit_approve operation.ptr])
      else if status == EmpathyDispatchOperationState.DISPATCHING then
        some (d', effects ++ [DispatcherEffect.emit_dispatch operation.ptr])
      else none

/-- The effect is a signal emission or a request callback. -/
def DispatcherEffect.is_emission_or_callback : DispatcherEffect → Bool
  | DispatcherEffect.emit_observe _ => true
  | DispatcherEffect.request_cb _ => true
  | DispatcherEffect.emit_approve _ => true
  | DispatcherEffect.emit_dispatch _ => true
  | _ => false

/-- The effect is the emission of `approve` or of `dispatch`. -/
def DispatcherEffect.is_approve_or_dispatch : DispatcherEffect → Bool
  | DispatcherEffect.emit_approve _ => true
  | DispatcherEffect.emit_dispatch _ => true
  | _ => false

/-! ## empathy-auth-factory.c -/

/-- `TP_ERROR_INVALID_ARGUMENT` of the `TpError` enumeration. -/
def TP_ERROR_INVALID_ARGUMENT : Int := 2

/-- `TP_IFACE_CHANNEL_TYPE_SERVER_AUTHENTICATION`; its quark is
`TP_IFACE_QUARK_CHANNEL_TYPE_SERVER_AUTHENTICATION`. -/
def TP_IFACE_CHANNEL_TYPE_SERVER_AUTHENTICATION : String :=
  "org.freedesktop.Telepathy.Channel.Type.ServerAuthentication"

/-- `EMP_IFACE_CHANNEL_TYPE_SERVER_TLS_CONNECTION`; its quark is
`EMP_IFACE_QUARK_CHANNEL_TYPE_SERVER_TLS_CONNECTION`. -/
def EMP_IFACE_CHANNEL_TYPE_SERVER_TLS_CONNECTION : String :=
  "org.freedesktop.Telepathy.Channel.Type.ServerTLSConnection"

/-- `TP_PROP_CHANNEL_INTERFACE_SASL_AUTHENTICATION_AVAILABLE_MECHANISMS`. -/
def TP_PROP_CHANNEL_INTERFACE_SASL_AUTHENTICATION_AVAILABLE_MECHANISMS : String :=
  "org.freedesktop.Telepathy.Channel.Interface.SASLAuthentication.AvailableMechanisms"

/-- What the factory reads of a `TpChannel`: its object path, its channel type
(`tp_channel_get_channel_type`), its immutable properties and the error it was
invalidated with, if any (`tp_proxy_get_invalidated`). -/
structure TpChannel where
  object_path : String
  channel_type : String
  immutable_properties : Asv
  invalidated : Option GError
  deriving DecidableEq, Repr

/-- `EmpathyAuthFactoryPriv`; the SASL handler is held by identity. -/
structure EmpathyAuthFactoryPriv where
  sasl_handler : Option Nat
  dispose_run : Bool
  deriving DecidableEq, Repr

/-- `HandlerContextData`: the handle-channels context, `NULL` when the channel
was claimed by the observer. -/
structure HandlerContextData where
  context : Option Nat
  deriving DecidableEq, Repr

/-- `handler_context_data_new (self, context)`. -/
def handler_context_data_new (context : Option Nat) : HandlerContextData :=
  { context := context }

/-- `ObserveChannelsData`. -/
structure ObserveChannelsData where
  context : Nat
  dispatch_operation : Nat
  account : Nat
  channel : TpChannel
  deriving DecidableEq, Repr

/-- The calls the factory makes on its collaborators. The two `fail` calls carry
the `GError *` they are given; `tp_handle_channels_context_fail` and
`tp_handle_channels_context_accept` carry the context pointer they are given,
which may be `NULL`. -/
inductive AuthEffect where
  | handle_channels_context_fail (context : Option Nat) (error : Option GError)
  | handle_channels_context_accept (context : Option Nat)
  | handle_channels_context_delay (context : Nat)
  | observe_channels_context_fail (context : Nat) (error : Option GError)
  | observe_channels_context_accept (context : Nat)
  | observe_channels_context_delay (context : Nat)
  | server_tls_handler_new_async (channel : TpChannel) (data : HandlerContextData)
  | server_sasl_handler_new_async (account : Nat) (channel : TpChannel)
      (data : HandlerContextData)
  | keyring_get_password_async (account : Nat) (data : ObserveChannelsData)
  | dispatch_operation_claim_async (dispatch_operation : Nat) (data : ObserveChannelsData)
  | connect_invalidated (handler : Nat)
  | emit_new_server_tls_handler (handler : Nat)
  | emit_new_server_sasl_handler (handler : Nat)
  deriving DecidableEq, Repr

/-- `common_checks (self, channels, must_be_sasl, &error)` with `error` initially
`NULL`: the returned boolean and the error left in `*error`. -/
def common_checks (priv : EmpathyAuthFactoryPriv) (channels : List TpChannel)
    (must_be_sasl : Bool) : Bool × Option GError :=
  if channels.length != 1 then
    (false, some
      { domain := GErrorDomain.TP_ERROR
        code := TP_ERROR_INVALID_ARGUMENT
        message := "Can't handle more than one ServerTLSConnection or ServerAuthentication " ++
          "channel for the same connection." })
  else
    match channels with
    | [] => (false, none)
    | channel :: _ =>
      if channel.channel_type != TP_IFACE_CHANNEL_TYPE_SERVER_AUTHENTICATION &&
          (must_be_sasl ||
            channel.channel_type != EMP_IFACE_CHANNEL_TYPE_SERVER_TLS_CONNECTION) then
        (false, some
          { domain := GErrorDomain.TP_ERROR
            code := TP_ERROR_INVALID_ARGUMENT
            message :=
              "Can only handle ServerTLSConnection or ServerAuthentication channels, " ++
              "this was a " ++ channel.channel_type ++ " channel" })
      else if channel.channel_type == TP_IFACE_CHANNEL_TYPE_SERVER_AUTHENTICATION &&
          priv.sasl_handler != none then
        (false, some
          { domain := GErrorDomain.TP_ERROR
            code := TP_ERROR_INVALID_ARGUMENT
            message := "Can't handle more than one ServerAuthentication channel at one time" })
      else
        let props := channel.immutable_properties
        let available_mechanisms := tp_asv_get_strv props
          TP_PROP_CHANNEL_INTERFACE_SASL_AUTHENTICATION_AVAILABLE_MECHANISMS
        if channel.channel_type == TP_IFACE_CHANNEL_TYPE_SERVER_AUTHENTICATION &&
            !tp_strv_contains available_mechanisms "X-TELEPATHY-PASSWORD" then
          (false, some
            { domain := GErrorDomain.TP_ERROR
              code := TP_ERROR_INVALID_ARGUMENT
              message := "Only the X-TELEPATHY-PASSWORD SASL mechanism is supported" })
        else
          match channel.invalidated with
          | some dbus_error => (false, some dbus_error)
          | none => (true, none)

/-- `handle_channels (handler, account, connection, channels, requests_satisfied,
user_action_time, context)`: the calls it makes, in order. It does not write
the private structure; the parameters it does not read (`connection`,
`requests_satisfied`, `user_action_time`) are left out. -/
def handle_channels (priv : EmpathyAuthFactoryPriv) (account : Nat)
    (channels : List TpChannel) (context : Nat) : List AuthEffect :=
  match common_checks priv channels false with
  | (false, error) => [AuthEffect.handle_channels_context_fail (some context) error]
  | (true, _) =>
      match channels with
      | [] => []
      | channel :: _ =>
        let data := handler_context_data_new (some context)
        let delay := AuthEffect.handle_channels_context_delay context
        if channel.channel_type == EMP_IFACE_CHANNEL_TYPE_SERVER_TLS_CONNECTION then
          [delay, AuthEffect.server_tls_handler_new_async channel data]
        else if channel.channel_type == TP_IFACE_CHANNEL_TYPE_SERVER_AUTHENTICATION then
          [delay, AuthEffect.server_sasl_handler_new_async account channel data]
        else [delay]

/-- `server_tls_handler_ready_cb`; `res` is what
`empathy_server_tls_handler_new_finish` gives, a handler or an error. The
context of the data is passed on without a `NULL` test. -/
def server_tls_handler_ready_cb (data : HandlerContextData) (res : Except GError Nat) :
    List AuthEffect :=
  match res with
  | Except.error error =>
      [AuthEffect.handle_channels_context_fail data.context (some error)]
  | Except.ok handler =>
      [AuthEffect.handle_channels_context_accept data.context,
       AuthEffect.emit_new_server_tls_handler handler]

/-- `sasl_handler_invalidated_cb`: `tp_clear_object (&priv->sasl_handler)`. -/
def sasl_handler_invalidated_cb (priv : EmpathyAuthFactoryPriv) : EmpathyAuthFactoryPriv :=
  { priv with sasl_handler := none }

/-- `server_sasl_handler_ready_cb`; `res` is what
`empathy_server_sasl_handler_new_finish` gives: a handler, or `NULL` and an
error. The result is stored in `priv->sasl_handler` in both cases. -/
def server_sasl_handler_ready_cb (priv : EmpathyAuthFactoryPriv) (data : HandlerContextData)
    (res : Except GError Nat) : EmpathyAuthFactoryPriv × List AuthEffect :=
  match res with
  | Except.error error =>
      ({ priv with sasl_handler := none },
        match data.context with
        | some context => [AuthEffect.handle_channels_context_fail (some context) (some error)]
        | none => [])
  | Except.ok handler =>
      ({ priv with sasl_handler := some handler },
        (match data.context with
          | some context => [AuthEffect.handle_channels_context_accept (some context)]
          | none => []) ++
        [AuthEffect.connect_invalidated handler,
         AuthEffect.emit_new_server_sasl_handler handler])

/-- `claim_cb`; `claimed` is the result of
`tp_channel_dispatch_operation_claim_finish`. -/
def claim_cb (data : ObserveChannelsData) (claimed : Bool) : List AuthEffect :=
  if !claimed then []
  else
    let h_data := handler_context_data_new none
    [AuthEffect.server_sasl_handler_new_async data.account data.channel h_data]

/-- `get_password_cb`; `password` is the result of
`empathy_keyring_get_password_finish`, `NULL` when the keyring has none. -/
def get_password_cb (data : ObserveChannelsData) (password : Option String) :
    List AuthEffect :=
  match password with
  | none => [AuthEffect.observe_channels_context_accept data.context]
  | some _ =>
      [AuthEffect.dispatch_operation_claim_async data.dispatch_operation data,
       AuthEffect.observe_channels_context_accept data.context]

/-- `observe_channels (client, account, connection, channels, dispatch_operation,
requests, context)`: the calls it makes, in order; the parameters it does not
read (`connection`, `requests`) are left out. -/
def observe_channels (priv : EmpathyAuthFactoryPriv) (account : Nat)
    (channels : List TpChannel) (dispatch_operation : Nat) (context : Nat) :
    List AuthEffect :=
  match common_checks priv channels true with
  | (false, error) => [AuthEffect.observe_channels_context_fail context error]
  | (true, _) =>
      match channels with
      | [] => []
      | channel :: _ =>
        let data : ObserveChannelsData :=
          { context := context
            dispatch_operation := dispatch_operation
            account := account
            channel := channel }
        [AuthEffect.keyring_get_password_async account data,
         AuthEffect.observe_channels_context_delay context]

/-- The factory and the calls it has made so far, oldest first. -/
structure AuthFactory where
  priv : EmpathyAuthFactoryPriv
  effects : List AuthEffect
  deriving DecidableEq, Repr

/-- `empathy_auth_factory_init`: no SASL handler is held. -/
def empathy_auth_factory_init : AuthFactory :=
  { priv := { sasl_handler := none, dispose_run := false }, effects := [] }

/-- The entry points of the factory: the two `TpBaseClient` virtual methods, the
completions of the asynchronous calls it starts, and the `invalidated` signal
of the SASL handler. -/
inductive AuthEvent where
  | handle_channels (account : Nat) (channels : List TpChannel) (context : Nat)
  | observe_channels (account : Nat) (channels : List TpChannel) (dispatch_operation : Nat)
      (context : Nat)
  | get_password_finished (data : ObserveChannelsData) (password : Option String)
  | claim_finished (data : ObserveChannelsData) (claimed : Bool)
  | server_tls_handler_ready (data : HandlerContextData) (res : Except GError Nat)
  | server_sasl_handler_ready (data : HandlerContextData) (res : Except GError Nat)
  | sasl_handler_invalidated

/-- One entry into the factory. -/
def AuthFactory.step (s : AuthFactory) : AuthEvent → AuthFactory
  | AuthEvent.handle_channels account channels context =>
      { s with effects := s.effects ++ handle_channels s.priv account channels context }
  | AuthEvent.observe_channels account channels dispatch_operation context =>
      { s with effects := s.effects ++
          observe_channels s.priv account channels dispatch_operation context }
  | AuthEvent.get_password_finished data password =>
      { s with effects := s.effects ++ get_password_cb data password }
  | AuthEvent.claim_finished data claimed =>
      { s with effects := s.effects ++ claim_cb data claimed }
  | AuthEvent.server_tls_handler_ready data res =>
      { s with effects := s.effects ++ server_tls_handler_ready_cb data res }
  | AuthEvent.server_sasl_handler_ready data res =>
      { priv := (server_sasl_handler_ready_cb s.priv data res).1
        effects := s.effects ++ (server_sasl_handler_ready_cb s.priv data res).2 }
  | AuthEvent.sasl_handler_invalidated =>
      { s with priv := sasl_handler_invalidated_cb s.priv }

/-- A sequence of entries, from a given state. -/
def AuthFactory.run (s : AuthFactory) (events : List AuthEvent) : AuthFactory :=
  events.foldl AuthFactory.step s

/-- The effect is `tp_observe_channels_context_accept`. -/
def AuthEffect.is_observe_accept : AuthEffect → Bool
  | AuthEffect.observe_channels_context_accept _ => true
  | _ => false

/-- The effect is `tp_channel_dispatch_operation_claim_async`. -/
def AuthEffect.is_claim : AuthEffect → Bool
  | AuthEffect.dispatch_operation_claim_async _ _ => true
  | _ => false

/-- The effect is `empathy_keyring_get_password_async`. -/
def AuthEffect.is_keyring_lookup : AuthEffect → Bool
  | AuthEffect.keyring_get_password_async _ _ => true
  | _ => false

/-- The available SASL mechanisms of a channel, as `common_checks` reads them
from the immutable properties. -/
def available_mechanisms (channel : TpChannel) : Option (List String) :=
  tp_asv_get_strv channel.immutable_properties
    TP_PROP_CHANNEL_INTERFACE_SASL_AUTHENTICATION_AVAILABLE_MECHANISMS

/-- The error of the third test of `common_checks`. -/
def one_sasl_channel_error : GError :=
  { domain := GErrorDomain.TP_ERROR
    code := TP_ERROR_INVALID_ARGUMENT
    message := "Can't handle more than one ServerAuthentication channel at one time" }

/-! ## empathy-contact.c -/

/-- What is read of a `TpContact`: its identity, `tp_contact_get_identifier` and
`tp_contact_get_alias` (`alias` is a reserved word, hence `alias_`). -/
structure TpContact where
  ptr : Nat
  identifier : Option String
  alias_ : Option String
  deriving DecidableEq, Repr

/-- `FolksPresenceType` of libfolks. -/
inductive FolksPresenceType where
  | UNSET
  | OFFLINE
  | AVAILABLE
  | AWAY
  | EXTENDED_AWAY
  | HIDDEN
  | BUSY
  | UNKNOWN
  | ERROR
  deriving DecidableEq, Repr

/-- The fields of `EmpathyContactPriv` that identity, alias, capabilities and
the choice of a contact depend on. The account and the persona are held by
address: what is read of a persona is read from the object at that address
when it is needed. -/
structure EmpathyContactPriv where
  tp_contact : Option TpContact
  account : Option Nat
  persona : Option Nat
  id : Option String
  alias_ : Option String
  capabilities : Nat
  is_user : Bool
  deriving DecidableEq, Repr

/-- An `EmpathyContact` object: its address and its private structure. -/
structure EmpathyContact where
  ptr : Nat
  priv : EmpathyContactPriv
  deriving DecidableEq, Repr

/-- `EMP_STR_EMPTY (x)`: `x` is `NULL` or the empty string. -/
def EMP_STR_EMPTY (x : Option String) : Bool :=
  match x with
  | none => true
  | some s => s.isEmpty

/-- `empathy_contact_get_id (contact)`; `NULL` for a `NULL` contact. -/
def empathy_contact_get_id (contact : Option EmpathyContact) : Option String :=
  match contact with
  | none => none
  | some c =>
      match c.priv.tp_contact with
      | some tp_contact => tp_contact.identifier
      | none => c.priv.id

/-- `empathy_contact_get_alias (contact)`. -/
def empathy_contact_get_alias (contact : Option EmpathyContact) : Option String :=
  match contact with
  | none => none
  | some c =>
      let alias_ :=
        match c.priv.tp_contact with
        | some tp_contact => tp_contact.alias_
        | none => c.priv.alias_
      if !EMP_STR_EMPTY alias_ then alias_
      else empathy_contact_get_id contact

/-- `empathy_contact_is_user (contact)`. -/
def empathy_contact_is_user (contact : Option EmpathyContact) : Bool :=
  match contact with
  | none => false
  | some c => c.priv.is_user

/-- `empathy_contact_equal (contact1, contact2)`; the two arguments are pointers,
compared by address before the contacts are looked at. -/
def empathy_contact_equal (contact1 contact2 : Option EmpathyContact) : Bool :=
  if contact1.isNone != contact2.isNone then false
  else if contact1.map (fun c => c.ptr) == contact2.map (fun c => c.ptr) then true
  else
    let id1 := empathy_contact_get_id contact1
    let id2 := empathy_contact_get_id contact2
    if !tp_strdiff id1 id2 then true
    else false

/-- `empathy_contact_init`: the private structure of a new object is zeroed. -/
def empathy_contact_init (ptr : Nat) : EmpathyContact :=
  { ptr := ptr
    priv :=
      { tp_contact := none, account := none, persona := none, id := none, alias_ := none,
        capabilities := 0, is_user := false } }

/-- `empathy_contact_set_id (contact, id)`; a `NULL` id is refused. -/
def empathy_contact_set_id (contact : EmpathyContact) (id : Option String) : EmpathyContact :=
  match id with
  | none => contact
  | some _ =>
      if tp_strdiff id contact.priv.id then { contact with priv := { contact.priv with id := id } }
      else contact

/-- `empathy_contact_set_alias (contact, alias)`, as far as the contact itself is
concerned (the alias is also set on the persona, when there is one). -/
def empathy_contact_set_alias (contact : EmpathyContact) (alias_ : Option String) :
    EmpathyContact :=
  if tp_strdiff alias_ contact.priv.alias_ then
    { contact with priv := { contact.priv with alias_ := alias_ } }
  else contact

/-- `empathy_contact_set_is_user (contact, is_user)`. -/
def empathy_contact_set_is_user (contact : EmpathyContact) (is_user : Bool) : EmpathyContact :=
  if contact.priv.is_user == is_user then contact
  else { contact with priv := { contact.priv with is_user := is_user } }

/-- `TplEntityType` of telepathy-logger. -/
inductive TplEntityType where
  | UNKNOWN
  | CONTACT
  | ROOM
  | SELF
  deriving DecidableEq, Repr

/-- What is read of a `TplEntity`. -/
structure TplEntity where
  identifier : Option String
  alias_ : Option String
  entity_type : TplEntityType
  avatar_token : Option String
  deriving DecidableEq, Repr

/-- The `EmpathyCapabilities` flags, each `1 << n`; the enumeration is declared in
a header that is not part of the sources at hand, so the bit numbers are
parameters, and so is the value of `EMPATHY_CAPABILITIES_UNKNOWN`. -/
structure EmpathyCapabilitiesBits where
  audio : Nat
  video : Nat
  ft : Nat
  rfb_stream_tube : Nat
  unknown : Nat
  deriving DecidableEq, Repr

/-- `EMPATHY_CAPABILITIES_AUDIO`. -/
def EMPATHY_CAPABILITIES_AUDIO (e : EmpathyCapabilitiesBits) : Nat := 1 <<< e.audio

/-- `EMPATHY_CAPABILITIES_VIDEO`. -/
def EMPATHY_CAPABILITIES_VIDEO (e : EmpathyCapabilitiesBits) : Nat := 1 <<< e.video

/-- `EMPATHY_CAPABILITIES_FT`. -/
def EMPATHY_CAPABILITIES_FT (e : EmpathyCapabilitiesBits) : Nat := 1 <<< e.ft

/-- `EMPATHY_CAPABILITIES_RFB_STREAM_TUBE`. -/
def EMPATHY_CAPABILITIES_RFB_STREAM_TUBE (e : EmpathyCapabilitiesBits) : Nat :=
  1 <<< e.rfb_stream_tube

/-- `EMPATHY_CAPABILITIES_UNKNOWN`. -/
def EMPATHY_CAPABILITIES_UNKNOWN (e : EmpathyCapabilitiesBits) : Nat := e.unknown

/-- `empathy_contact_set_capabilities (contact, capabilities)`. -/
def empathy_contact_set_capabilities (contact : EmpathyContact) (capabilities : Nat) :
    EmpathyContact :=
  if contact.priv.capabilities == capabilities then contact
  else { contact with priv := { contact.priv with capabilities := capabilities } }

/-- The first part of `g_object_new (EMPATHY_TYPE_CONTACT, ...)`: the instance
is initialised, then `contact_set_property` is called for the construct
properties, which are "tp-contact" and "account" (each `NULL` unless given) and
"capabilities" (its default, `EMPATHY_CAPABILITIES_UNKNOWN`).
`contact_constructed` and the other properties come after. -/
def contact_construct_properties (e : EmpathyCapabilitiesBits) (ptr : Nat)
    (tp_contact : Option TpContact) (account : Option Nat) : EmpathyContact :=
  let contact := empathy_contact_init ptr
  let contact := { contact with priv := { contact.priv with tp_contact := tp_contact } }
  let contact := { contact with priv := { contact.priv with account := account } }
  empathy_contact_set_capabilities contact (EMPATHY_CAPABILITIES_UNKNOWN e)

/-- `empathy_contact_from_tpl_contact (account, tpl_entity)`: `g_object_new` with
the properties "id", "alias", "account" and "is-user" for a new object at
address `ptr`. The construct properties are set first; `contact_constructed`
returns at once, the object having no `TpContact`; "id", "alias" and "is-user"
are then set in this order. The avatar, loaded from the cache afterwards, is
not part of the model. -/
def empathy_contact_from_tpl_contact (e : EmpathyCapabilitiesBits) (ptr : Nat)
    (account : Option Nat) (tpl_entity : TplEntity) : EmpathyContact :=
  let is_user := decide (TplEntityType.SELF = tpl_entity.entity_type)
  let retval := contact_construct_properties e ptr none account
  let retval := empathy_contact_set_id retval tpl_entity.alias_
  let retval := empathy_contact_set_alias retval tpl_entity.identifier
  empathy_contact_set_is_user retval is_user

/-- `TP_HANDLE_TYPE_CONTACT`. -/
def TP_HANDLE_TYPE_CONTACT : Nat := 1

/-- `TP_IFACE_CHANNEL_TYPE_FILE_TRANSFER`. -/
def TP_IFACE_CHANNEL_TYPE_FILE_TRANSFER : String :=
  "org.freedesktop.Telepathy.Channel.Type.FileTransfer"

/-- `TP_IFACE_CHANNEL_TYPE_STREAM_TUBE`. -/
def TP_IFACE_CHANNEL_TYPE_STREAM_TUBE : String :=
  "org.freedesktop.Telepathy.Channel.Type.StreamTube"

/-- `TP_IFACE_CHANNEL_TYPE_STREAMED_MEDIA`. -/
def TP_IFACE_CHANNEL_TYPE_STREAMED_MEDIA : String :=
  "org.freedesktop.Telepathy.Channel.Type.StreamedMedia"

/-- `TP_PROP_CHANNEL_TYPE_STREAM_TUBE_SERVICE`. -/
def TP_PROP_CHANNEL_TYPE_STREAM_TUBE_SERVICE : String :=
  "org.freedesktop.Telepathy.Channel.Type.StreamTube.Service"

/-- `TP_PROP_CHANNEL_TYPE_STREAMED_MEDIA_INITIAL_AUDIO`. -/
def TP_PROP_CHANNEL_TYPE_STREAMED_MEDIA_INITIAL_AUDIO : String :=
  "org.freedesktop.Telepathy.Channel.Type.StreamedMedia.InitialAudio"

/-- `TP_PROP_CHANNEL_TYPE_STREAMED_MEDIA_INITIAL_VIDEO`. -/
def TP_PROP_CHANNEL_TYPE_STREAMED_MEDIA_INITIAL_VIDEO : String :=
  "org.freedesktop.Telepathy.Channel.Type.StreamedMedia.InitialVideo"

/-- `tp_asv_get_boolean (asv, key, NULL)`: `FALSE` when the key is missing or its
value is not a boolean. -/
def tp_asv_get_boolean (asv : Asv) (key : String) : Bool :=
  match asv.lookup key with
  | some (GValue.boolean b) => b
  | _ => false

/-- The `for` loop of `tp_caps_to_capabilities` over the allowed properties of a
StreamedMedia class. -/
def streamed_media_allowed_loop (e : EmpathyCapabilitiesBits) (capabilities : Nat) :
    List String → Nat
  | [] => capabilities
  | allowed_prop :: rest =>
      if !tp_strdiff (some allowed_prop)
          (some TP_PROP_CHANNEL_TYPE_STREAMED_MEDIA_INITIAL_AUDIO) then
        streamed_media_allowed_loop e (capabilities ||| EMPATHY_CAPABILITIES_AUDIO e) rest
      else if !tp_strdiff (some allowed_prop)
          (some TP_PROP_CHANNEL_TYPE_STREAMED_MEDIA_INITIAL_VIDEO) then
        streamed_media_allowed_loop e (capabilities ||| EMPATHY_CAPABILITIES_VIDEO e) rest
      else streamed_media_allowed_loop e capabilities rest

/-- The body of the `for` loop of `tp_caps_to_capabilities` over the channel
classes: the capabilities after one class. -/
def tp_caps_class_step (e : EmpathyCapabilitiesBits) (capabilities : Nat)
    (class_struct : ChannelClass) : Nat :=
  let fixed_prop := class_struct.fixed
  let allowed_prop := class_struct.allowed
  let handle_type := (tp_asv_get_uint32 fixed_prop PROP_TARGET_HANDLE_TYPE).1
  if handle_type != TP_HANDLE_TYPE_CONTACT then capabilities
  else
    let chan_type := tp_asv_get_string fixed_prop PROP_CHANNEL_TYPE
    if !tp_strdiff chan_type (some TP_IFACE_CHANNEL_TYPE_FILE_TRANSFER) then
      capabilities ||| EMPATHY_CAPABILITIES_FT e
    else if !tp_strdiff chan_type (some TP_IFACE_CHANNEL_TYPE_STREAM_TUBE) then
      let service := tp_asv_get_string fixed_prop TP_PROP_CHANNEL_TYPE_STREAM_TUBE_SERVICE
      if !tp_strdiff service (some "rfb") then
        capabilities ||| EMPATHY_CAPABILITIES_RFB_STREAM_TUBE e
      else capabilities
    else if !tp_strdiff chan_type (some TP_IFACE_CHANNEL_TYPE_STREAMED_MEDIA) then
      let capabilities := streamed_media_allowed_loop e capabilities allowed_prop
      let capabilities :=
        if tp_asv_get_boolean fixed_prop TP_PROP_CHANNEL_TYPE_STREAMED_MEDIA_INITIAL_AUDIO then
          capabilities ||| EMPATHY_CAPABILITIES_AUDIO e
        else capabilities
      if tp_asv_get_boolean fixed_prop TP_PROP_CHANNEL_TYPE_STREAMED_MEDIA_INITIAL_VIDEO then
        capabilities ||| EMPATHY_CAPABILITIES_VIDEO e
      else capabilities
    else capabilities

/-- `tp_caps_to_capabilities (caps)`; `classes` is
`tp_capabilities_get_channel_classes (caps)`. -/
def tp_caps_to_capabilities (e : EmpathyCapabilitiesBits) (classes : List ChannelClass) : Nat :=
  classes.foldl (tp_caps_class_step e) 0

/-- The contribution of one channel class, in the words of the specification: bit
`i` is contributed by a class with TargetHandleType CONTACT that is a
FileTransfer class (the FT bit), a StreamTube class whose fixed Service is
"rfb" (the RFB_STREAM_TUBE bit), or a StreamedMedia class that has InitialAudio
(resp. InitialVideo) among its allowed properties or fixed to true (the AUDIO,
resp. VIDEO, bit). -/
def class_contributes (e : EmpathyCapabilitiesBits) (cls : ChannelClass) (i : Nat) : Prop :=
  (tp_asv_get_uint32 cls.fixed PROP_TARGET_HANDLE_TYPE).1 = TP_HANDLE_TYPE_CONTACT ∧
  ((tp_asv_get_string cls.fixed PROP_CHANNEL_TYPE = some TP_IFACE_CHANNEL_TYPE_FILE_TRANSFER ∧
      i = e.ft) ∨
   (tp_asv_get_string cls.fixed PROP_CHANNEL_TYPE = some TP_IFACE_CHANNEL_TYPE_STREAM_TUBE ∧
      tp_asv_get_string cls.fixed TP_PROP_CHANNEL_TYPE_STREAM_TUBE_SERVICE = some "rfb" ∧
      i = e.rfb_stream_tube) ∨
   (tp_asv_get_string cls.fixed PROP_CHANNEL_TYPE = some TP_IFACE_CHANNEL_TYPE_STREAMED_MEDIA ∧
      ((( TP_PROP_CHANNEL_TYPE_STREAMED_MEDIA_INITIAL_AUDIO ∈ cls.allowed ∨
          tp_asv_get_boolean cls.fixed TP_PROP_CHANNEL_TYPE_STREAMED_MEDIA_INITIAL_AUDIO
            = true) ∧ i = e.audio) ∨
       ((TP_PROP_CHANNEL_TYPE_STREAMED_MEDIA_INITIAL_VIDEO ∈ cls.allowed ∨
          tp_asv_get_boolean cls.fixed TP_PROP_CHANNEL_TYPE_STREAMED_MEDIA_INITIAL_VIDEO
            = true) ∧ i = e.video))))

/-- `EmpathyActionType`. -/
inductive EmpathyActionType where
  | CHAT
  | AUDIO_CALL
  | VIDEO_CALL
  | VIEW_LOGS
  | SEND_FILE
  | SHARE_MY_DESKTOP
  deriving DecidableEq, Repr

/-- What `empathy-contact.c` reads of the libraries and singletons around it,
none of which is among the sources at hand: each is a parameter. The objects of
the libraries (`TpContact`, `TpConnection`, `TpAccount`, `FolksPersona`) are
given by their addresses.
* `identifier`, `alias_`, `connection`, `handle`, `capabilities`:
  `tp_contact_get_identifier`, `tp_contact_get_alias`,
  `tp_contact_get_connection`, `tp_contact_get_handle` and the channel classes
  of `tp_contact_get_capabilities` (`NULL` when the contact has none) of the
  `TpContact` at an address;
* `self_handle`: `tp_connection_get_self_handle`;
* `account_for_connection`: `empathy_get_account_for_connection`;
* `log_exists`: `tpl_log_manager_exists` for text events, asked for an account
  and an entity of type contact with the given identifier;
* `is_interesting`: `empathy_folks_persona_is_interesting`;
* `persona_contact`: `tpf_persona_get_contact`, the address of a `TpContact`;
* `presence_type`: `folks_presence_details_get_presence_type` of the persona
  at an address;
* `individuals`: the individuals of `empathy_individual_manager_get_members`,
  each given by `folks_individual_get_personas`. -/
structure ContactEnv where
  identifier : Nat → Option String
  alias_ : Nat → Option String
  connection : Nat → Nat
  handle : Nat → Nat
  capabilities : Nat → Option (List ChannelClass)
  self_handle : Nat → Nat
  account_for_connection : Nat → Option Nat
  log_exists : Option Nat → Option String → Bool
  is_interesting : Nat → Bool
  persona_contact : Nat → Nat
  presence_type : Nat → FolksPresenceType
  individuals : List (List Nat)

/-- The `TpContact` at an address, as `EmpathyContactPriv` holds it. -/
def ContactEnv.tp_contact (w : ContactEnv) (tp_contact : Nat) : TpContact :=
  { ptr := tp_contact
    identifier := w.identifier tp_contact
    alias_ := w.alias_ tp_contact }

/-- `set_capabilities_from_tp_caps (self, caps)`; `caps` is `NULL` or the channel
classes of the `TpCapabilities`. -/
def set_capabilities_from_tp_caps (e : EmpathyCapabilitiesBits) (self : EmpathyContact)
    (caps : Option (List ChannelClass)) : EmpathyContact :=
  match caps with
  | none => self
  | some classes => empathy_contact_set_capabilities self (tp_caps_to_capabilities e classes)

/-- `contact_constructed (object)`, as far as the fields of the model go: the
capabilities are taken from the `TpContact`, and `is_user` tells whether its
handle is the self handle of its connection. The presence, the location (with
the geocode lookup it may start), the client types and the avatar, which are
set here too, are not part of the model. -/
def contact_constructed (e : EmpathyCapabilitiesBits) (w : ContactEnv)
    (contact : EmpathyContact) : EmpathyContact :=
  match contact.priv.tp_contact with
  | none => contact
  | some tp_contact =>
      let contact := set_capabilities_from_tp_caps e contact (w.capabilities tp_contact.ptr)
      let self_handle := w.self_handle (w.connection tp_contact.ptr)
      let handle := w.handle tp_contact.ptr
      empathy_contact_set_is_user contact (self_handle == handle)

/-- `empathy_contact_new (tp_contact)`: `g_object_new` with the property
"tp-contact" for a new object at address `ptr`. -/
def empathy_contact_new (e : EmpathyCapabilitiesBits) (w : ContactEnv) (ptr : Nat)
    (tp_contact : Nat) : EmpathyContact :=
  contact_constructed e w
    (contact_construct_properties e ptr (some (w.tp_contact tp_contact)) none)

/-- An `EmpathyContact` of `contacts_table` and its reference count; an object
that is alive has at least one reference. -/
structure CachedContact where
  contact : EmpathyContact
  ref_count : PNat
  deriving DecidableEq, Repr

/-- The state that `empathy-contact.c` keeps between calls: `contacts_table`,
`NULL` until it is first used, together with the objects it points to (an
object is taken out of the table when it is disposed, so each entry points to
a live object), and the address that the next `g_object_new` returns. The
table is keyed by the address of the `TpContact`; a pointer to an
`EmpathyContact` of the table is represented by the key of the object. -/
structure ContactsState where
  contacts_table : Option (GHashTable Nat CachedContact)
  next_address : Nat
  deriving DecidableEq, Repr

/-- The entry that a pointer to an `EmpathyContact` stands for; `none` when there
is no such object. -/
def ContactsState.object (s : ContactsState) (contact : Nat) : Option CachedContact :=
  match s.contacts_table with
  | none => none
  | some table => table.lookup contact

/-- The object that a pointer to an `EmpathyContact` points to; `none` stands for
a `NULL` pointer, which the functions refuse with `g_return_if_fail`. -/
def ContactsState.contact (s : ContactsState) (contact : Nat) : Option EmpathyContact :=
  (s.object contact).map (fun c => c.contact)

/-- A write to the fields of the object that `contact` points to. -/
def ContactsState.write (s : ContactsState) (contact : Nat) (value : EmpathyContact) :
    ContactsState :=
  match s.contacts_table with
  | none => s
  | some table =>
      match table.lookup contact with
      | none => s
      | some c =>
          let c := { c with contact := value }
          { s with contacts_table := some (table.store contact c) }

/-- `g_object_ref (contact)` for an `EmpathyContact`. -/
def g_object_ref (s : ContactsState) (contact : Nat) : ContactsState :=
  match s.contacts_table with
  | none => s
  | some table =>
      match table.lookup contact with
      | none => s
      | some c =>
          let c := { c with ref_count := c.ref_count + 1 }
          { s with contacts_table := some (table.store contact c) }

/-- `contact_dispose (object)`, as far as the table goes: the entry of the
`TpContact` of the object is removed. -/
def contact_dispose (s : ContactsState) (object : EmpathyContact) : ContactsState :=
  match object.priv.tp_contact, s.contacts_table with
  | some tp_contact, some table =>
      { s with contacts_table := some (table.remove tp_contact.ptr) }
  | _, _ => s

/-- `g_object_unref (contact)` for an `EmpathyContact`: the object is disposed
when its last reference is dropped. -/
def g_object_unref (s : ContactsState) (contact : Nat) : ContactsState :=
  match s.contacts_table with
  | none => s
  | some table =>
      match table.lookup contact with
      | none => s
      | some c =>
          if c.ref_count = 1 then contact_dispose s c.contact
          else
            let c := { c with ref_count := c.ref_count - 1 }
            { s with contacts_table := some (table.store contact c) }

/-- `empathy_contact_dup_from_tp_contact (tp_contact)` for a `TpContact` that is
not `NULL`: the pointer returned and the state afterwards. -/
def empathy_contact_dup_from_tp_contact (e : EmpathyCapabilitiesBits) (w : ContactEnv)
    (s : ContactsState) (tp_contact : Nat) : Nat × ContactsState :=
  let table : GHashTable Nat CachedContact :=
    match s.contacts_table with
    | none => GHashTable.empty
    | some table => table
  let contact : Option CachedContact :=
    match s.contacts_table with
    | none => none
    | some table => table.lookup tp_contact
  match contact with
  | none =>
      let contact := empathy_contact_new e w s.next_address tp_contact
      let c : CachedContact := { contact := contact, ref_count := 1 }
      (tp_contact,
        { contacts_table := some (GHashTable.insert table tp_contact c)
          next_address := s.next_address + 1 })
  | some c =>
      let c := { c with ref_count := c.ref_count + 1 }
      (tp_contact, { s with contacts_table := some (table.store tp_contact c) })

/-- `empathy_contact_can_voip_audio (contact)`, the `gboolean` it returns:
`priv->capabilities & EMPATHY_CAPABILITIES_AUDIO`, `FALSE` for `NULL`. -/
def empathy_contact_can_voip_audio (e : EmpathyCapabilitiesBits)
    (contact : Option EmpathyContact) : Nat :=
  match contact with
  | none => 0
  | some c => c.priv.capabilities &&& EMPATHY_CAPABILITIES_AUDIO e

/-- `empathy_contact_can_voip_video (contact)`. -/
def empathy_contact_can_voip_video (e : EmpathyCapabilitiesBits)
    (contact : Option EmpathyContact) : Nat :=
  match contact with
  | none => 0
  | some c => c.priv.capabilities &&& EMPATHY_CAPABILITIES_VIDEO e

/-- `empathy_contact_can_send_files (contact)`. -/
def empathy_contact_can_send_files (e : EmpathyCapabilitiesBits)
    (contact : Option EmpathyContact) : Nat :=
  match contact with
  | none => 0
  | some c => c.priv.capabilities &&& EMPATHY_CAPABILITIES_FT e

/-- `empathy_contact_can_use_rfb_stream_tube (contact)`. -/
def empathy_contact_can_use_rfb_stream_tube (e : EmpathyCapabilitiesBits)
    (contact : Option EmpathyContact) : Nat :=
  match contact with
  | none => 0
  | some c => c.priv.capabilities &&& EMPATHY_CAPABILITIES_RFB_STREAM_TUBE e

/-- `empathy_contact_get_account (contact)`: the account returned and the state
afterwards; the account of the connection of the `TpContact` is looked up, and
kept in `priv->account`, when the contact has no account yet. -/
def empathy_contact_get_account (w : ContactEnv) (s : ContactsState) (contact : Nat) :
    Option Nat × ContactsState :=
  match s.contact contact with
  | none => (none, s)
  | some c =>
      match c.priv.account, c.priv.tp_contact with
      | none, some tp_contact =>
          let connection := w.connection tp_contact.ptr
          let account := w.account_for_connection connection
          (account, s.write contact { c with priv := { c.priv with account := account } })
      | _, _ => (c.priv.account, s)

/-- `contact_has_log (contact)`. -/
def contact_has_log (w : ContactEnv) (s : ContactsState) (contact : Nat) :
    Bool × ContactsState :=
  let id := empathy_contact_get_id (s.contact contact)
  let r := empathy_contact_get_account w s contact
  (w.log_exists r.1 id, r.2)

/-- `empathy_contact_can_do_action (self, action_type)`: `sensitivity ? TRUE :
FALSE`, and the state afterwards. -/
def empathy_contact_can_do_action (e : EmpathyCapabilitiesBits) (w : ContactEnv)
    (s : ContactsState) (self : Nat) (action_type : EmpathyActionType) :
    Bool × ContactsState :=
  let r : Nat × ContactsState :=
    match action_type with
    | EmpathyActionType.CHAT => (1, s)
    | EmpathyActionType.AUDIO_CALL => (empathy_contact_can_voip_audio e (s.contact self), s)
    | EmpathyActionType.VIDEO_CALL => (empathy_contact_can_voip_video e (s.contact self), s)
    | EmpathyActionType.VIEW_LOGS =>
        let h := contact_has_log w s self
        (if h.1 then 1 else 0, h.2)
    | EmpathyActionType.SEND_FILE => (empathy_contact_can_send_files e (s.contact self), s)
    | EmpathyActionType.SHARE_MY_DESKTOP =>
        (empathy_contact_can_use_rfb_stream_tube e (s.contact self), s)
  (r.1 != 0, r.2)

/-- `empathy_contact_set_persona (contact, persona)` for a persona that is a
`TpfPersona`: nothing is done when the persona is already the one of the
contact; otherwise it is stored and, when the contact has an alias, the alias
is set again with `empathy_contact_set_alias`, which hands it to the persona.
The signal handlers, the notification and the groups kept for the persona are
not part of the model. -/
def empathy_contact_set_persona (s : ContactsState) (contact : Nat) (persona : Nat) :
    ContactsState :=
  match s.contact contact with
  | none => s
  | some c =>
      if c.priv.persona == some persona then s
      else
        let c := { c with priv := { c.priv with persona := some persona } }
        let c :=
          match c.priv.alias_ with
          | some _ => empathy_contact_set_alias c c.priv.alias_
          | none => c
        s.write contact c

/-- The inner loop of `empathy_contact_get_persona` over the personas of one
individual: the first interesting persona whose contact is `tp_contact`. -/
def get_persona_find (w : ContactEnv) (tp_contact : Nat) : List Nat → Option Nat
  | [] => none
  | persona :: j =>
      if w.is_interesting persona && w.persona_contact persona == tp_contact then some persona
      else get_persona_find w tp_contact j

/-- The outer loop of `empathy_contact_get_persona` over the individuals. -/
def get_persona_search (w : ContactEnv) (tp_contact : Nat) : List (List Nat) → Option Nat
  | [] => none
  | personas :: l =>
      match get_persona_find w tp_contact personas with
      | some persona => some persona
      | none => get_persona_search w tp_contact l

/-- `empathy_contact_get_persona (contact)`: the persona returned and the state
afterwards; a contact that has no persona yet is given the one found among the
individuals of the manager, if there is one. -/
def empathy_contact_get_persona (w : ContactEnv) (s : ContactsState) (contact : Nat) :
    Option Nat × ContactsState :=
  match s.contact contact with
  | none => (none, s)
  | some c =>
      match c.priv.persona, c.priv.tp_contact with
      | none, some tp_contact =>
          match get_persona_search w tp_contact.ptr w.individuals with
          | some persona =>
              let s := empathy_contact_set_persona s contact persona
              ((s.contact contact).bind (fun c => c.priv.persona), s)
          | none => (none, s)
      | _, _ => (c.priv.persona, s)

/-- `folks_presence_details_get_presence_type`; `UNSET` (0) for a `NULL` object. -/
def folks_presence_details_get_presence_type (w : ContactEnv) (presence : Option Nat) :
    FolksPresenceType :=
  match presence with
  | some p => w.presence_type p
  | none => FolksPresenceType.UNSET

/-- The availability rank that libfolks gives to a presence type. -/
def folks_presence_type_availability : FolksPresenceType → Int
  | FolksPresenceType.UNSET => 0
  | FolksPresenceType.UNKNOWN => 1
  | FolksPresenceType.ERROR => 2
  | FolksPresenceType.OFFLINE => 3
  | FolksPresenceType.HIDDEN => 4
  | FolksPresenceType.EXTENDED_AWAY => 5
  | FolksPresenceType.AWAY => 6
  | FolksPresenceType.BUSY => 7
  | FolksPresenceType.AVAILABLE => 8

/-- `folks_presence_details_typecmp (type_a, type_b)` of libfolks: the difference
of the availability ranks, positive when `type_a` is the more available. -/
def folks_presence_details_typecmp (type_a type_b : FolksPresenceType) : Int :=
  folks_presence_type_availability type_a - folks_presence_type_availability type_b

/-- `presence_cmp_func (a, b)`: the result and the state afterwards. -/
def presence_cmp_func (w : ContactEnv) (s : ContactsState) (a b : Nat) :
    Int × ContactsState :=
  let presence_a := empathy_contact_get_persona w s a
  let presence_b := empathy_contact_get_persona w presence_a.2 b
  let typecmp := folks_presence_details_typecmp
    (folks_presence_details_get_presence_type w presence_a.1)
    (folks_presence_details_get_presence_type w presence_b.1)
  (Int.neg typecmp, presence_b.2)

/-- `voip_cmp_func (a, b)`. -/
def voip_cmp_func (e : EmpathyCapabilitiesBits) (s : ContactsState) (a b : Nat) : Int :=
  let has_audio_a := empathy_contact_can_voip_audio e (s.contact a)
  let has_audio_b := empathy_contact_can_voip_audio e (s.contact b)
  let has_video_a := empathy_contact_can_voip_video e (s.contact a)
  let has_video_b := empathy_contact_can_voip_video e (s.contact b)
  if has_video_a == has_video_b then
    if has_audio_a == has_audio_b then 0
    else if has_audio_a != 0 then -1
    else 1
  else if has_video_a != 0 then -1
  else 1

/-- `ft_cmp_func (a, b)`. -/
def ft_cmp_func (e : EmpathyCapabilitiesBits) (s : ContactsState) (a b : Nat) : Int :=
  let can_send_files_a := empathy_contact_can_send_files e (s.contact a)
  let can_send_files_b := empathy_contact_can_send_files e (s.contact b)
  if can_send_files_a == can_send_files_b then 0
  else if can_send_files_a != 0 then -1
  else 1

/-- `rfb_stream_tube_cmp_func (a, b)`. -/
def rfb_stream_tube_cmp_func (e : EmpathyCapabilitiesBits) (s : ContactsState) (a b : Nat) :
    Int :=
  let rfb_a := empathy_contact_can_use_rfb_stream_tube e (s.contact a)
  let rfb_b := empathy_contact_can_use_rfb_stream_tube e (s.contact b)
  if rfb_a == rfb_b then 0
  else if rfb_a != 0 then -1
  else 1

/-- `voip_sort_func (a, b)`: the result and the state afterwards. -/
def voip_sort_func (e : EmpathyCapabilitiesBits) (w : ContactEnv) (s : ContactsState)
    (a b : Nat) : Int × ContactsState :=
  let presence_sort := presence_cmp_func w s a b
  if presence_sort.1 != 0 then presence_sort
  else (voip_cmp_func e presence_sort.2 a b, presence_sort.2)

/-- `chat_sort_func (a, b)`: the result and the state afterwards. -/
def chat_sort_func (e : EmpathyCapabilitiesBits) (w : ContactEnv) (s : ContactsState)
    (a b : Nat) : Int × ContactsState :=
  let presence := presence_cmp_func w s a b
  let s := presence.2
  let result := presence.1
  if result != 0 then (result, s)
  else
    let result := ft_cmp_func e s a b
    if result != 0 then (result, s)
    else
      let result := voip_cmp_func e s a b
      if result != 0 then (result, s)
      else (rfb_stream_tube_cmp_func e s a b, s)

/-- `get_sort_func_for_action (action_type)`. -/
def get_sort_func_for_action (e : EmpathyCapabilitiesBits) (w : ContactEnv)
    (action_type : EmpathyActionType) : ContactsState → Nat → Nat → Int × ContactsState :=
  match action_type with
  | EmpathyActionType.AUDIO_CALL => voip_sort_func e w
  | EmpathyActionType.VIDEO_CALL => voip_sort_func e w
  | EmpathyActionType.CHAT => chat_sort_func e w
  | _ => presence_cmp_func w

/-- The merge loop of GLib's `g_list_sort`: the head of `l1` is taken when
`compare_func` is at most 0 on the two heads, the head of `l2` otherwise, and
what is left of one list is appended when the other is empty. Each turn of the
loop uses one unit of `fuel`. -/
def g_list_sort_merge {α : Type} (compare_func : α → α → Int) :
    Nat → List α → List α → List α
  | 0, l1, l2 => l1 ++ l2
  | _ + 1, [], l2 => l2
  | _ + 1, a :: l1, [] => a :: l1
  | fuel + 1, a :: l1, b :: l2 =>
      if compare_func a b ≤ 0 then a :: g_list_sort_merge compare_func fuel l1 (b :: l2)
      else b :: g_list_sort_merge compare_func fuel (a :: l1) l2

/-- `g_list_sort_real` of GLib: a list of two elements or more is cut after its
first `n / 2` elements, the two parts are sorted and merged. Each level of the
recursion uses one unit of `fuel`. -/
def g_list_sort_real {α : Type} (compare_func : α → α → Int) : Nat → List α → List α
  | 0, list => list
  | _ + 1, [] => []
  | _ + 1, [a] => [a]
  | fuel + 1, a :: b :: rest =>
      let list := a :: b :: rest
      let l1 := g_list_sort_real compare_func fuel (list.take (list.length / 2))
      let l2 := g_list_sort_real compare_func fuel (list.drop (list.length / 2))
      g_list_sort_merge compare_func (l1.length + l2.length) l1 l2

/-- `g_list_sort (list, compare_func)`. -/
def g_list_sort {α : Type} (list : List α) (compare_func : α → α → Int) : List α :=
  g_list_sort_real compare_func list.length list

/-- The first loop of `empathy_contact_dup_best_for_action` over the personas of
the individual, each a `TpfPersona` given by its address: the state and the
list `contacts` afterwards. The contact of an interesting persona is taken
from `empathy_contact_dup_from_tp_contact`, the persona is set on it, and it
is prepended to the list if it can perform the action and unreferenced if it
cannot. -/
def best_for_action_contacts (e : EmpathyCapabilitiesBits) (w : ContactEnv)
    (action_type : EmpathyActionType) :
    ContactsState → List Nat → List Nat → ContactsState × List Nat
  | s, contacts, [] => (s, contacts)
  | s, contacts, l :: rest =>
      if !w.is_interesting l then best_for_action_contacts e w action_type s contacts rest
      else
        let tp_contact := w.persona_contact l
        let r := empathy_contact_dup_from_tp_contact e w s tp_contact
        let contact := r.1
        let s := empathy_contact_set_persona r.2 contact l
        let can := empathy_contact_can_do_action e w s contact action_type
        if !can.1 then
          best_for_action_contacts e w action_type (g_object_unref can.2 contact) contacts rest
        else best_for_action_contacts e w action_type can.2 (contact :: contacts) rest

/-- `empathy_contact_dup_best_for_action (individual, action_type)`: the contact
returned, `none` for `NULL`, and the state afterwards; `personas` is
`folks_individual_get_personas (individual)`. The sort functions are called on
contacts of the list, in the state `s` that the first loop leaves; such a call
leaves this state as it is, since each contact of the list has a persona, so
the state is not threaded through `g_list_sort`. -/
def empathy_contact_dup_best_for_action (e : EmpathyCapabilitiesBits) (w : ContactEnv)
    (s : ContactsState) (personas : List Nat) (action_type : EmpathyActionType) :
    Option Nat × ContactsState :=
  let r := best_for_action_contacts e w action_type s [] personas
  let s := r.1
  let contacts := r.2
  match contacts with
  | [] => (none, s)
  | _ :: _ =>
      let contacts := g_list_sort contacts
        (fun a b => (get_sort_func_for_action e w action_type s a b).1)
      match contacts with
      | [] => (none, s)
      | best_contact :: _ =>
          let s := g_object_ref s best_contact
          (some best_contact, contacts.foldl g_object_unref s)

/-- Whether the contact of a persona can perform an action in a given state, as
the first loop of `empathy_contact_dup_best_for_action` finds out: the contact
is taken from `empathy_contact_dup_from_tp_contact`, the persona is set on it
and `empathy_contact_can_do_action` is asked. -/
def persona_can_do_action (e : EmpathyCapabilitiesBits) (w : ContactEnv) (s : ContactsState)
    (persona : Nat) (action_type : EmpathyActionType) : Bool :=
  let r := empathy_contact_dup_from_tp_contact e w s (w.persona_contact persona)
  let s := empathy_contact_set_persona r.2 r.1 persona
  (empathy_contact_can_do_action e w s r.1 action_type).1

/-- The presence type that the sort functions read for a contact. -/
def contact_presence_type (w : ContactEnv) (s : ContactsState) (contact : Nat) :
    FolksPresenceType :=
  folks_presence_details_get_presence_type w (empathy_contact_get_persona w s contact).1

/-- The head of a list dominates the list for the relation `dom`. -/
def HeadDominates {α : Type} (dom : α → α → Prop) (l : List α) : Prop :=
  ∀ h t, l = h :: t → ∀ x ∈ l, dom h x

/-- The account that `empathy_contact_get_account` returns for an object. -/
def contact_account (w : ContactEnv) (c : EmpathyContact) : Option Nat :=
  match c.priv.account, c.priv.tp_contact with
  | none, some tp_contact => w.account_for_connection (w.connection tp_contact.ptr)
  | account, _ => account

/-- What `empathy_contact_can_do_action` returns for an object. -/
def contact_can_do_action (e : EmpathyCapabilitiesBits) (w : ContactEnv)
    (c : EmpathyContact) (action_type : EmpathyActionType) : Bool :=
  match action_type with
  | EmpathyActionType.CHAT => true
  | EmpathyActionType.AUDIO_CALL => empathy_contact_can_voip_audio e (some c) != 0
  | EmpathyActionType.VIDEO_CALL => empathy_contact_can_voip_video e (some c) != 0
  | EmpathyActionType.VIEW_LOGS =>
      w.log_exists (contact_account w c) (empathy_contact_get_id (some c))
  | EmpathyActionType.SEND_FILE => empathy_contact_can_send_files e (some c) != 0
  | EmpathyActionType.SHARE_MY_DESKTOP => empathy_contact_can_use_rfb_stream_tube e (some c) != 0

/-- Two objects agree on what the capability to perform an action depends on:
the `TpContact`, the id, the capabilities and the account that
`empathy_contact_get_account` returns. -/
def SameAbilities (w : ContactEnv) (c c' : EmpathyContact) : Prop :=
  c.priv.tp_contact = c'.priv.tp_contact ∧ c.priv.id = c'.priv.id ∧
  c.priv.capabilities = c'.priv.capabilities ∧ contact_account w c = contact_account w c'

/-- The object after a persona has been stored in it. -/
def EmpathyContact.with_persona (c : EmpathyContact) (persona : Nat) : EmpathyContact :=
  { c with priv := { c.priv with persona := some persona } }

/-- The object after `empathy_contact_get_account` has been called on it. -/
def EmpathyContact.with_account (w : ContactEnv) (c : EmpathyContact) : EmpathyContact :=
  { c with priv := { c.priv with account := contact_account w c } }

/-- The object after the body of the first loop of
`empathy_contact_dup_best_for_action` has set a persona on it and asked whether
it can perform the action. -/
def EmpathyContact.after_loop_body (w : ContactEnv) (action_type : EmpathyActionType)
    (c : EmpathyContact) (persona : Nat) : EmpathyContact :=
  if action_type = EmpathyActionType.VIEW_LOGS then (c.with_persona persona).with_account w
  else c.with_persona persona

/-- The entry that `empathy_contact_dup_from_tp_contact` leaves in the table for a
`TpContact`: a new object with one reference, or the object of the table with
one more reference. -/
def dup_object (e : EmpathyCapabilitiesBits) (w : ContactEnv) (s : ContactsState)
    (tp_contact : Nat) : CachedContact :=
  match s.object tp_contact with
  | none => { contact := empathy_contact_new e w s.next_address tp_contact, ref_count := 1 }
  | some c => { c with ref_count := c.ref_count + 1 }

/-- What holds of the state `s` and the list `contacts` during the first loop of
`empathy_contact_dup_best_for_action`, started in the state `s0`:
* an object that was in the table at the start is still there, it agrees with
  what it was on what the capability depends on, and it has more references
  than it has places in the list;
* a `TpContact` that had no object at the start has none and is not in the
  list, or has an object that agrees with a new one, on which the list holds
  all the references;
* each contact of the list is an object that can perform the action, and its
  persona is an interesting persona of the individual that has this contact. -/
structure BestInv (e : EmpathyCapabilitiesBits) (w : ContactEnv)
    (action_type : EmpathyActionType) (personas : List Nat) (s0 s : ContactsState)
    (contacts : List Nat) : Prop where
  old : ∀ k c0, s0.object k = some c0 →
    ∃ c, s.object k = some c ∧ SameAbilities w c0.contact c.contact ∧
      contacts.count k < c.ref_count
  fresh : ∀ k, s0.object k = none →
    (s.object k = none ∧ k ∉ contacts) ∨
    (∃ c, s.object k = some c ∧ c.contact.priv.tp_contact = some (w.tp_contact k) ∧
      SameAbilities w (empathy_contact_new e w s0.next_address k) c.contact ∧
      (c.ref_count : Nat) = contacts.count k)
  mem : ∀ k ∈ contacts, ∃ c, s.object k = some c ∧
    contact_can_do_action e w c.contact action_type = true ∧
    ∃ p ∈ personas, c.contact.priv.persona = some p ∧ w.is_interesting p = true ∧
      w.persona_contact p = k

/-- What holds of the state and of what is left of the list while the contacts of
the list are unreferenced at the end of `empathy_contact_dup_best_for_action`:
each contact left in the list is an object that has more references than it
has places left, or as many and is stored under its own `TpContact`. -/
def CleanInv (s : ContactsState) (contacts : List Nat) : Prop :=
  ∀ k ∈ contacts, ∃ c, s.object k = some c ∧
    (contacts.count k < c.ref_count ∨
      ((c.ref_count : Nat) = contacts.count k ∧
        c.contact.priv.tp_contact.map (fun t => t.ptr) = some k))

/-- The persona that `empathy_contact_get_persona` returns for an object. -/
def contact_persona (w : ContactEnv) (contact : Option EmpathyContact) : Option Nat :=
  match contact with
  | none => none
  | some c =>
      match c.priv.persona, c.priv.tp_contact with
      | none, some tp_contact => get_persona_search w tp_contact.ptr w.individuals
      | persona, _ => persona

/-! ## Example data -/

/-- A text channel class with a contact target (`TP_HANDLE_TYPE_CONTACT` is 1). -/
def example_text_class : ChannelClass :=
  { fixed := ⟨[(PROP_CHANNEL_TYPE, GValue.string (some "Text")),
               (PROP_TARGET_HANDLE_TYPE, GValue.uint 1)]⟩
    allowed := [] }

/-- A class with a channel type and no target handle type. -/
def example_no_handle_type_class : ChannelClass :=
  { fixed := ⟨[(PROP_CHANNEL_TYPE, GValue.string (some "Text"))]⟩
    allowed := [] }

/-- A dispatcher that has received the classes of connection 7. -/
def example_priv : EmpathyDispatcherPriv :=
  { connections := ⟨[(7, { new_connection_data with
      requestable_channels := some [example_text_class, example_no_handle_type_class] })]⟩
    outstanding_classes_requests := GHashTable.empty
    request_channel_class_async_ids := GHashTable.empty }

/-- A ServerAuthentication channel offering X-TELEPATHY-PASSWORD. -/
def example_sasl_channel (object_path : String) : TpChannel :=
  { object_path := object_path
    channel_type := TP_IFACE_CHANNEL_TYPE_SERVER_AUTHENTICATION
    immutable_properties :=
      ⟨[(TP_PROP_CHANNEL_INTERFACE_SASL_AUTHENTICATION_AVAILABLE_MECHANISMS,
          GValue.strv ["PLAIN", "X-TELEPATHY-PASSWORD"])]⟩
    invalidated := none }

/-- A ServerTLSConnection channel. -/
def example_tls_channel : TpChannel :=
  { object_path := "/tls"
    channel_type := EMP_IFACE_CHANNEL_TYPE_SERVER_TLS_CONNECTION
    immutable_properties := GHashTable.empty
    invalidated := none }

/-- Data of an observed ServerAuthentication channel. -/
def example_observe_data : ObserveChannelsData :=
  { context := 20, dispatch_operation := 30, account := 1,
    channel := example_sasl_channel "/a" }

/-- The error of a SASL handler creation that failed. -/
def example_creation_error : GError :=
  { domain := GErrorDomain.other 1, code := 0, message := "creation failed" }

/-- Example values of the flags: AUDIO `1 << 0`, VIDEO `1 << 1`, FT `1 << 2`,
RFB_STREAM_TUBE `1 << 3`, UNKNOWN `1 << 7`. -/
def example_capabilities : EmpathyCapabilitiesBits :=
  { audio := 0, video := 1, ft := 2, rfb_stream_tube := 3, unknown := 128 }

/-- Six events: connection 7 appears, a lookup is requested and its idle source
runs before the classes are known, the classes arrive, and a second lookup is
requested and its idle source runs. -/
def example_events : List DispatcherEvent :=
  [DispatcherEvent.init_connection 7,
   DispatcherEvent.find_classes_async 7 (some "Text") 1 100 200 none [],
   DispatcherEvent.idle 1,
   DispatcherEvent.got_all 7 (some [example_text_class, example_no_handle_type_class]) none,
   DispatcherEvent.find_classes_async 7 (some "Text") 1 101 201 none [],
   DispatcherEvent.idle 2]

/-- The state after `example_events`. -/
def example_final : Dispatcher :=
  (empathy_dispatcher_init.run example_events).getD empathy_dispatcher_init

/-- A log entity: the contact "alice@example.org", whose alias is "Alice". -/
def example_tpl_entity : TplEntity :=
  { identifier := some "alice@example.org"
    alias_ := some "Alice"
    entity_type := TplEntityType.CONTACT
    avatar_token := none }

/-- An individual with the personas 1, 2 and 3: personas 1 and 2 have the
`TpContact` 11 and persona 3 has the `TpContact` 13; persona 1 is available,
persona 2 is offline and persona 3 is away. The account of every connection is
7, logs exist for the account 7, and no `TpContact` has capabilities. -/
def example_contact_env : ContactEnv :=
  { identifier := fun _ => some "bob@example.org"
    alias_ := fun _ => none
    connection := fun _ => 5
    handle := fun tp_contact => tp_contact
    capabilities := fun _ => none
    self_handle := fun _ => 0
    account_for_connection := fun _ => some 7
    log_exists := fun account _ => account == some 7
    is_interesting := fun _ => true
    persona_contact := fun persona => if persona = 3 then 13 else 11
    presence_type := fun persona =>
      if persona = 1 then FolksPresenceType.AVAILABLE
      else if persona = 2 then FolksPresenceType.OFFLINE
      else FolksPresenceType.AWAY
    individuals := [[1, 2, 3]] }

/-- The state before `contacts_table` is first used. -/
def example_contacts_state : ContactsState :=
  { contacts_table := none, next_address := 101 }

/-! ## Lemmas on the matching loops -/

theorem key_in_fixed_properties_iff (k : String) (props : List String) :
    key_in_fixed_properties k props = true ↔ k ∈ props := by
  induction props with
  | nil => simp [key_in_fixed_properties]
  | cons p rest ih =>
      by_cases h : k = p
      · simp [key_in_fixed_properties, tp_strdiff, h]
      · simp [key_in_fixed_properties, tp_strdiff, h, ih]

theorem fixed_keys_allowed_iff (props : List String) (es : List (String × GValue)) :
    fixed_keys_allowed props es = true ↔
      ∀ e ∈ es, e.1 = PROP_CHANNEL_TYPE ∨ e.1 = PROP_TARGET_HANDLE_TYPE ∨ e.1 ∈ props := by
  induction es with
  | nil => simp [fixed_keys_allowed]
  | cons e rest ih =>
      obtain ⟨k, v⟩ := e
      by_cases h1 : k = PROP_CHANNEL_TYPE
      · simp [fixed_keys_allowed, tp_strdiff, h1, ih]
      · by_cases h2 : k = PROP_TARGET_HANDLE_TYPE
        · simp [fixed_keys_allowed, tp_strdiff, h2, ih]
        · by_cases h3 : k ∈ props
          · have h3' := (key_in_fixed_properties_iff k props).2 h3
            simp [fixed_keys_allowed, tp_strdiff, h1, h2, h3, h3', ih]
          · have h3' : key_in_fixed_properties k props = false := by
              cases hk : key_in_fixed_properties k props with
              | false => rfl
              | true => exact absurd ((key_in_fixed_properties_iff k props).1 hk) h3
            simp [fixed_keys_allowed, tp_strdiff, h1, h2, h3, h3']

theorem fixed_keys_allowed_iff_only (cls : ChannelClass) (props : List String) :
    fixed_keys_allowed props cls.fixed.entries = true ↔ only_fixed_properties cls props := by
  rw [fixed_keys_allowed_iff]
  unfold only_fixed_properties GHashTable.keys
  constructor
  · intro h k hk
    obtain ⟨e, he, rfl⟩ := List.mem_map.1 hk
    exact h e he
  · intro h e he
    exact h e.1 (List.mem_map.2 ⟨e, he, rfl⟩)

/-- The three tests of `channel_class_matches`, one after the other. -/
theorem channel_class_matches_eq_true_iff (cls : ChannelClass) (channel_type : Option String)
    (handle_type : Nat) (fixed_properties : Option (List String)) :
    channel_class_matches cls channel_type handle_type fixed_properties = true ↔
      tp_asv_get_string cls.fixed PROP_CHANNEL_TYPE = channel_type ∧
      (tp_asv_get_uint32 cls.fixed PROP_TARGET_HANDLE_TYPE).2 = true ∧
      handle_type_matches handle_type (tp_asv_get_uint32 cls.fixed PROP_TARGET_HANDLE_TYPE).1 ∧
      (match fixed_properties with
        | some props => only_fixed_properties cls props
        | none => cls.fixed.size ≤ 2) := by
  unfold channel_class_matches handle_type_matches
  by_cases hc : tp_asv_get_string cls.fixed PROP_CHANNEL_TYPE = channel_type
  · have hc' : channel_type = tp_asv_get_string cls.fixed PROP_CHANNEL_TYPE := hc.symm
    cases hv : (tp_asv_get_uint32 cls.fixed PROP_TARGET_HANDLE_TYPE).2 with
    | false => simp [tp_strdiff, hc', hv]
    | true =>
        by_cases hh : handle_type = (tp_asv_get_uint32 cls.fixed PROP_TARGET_HANDLE_TYPE).1
        · cases fixed_properties with
          | none => simp [tp_strdiff, hc', hv, ← hh]
          | some props =>
              simp [tp_strdiff, hc', hv, ← hh, fixed_keys_allowed_iff_only]
        · by_cases hu : handle_type = TP_UNKNOWN_HANDLE_TYPE
          · cases fixed_properties with
            | none => simp [tp_strdiff, hc', hv, hu]
            | some props =>
                simp [tp_strdiff, hc', hv, hu, fixed_keys_allowed_iff_only]
          · simp [tp_strdiff, hc', hv, hh, hu]
  · have hc' : ¬ channel_type = tp_asv_get_string cls.fixed PROP_CHANNEL_TYPE :=
      fun h => hc h.symm
    simp [tp_strdiff, hc, hc']

theorem foldl_prepend_matching (p : ChannelClass → Bool) (classes acc : List ChannelClass) :
    classes.foldl (fun matching_classes cls =>
        if !p cls then matching_classes else cls :: matching_classes) acc =
      (classes.filter p).reverse ++ acc := by
  induction classes generalizing acc with
  | nil => simp
  | cons c rest ih =>
      rw [List.foldl_cons, ih]
      cases hp : p c <;> simp [List.filter, hp]

theorem find_channel_classes_eq (priv : EmpathyDispatcherPriv) (connection : TpConnection)
    (channel_type : String) (handle_type : Nat) (fixed_properties : Option (List String)) :
    empathy_dispatcher_find_channel_classes priv connection (some channel_type) handle_type
        fixed_properties =
      match priv.connections.lookup connection with
      | none => []
      | some cd =>
        match cd.requestable_channels with
        | none => []
        | some classes =>
            (classes.filter (fun cls =>
              channel_class_matches cls (some channel_type) handle_type
                fixed_properties)).reverse := by
  unfold empathy_dispatcher_find_channel_classes
  cases priv.connections.lookup connection with
  | none => rfl
  | some cd =>
      cases hcl : cd.requestable_channels with
      | none => simp [hcl]
      | some classes =>
          simp only [hcl]
          rw [foldl_prepend_matching]
          simp

theorem lookup_some_mem_keys {κ ν : Type} [DecidableEq κ] (t : GHashTable κ ν) (k : κ) (v : ν)
    (h : t.lookup k = some v) : k ∈ t.keys := by
  unfold GHashTable.lookup at h
  obtain ⟨e, he, _⟩ := Option.map_eq_some'.1 h
  have hm := List.mem_of_find?_eq_some he
  have hk : e.1 = k := by simpa using List.find?_some he
  exact List.mem_map.2 ⟨e, hm, hk⟩

theorem tp_asv_get_string_some_mem_keys (asv : Asv) (key s : String)
    (h : tp_asv_get_string asv key = some s) : key ∈ asv.keys := by
  unfold tp_asv_get_string at h
  cases hl : asv.lookup key with
  | none => simp [hl] at h
  | some v => exact lookup_some_mem_keys asv key v hl

theorem tp_asv_get_uint32_valid_mem_keys (asv : Asv) (key : String)
    (h : (tp_asv_get_uint32 asv key).2 = true) : key ∈ asv.keys := by
  unfold tp_asv_get_uint32 at h
  cases hl : asv.lookup key with
  | none => simp [hl] at h
  | some v => exact lookup_some_mem_keys asv key v hl

theorem find_requestable_channel_classes_eq (priv : EmpathyDispatcherPriv)
    (connection : TpConnection) (channel_type : String) (handle_type : Nat)
    (first_property_name : Option String) (var_args : List String) :
    empathy_dispatcher_find_requestable_channel_classes priv connection (some channel_type)
        handle_type first_property_name var_args =
      empathy_dispatcher_find_channel_classes priv connection (some channel_type) handle_type
        (setup_varargs var_args first_property_name) := rfl

theorem mem_find_channel_classes_iff (priv : EmpathyDispatcherPriv)
    (connection : TpConnection) (channel_type : String) (handle_type : Nat)
    (fixed_properties : Option (List String)) (cls : ChannelClass) :
    cls ∈ empathy_dispatcher_find_channel_classes priv connection (some channel_type)
        handle_type fixed_properties ↔
      (∃ cd classes, priv.connections.lookup connection = some cd ∧
        cd.requestable_channels = some classes ∧ cls ∈ classes) ∧
      channel_class_matches cls (some channel_type) handle_type fixed_properties = true := by
  rw [find_channel_classes_eq]
  cases hl : priv.connections.lookup connection with
  | none => simp
  | some cd =>
      cases hc : cd.requestable_channels with
      | none => simp [hc]
      | some classes => simp [hc, List.mem_filter]

/-! ## Channel class matching: the claims -/

/-- C1: with a non-empty list of fixed-property names (a first name and the names
that follow it), a class matches exactly when its ChannelType is the requested
channel type, it has a TargetHandleType that matches the requested handle type,
and every one of its fixed properties is ChannelType, TargetHandleType or a
name of the list; the lookup returns exactly the stored classes that match; and
a matching class need not contain every name of the list. -/
theorem channel_class_matches_fixed_property_list :
    (∀ (cls : ChannelClass) (channel_type : String) (handle_type : Nat) (first : String)
        (var_args : List String),
      channel_class_matches cls (some channel_type) handle_type
          (setup_varargs var_args (some first)) = true ↔
        (tp_asv_get_string cls.fixed PROP_CHANNEL_TYPE = some channel_type ∧
         (∃ h, tp_asv_get_uint32 cls.fixed PROP_TARGET_HANDLE_TYPE = (h, true) ∧
            handle_type_matches handle_type h) ∧
         only_fixed_properties cls (first :: var_args))) ∧
    (∀ (priv : EmpathyDispatcherPriv) (connection : TpConnection) (cls : ChannelClass)
        (channel_type : String) (handle_type : Nat) (first : String) (var_args : List String),
      cls ∈ empathy_dispatcher_find_requestable_channel_classes priv connection
          (some channel_type) handle_type (some first) var_args ↔
        ((∃ cd classes, priv.connections.lookup connection = some cd ∧
            cd.requestable_channels = some classes ∧ cls ∈ classes) ∧
          channel_class_matches cls (some channel_type) handle_type
            (setup_varargs var_args (some first)) = true)) ∧
    (∃ (cls : ChannelClass) (channel_type : String) (handle_type : Nat) (first : String)
        (var_args : List String),
      channel_class_matches cls (some channel_type) handle_type
          (setup_varargs var_args (some first)) = true ∧
        ∃ name ∈ first :: var_args, name ∉ cls.fixed.keys) := by
  refine ⟨?_, ?_, ?_⟩
  · intro cls channel_type handle_type first var_args
    rw [channel_class_matches_eq_true_iff]
    simp only [setup_varargs]
    constructor
    · rintro ⟨h1, h2, h3, h4⟩
      exact ⟨h1, ⟨_, Prod.ext rfl h2, h3⟩, h4⟩
    · rintro ⟨h1, ⟨h, hv, hm⟩, h4⟩
      rw [hv]
      exact ⟨h1, rfl, hm, h4⟩
  · intro priv connection cls channel_type handle_type first var_args
    rw [find_requestable_channel_classes_eq, mem_find_channel_classes_iff]
  · exact ⟨example_text_class, "Text", 1, "org.example.Extra", [], by decide,
      "org.example.Extra", by decide, by decide⟩

/-- C2: with no fixed-property list (`first_property_name` is `NULL`), every class
that the lookup returns has exactly the two fixed properties ChannelType and
TargetHandleType. -/
theorem find_requestable_channel_classes_no_list (priv : EmpathyDispatcherPriv)
    (connection : TpConnection) (channel_type : Option String) (handle_type : Nat)
    (var_args : List String) (cls : ChannelClass)
    (h : cls ∈ empathy_dispatcher_find_requestable_channel_classes priv connection
      channel_type handle_type none var_args) :
    cls.fixed.keys.Perm [PROP_CHANNEL_TYPE, PROP_TARGET_HANDLE_TYPE] ∧
      ∀ k, k ∈ cls.fixed.keys ↔ (k = PROP_CHANNEL_TYPE ∨ k = PROP_TARGET_HANDLE_TYPE) := by
  cases channel_type with
  | none => simp [empathy_dispatcher_find_requestable_channel_classes] at h
  | some ct =>
      rw [find_requestable_channel_classes_eq, mem_find_channel_classes_iff] at h
      obtain ⟨_, hm⟩ := h
      rw [channel_class_matches_eq_true_iff] at hm
      obtain ⟨h1, h2, _, h4⟩ := hm
      simp only [setup_varargs] at h4
      have hc := tp_asv_get_string_some_mem_keys _ _ _ h1
      have ht := tp_asv_get_uint32_valid_mem_keys _ _ h2
      have hnd : [PROP_CHANNEL_TYPE, PROP_TARGET_HANDLE_TYPE].Nodup := by decide
      have hsub : [PROP_CHANNEL_TYPE, PROP_TARGET_HANDLE_TYPE] ⊆ cls.fixed.keys := by
        intro k hk
        simp only [List.mem_cons, List.mem_singleton, List.not_mem_nil, or_false] at hk
        rcases hk with rfl | rfl
        · exact hc
        · exact ht
      have hsp := List.subperm_of_subset hnd hsub
      have hlen : cls.fixed.keys.length ≤ [PROP_CHANNEL_TYPE, PROP_TARGET_HANDLE_TYPE].length := by
        simpa [GHashTable.keys, GHashTable.size] using h4
      have hp := (hsp.perm_of_length_le hlen).symm
      refine ⟨hp, fun k => ?_⟩
      rw [hp.mem_iff]
      simp

/-- Witness for C2: the text class of connection 7 is returned and has the two
fixed properties. -/
theorem find_requestable_channel_classes_no_list_witness :
    example_text_class ∈ empathy_dispatcher_find_requestable_channel_classes example_priv 7
        (some "Text") 1 none [] ∧
      (example_text_class.fixed.keys.Perm [PROP_CHANNEL_TYPE, PROP_TARGET_HANDLE_TYPE] ∧
        ∀ k, k ∈ example_text_class.fixed.keys ↔
          (k = PROP_CHANNEL_TYPE ∨ k = PROP_TARGET_HANDLE_TYPE)) :=
  ⟨by decide,
    find_requestable_channel_classes_no_list example_priv 7 (some "Text") 1 []
      example_text_class (by decide)⟩

/-- C3, as the claim states it, fails: a class with the requested ChannelType and
no other fixed property, but without a TargetHandleType, is not returned when
the handle type is `TP_UNKNOWN_HANDLE_TYPE`. -/
theorem unknown_handle_type_class_without_handle_type :
    tp_asv_get_string example_no_handle_type_class.fixed PROP_CHANNEL_TYPE = some "Text" ∧
      only_fixed_properties example_no_handle_type_class ["org.example.Extra"] ∧
      channel_class_matches example_no_handle_type_class (some "Text") TP_UNKNOWN_HANDLE_TYPE
        (some ["org.example.Extra"]) = false ∧
      example_no_handle_type_class ∉
        empathy_dispatcher_find_requestable_channel_classes example_priv 7 (some "Text")
          TP_UNKNOWN_HANDLE_TYPE (some "org.example.Extra") [] := by
  refine ⟨by decide, ?_, by decide, by decide⟩
  intro k hk
  simp [example_no_handle_type_class, GHashTable.keys] at hk
  exact Or.inl hk

/-- C3, amended: when the requested handle type is `TP_UNKNOWN_HANDLE_TYPE`, a
class matches exactly when its ChannelType is the requested one, it has a valid
TargetHandleType, whatever its value, and its other fixed properties are
allowed (by the list, or none at all without a list). -/
theorem channel_class_matches_unknown_handle_type (cls : ChannelClass) (channel_type : String)
    (fixed_properties : Option (List String)) :
    channel_class_matches cls (some channel_type) TP_UNKNOWN_HANDLE_TYPE fixed_properties
        = true ↔
      (tp_asv_get_string cls.fixed PROP_CHANNEL_TYPE = some channel_type ∧
       (tp_asv_get_uint32 cls.fixed PROP_TARGET_HANDLE_TYPE).2 = true ∧
       (match fixed_properties with
        | some props => only_fixed_properties cls props
        | none => cls.fixed.size ≤ 2)) := by
  rw [channel_class_matches_eq_true_iff]
  simp [handle_type_matches]

/-- C4: `empathy_dispatcher_find_channel_classes` is the empty list when the
connection is unknown or its classes have not been received; otherwise it is the
stored classes that match, in reverse order, each as often as it is stored. -/
theorem find_channel_classes_all_and_only (priv : EmpathyDispatcherPriv)
    (connection : TpConnection) (channel_type : String) (handle_type : Nat)
    (fixed_properties : Option (List String)) :
    (empathy_dispatcher_find_channel_classes priv connection (some channel_type) handle_type
        fixed_properties =
      match priv.connections.lookup connection with
      | none => []
      | some cd =>
        match cd.requestable_channels with
        | none => []
        | some classes =>
            (classes.filter (fun cls =>
              channel_class_matches cls (some channel_type) handle_type
                fixed_properties)).reverse) ∧
    (∀ cd classes, priv.connections.lookup connection = some cd ∧
        cd.requestable_channels = some classes →
      ∀ cls : ChannelClass,
        (empathy_dispatcher_find_channel_classes priv connection (some channel_type)
            handle_type fixed_properties).count cls =
          if channel_class_matches cls (some channel_type) handle_type fixed_properties
          then classes.count cls else 0) := by
  refine ⟨find_channel_classes_eq priv connection channel_type handle_type fixed_properties, ?_⟩
  rintro cd classes ⟨hl, hc⟩ cls
  rw [find_channel_classes_eq, hl]
  simp only [hc, List.count_reverse]
  cases hm : channel_class_matches cls (some channel_type) handle_type fixed_properties
  · have hnot : cls ∉ classes.filter (fun cls =>
        channel_class_matches cls (some channel_type) handle_type fixed_properties) := by
      intro hmem
      have := (List.mem_filter.1 hmem).2
      simp [hm] at this
    simpa using List.count_eq_zero.2 hnot
  · have := List.count_filter (l := classes) (p := fun cls =>
        channel_class_matches cls (some channel_type) handle_type fixed_properties)
        (a := cls) (by simpa using hm)
    simpa using this

/-! ## The asynchronous class lookup: invariant and claim -/

theorem lookup_store_self {κ ν : Type} [DecidableEq κ] (t : GHashTable κ ν) (k : κ) (v₀ v : ν)
    (h : t.lookup k = some v₀) : (t.store k v).lookup k = some v := by
  obtain ⟨entries⟩ := t
  simp only [GHashTable.lookup, GHashTable.store] at h ⊢
  induction entries with
  | nil => simp at h
  | cons e rest ih =>
      by_cases hk : e.1 = k
      · simp [List.find?, hk]
      · simp only [List.map_cons, hk, if_false, List.find?, decide_False] at h ⊢
        exact ih h

theorem lookup_mem_entries {κ ν : Type} [DecidableEq κ] (t : GHashTable κ ν) (k : κ) (v : ν)
    (h : t.lookup k = some v) : (k, v) ∈ t.entries := by
  unfold GHashTable.lookup at h
  obtain ⟨e, he, hv⟩ := Option.map_eq_some'.1 h
  have hm := List.mem_of_find?_eq_some he
  have hk : e.1 = k := by simpa using List.find?_some he
  have : e = (k, v) := Prod.ext hk hv
  rw [← this]
  exact hm

theorem queued_requests_insert (t : GHashTable TpConnection (List FindChannelRequest))
    (k : TpConnection) (v : List FindChannelRequest) :
    queued_requests (t.insert k v) = v ++ queued_requests (t.remove k) := by
  simp [queued_requests, GHashTable.insert]

theorem filter_flatMap_sublist {α β : Type} (p : α → Bool) (f : α → List β) (l : List α) :
    List.Sublist ((l.filter p).flatMap f) (l.flatMap f) := by
  induction l with
  | nil => simp
  | cons a rest ih =>
      cases hp : p a
      · simp only [List.filter_cons, hp, Bool.false_eq_true, if_false, List.flatMap_cons]
        exact ih.trans (List.sublist_append_right _ _)
      · simp only [List.filter_cons, hp, if_true, List.flatMap_cons]
        exact List.Sublist.append (List.Sublist.refl _) ih

theorem lookup_add_remove_le (t : GHashTable TpConnection (List FindChannelRequest))
    (k : TpConnection) :
    (((t.lookup k).getD [] : List FindChannelRequest) : Multiset FindChannelRequest) +
        (queued_requests (t.remove k) : Multiset FindChannelRequest) ≤
      (queued_requests t : Multiset FindChannelRequest) := by
  obtain ⟨entries⟩ := t
  simp only [GHashTable.lookup, GHashTable.remove, queued_requests]
  induction entries with
  | nil => simp
  | cons e rest ih =>
      by_cases hk : e.1 = k
      · simp only [List.find?, hk, decide_True, Option.map_some', Option.getD_some, ne_eq,
          not_true_eq_false, decide_False, List.filter_cons_of_neg, Bool.false_eq_true,
          not_false_eq_true, List.flatMap_cons, ← Multiset.coe_add]
        have hsub : ((List.filter (fun e => decide (¬ e.1 = k)) rest).flatMap Prod.snd :
            Multiset FindChannelRequest) ≤
            (rest.flatMap Prod.snd : Multiset FindChannelRequest) := by
          rw [Multiset.coe_le]
          exact (filter_flatMap_sublist _ _ _).subperm
        exact add_le_add_left hsub _
      · simp only [List.find?, hk, decide_False, ne_eq, not_false_eq_true, decide_True,
          List.filter_cons_of_pos, List.flatMap_cons, ← Multiset.coe_add]
        simp only [ne_eq] at ih
        rw [add_left_comm]
        exact add_le_add_left ih _

theorem filter_add_found_le (l : List (Nat × FindChannelRequest)) (source_id : Nat)
    (found : Nat × FindChannelRequest)
    (h : l.find? (fun s => decide (s.1 = source_id)) = some found) :
    found.2 ::ₘ (((l.filter (fun s => decide (s.1 ≠ source_id))).map Prod.snd :
        List FindChannelRequest) : Multiset FindChannelRequest) ≤
      ((l.map Prod.snd : List FindChannelRequest) : Multiset FindChannelRequest) := by
  induction l with
  | nil => simp at h
  | cons e rest ih =>
      by_cases hk : e.1 = source_id
      · simp only [List.find?, hk, decide_True, Option.some.injEq] at h
        subst h
        simp only [ne_eq, hk, not_true_eq_false, decide_False, Bool.false_eq_true,
          not_false_eq_true, List.filter_cons_of_neg, List.map_cons, ← Multiset.cons_coe]
        apply Multiset.cons_le_cons
        rw [Multiset.coe_le]
        exact ((List.filter_sublist _).map _).subperm
      · simp only [List.find?, hk, decide_False] at h
        simp only [ne_eq, hk, not_false_eq_true, decide_True, List.filter_cons_of_pos,
          List.map_cons, ← Multiset.cons_coe]
        rw [Multiset.cons_swap]
        apply Multiset.cons_le_cons
        simpa using ih h

theorem Dispatcher.Inv.of_le {d d' : Dispatcher} (hinv : d.Inv)
    (hle : d'.requests ≤ d.requests) (hnext : d.next_request_id ≤ d'.next_request_id)
    (hkeyed : ∀ e ∈ d'.priv.outstanding_classes_requests.entries, ∀ r ∈ e.2,
      r.connection = e.1) : d'.Inv where
  nodup := Multiset.nodup_of_le (Multiset.map_le_map hle) hinv.nodup
  fresh := fun r hr => lt_of_lt_of_le (hinv.fresh r (Multiset.mem_of_le hle hr)) hnext
  keyed := hkeyed

theorem empathy_dispatcher_init_inv : empathy_dispatcher_init.Inv where
  nodup := by simp [Dispatcher.requests, empathy_dispatcher_init, queued_requests,
    GHashTable.empty]
  fresh := by simp [Dispatcher.requests, empathy_dispatcher_init, queued_requests,
    GHashTable.empty]
  keyed := by simp [empathy_dispatcher_init, GHashTable.empty]

theorem find_requestable_channel_classes_async_inv (d : Dispatcher) (hinv : d.Inv)
    (connection : TpConnection) (channel_type : Option String) (handle_type callback
      user_data : Nat) (first_property_name : Option String) (var_args : List String) :
    (empathy_dispatcher_find_requestable_channel_classes_async d connection channel_type
      handle_type callback user_data first_property_name var_args).Inv := by
  unfold empathy_dispatcher_find_requestable_channel_classes_async
  cases channel_type with
  | none => exact hinv
  | some ct =>
      by_cases hz : handle_type = 0
      · simpa [hz] using hinv
      · simp only [beq_iff_eq, hz, if_false]
        have hreq : ∀ r : FindChannelRequest,
            (Dispatcher.requests
              { d with
                priv := { d.priv with
                  request_channel_class_async_ids :=
                    d.priv.request_channel_class_async_ids.insert d.next_request_id
                      d.next_source_id }
                idle_sources := d.idle_sources ++ [(d.next_source_id, r)]
                next_source_id := d.next_source_id + 1
                next_request_id := d.next_request_id + 1 }) = r ::ₘ d.requests := by
          intro r
          simp only [Dispatcher.requests, List.map_append, List.map_cons, List.map_nil,
            ← Multiset.coe_add, ← Multiset.cons_coe]
          simp only [Multiset.coe_nil, add_zero, Multiset.singleton_add, Multiset.add_cons,
            Multiset.cons_add, add_assoc]
        refine ⟨?_, ?_, hinv.keyed⟩
        · rw [hreq, Multiset.map_cons, Multiset.nodup_cons]
          refine ⟨?_, hinv.nodup⟩
          intro hmem
          obtain ⟨r, hr, hid⟩ := Multiset.mem_map.1 hmem
          have := hinv.fresh r hr
          simp only at hid
          omega
        · intro r hr
          rw [hreq, Multiset.mem_cons] at hr
          rcases hr with rfl | hr
          · simp
          · have := hinv.fresh r hr
            simp only
            omega

theorem find_channel_class_idle_cb_requests_le (d : Dispatcher) (request : FindChannelRequest) :
    (find_channel_class_idle_cb d request).requests ≤ request ::ₘ d.requests := by
  unfold find_channel_class_idle_cb
  simp only
  split
  · apply le_of_eq
    simp only [Dispatcher.requests, List.map_append, List.map_cons, List.map_nil,
      ← Multiset.coe_add, ← Multiset.cons_coe, Multiset.coe_nil, Multiset.add_cons, add_zero]
  · have hB := lookup_add_remove_le d.priv.outstanding_classes_requests request.connection
    simp only [Dispatcher.requests, queued_requests_insert, List.cons_append,
      ← Multiset.cons_coe, ← Multiset.coe_add, Multiset.add_cons, Multiset.cons_add]
    exact Multiset.cons_le_cons _ (add_le_add_right (add_le_add_left hB _) _)

theorem find_channel_class_idle_cb_keyed (d : Dispatcher) (request : FindChannelRequest)
    (hkeyed : ∀ e ∈ d.priv.outstanding_classes_requests.entries, ∀ r ∈ e.2,
      r.connection = e.1) :
    ∀ e ∈ (find_channel_class_idle_cb d request).priv.outstanding_classes_requests.entries,
      ∀ r ∈ e.2, r.connection = e.1 := by
  unfold find_channel_class_idle_cb
  simp only
  split
  · exact hkeyed
  · intro e he r hr
    simp only [GHashTable.insert, GHashTable.remove, List.mem_cons, List.mem_filter] at he
    rcases he with rfl | ⟨he, _⟩
    · simp only [List.mem_cons] at hr
      rcases hr with rfl | hr
      · rfl
      · cases hl : d.priv.outstanding_classes_requests.lookup request.connection with
        | none => simp [hl] at hr
        | some l =>
            simp only [hl, Option.getD_some] at hr
            exact hkeyed _ (lookup_mem_entries _ _ _ hl) r hr
    · exact hkeyed e he r hr

theorem find_channel_class_idle_cb_next (d : Dispatcher) (request : FindChannelRequest) :
    (find_channel_class_idle_cb d request).next_request_id = d.next_request_id := by
  unfold find_channel_class_idle_cb
  simp only
  split <;> rfl

theorem dispatch_idle_inv (d : Dispatcher) (hinv : d.Inv) (source_id : Nat) :
    (dispatch_idle d source_id).Inv := by
  unfold dispatch_idle
  cases hf : d.idle_sources.find? (fun s => decide (s.1 = source_id)) with
  | none => exact hinv
  | some found =>
      obtain ⟨s, request⟩ := found
      simp only
      have hA := filter_add_found_le d.idle_sources source_id (s, request) hf
      refine hinv.of_le ?_ ?_ ?_
      · refine le_trans (find_channel_class_idle_cb_requests_le _ _) ?_
        simp only [Dispatcher.requests, ← Multiset.cons_add]
        exact add_le_add_right (add_le_add_right hA _) _
      · rw [find_channel_class_idle_cb_next]
      · exact find_channel_class_idle_cb_keyed _ _ hinv.keyed

theorem dispatcher_connection_got_all_inv (d d' : Dispatcher) (hinv : d.Inv)
    (proxy : TpConnection) (requestable_channels : Option (List ChannelClass))
    (error : Option GError)
    (h : dispatcher_connection_got_all d proxy requestable_channels error = some d') :
    d'.Inv := by
  unfold dispatcher_connection_got_all at h
  cases error with
  | some e => simp only [Option.some.injEq] at h; exact h ▸ hinv
  | none =>
    cases requestable_channels with
    | none => simp only [Option.some.injEq] at h; exact h ▸ hinv
    | some classes =>
      cases hl : d.priv.connections.lookup proxy with
      | none => simp [hl] at h
      | some cd =>
        simp only [hl, Option.some.injEq] at h
        subst h
        have hB := lookup_add_remove_le d.priv.outstanding_classes_requests proxy
        refine hinv.of_le ?_ (le_refl _) ?_
        · have key : ∀ (I C Qr L Q : Multiset FindChannelRequest), L + Qr ≤ Q →
              I + Qr + (C + L) ≤ I + Q + C := by
            intro I C Qr L Q hle
            have e : I + Qr + (C + L) = I + (L + Qr) + C := by abel
            rw [e]
            exact add_le_add_right (add_le_add_left hle I) C
          simp only [Dispatcher.requests, List.map_append, List.map_map, Function.comp_def,
            List.map_id', ← Multiset.coe_add]
          exact key _ _ _ _ _ hB
        · intro e he r hr
          simp only [GHashTable.remove, List.mem_filter] at he
          exact hinv.keyed e he.1 r hr

theorem dispatcher_init_connection_if_needed_inv (d : Dispatcher) (hinv : d.Inv)
    (connection : TpConnection) : (dispatcher_init_connection_if_needed d connection).Inv := by
  unfold dispatcher_init_connection_if_needed
  cases d.priv.connections.lookup connection with
  | some cd => exact hinv
  | none => exact hinv.of_le (le_refl _) (le_refl _) hinv.keyed

theorem dispatcher_connection_invalidated_cb_inv (d : Dispatcher) (hinv : d.Inv)
    (connection : TpConnection) (domain : GErrorDomain) (code : Int) (message : String) :
    (dispatcher_connection_invalidated_cb d connection domain code message).Inv :=
  hinv.of_le (le_refl _) (le_refl _) hinv.keyed

theorem Dispatcher.step_inv (d d' : Dispatcher) (hinv : d.Inv) (event : DispatcherEvent)
    (h : d.step event = some d') : d'.Inv := by
  cases event with
  | find_classes_async connection channel_type handle_type callback user_data first var_args =>
      simp only [Dispatcher.step, Option.some.injEq] at h
      exact h ▸ find_requestable_channel_classes_async_inv d hinv _ _ _ _ _ _ _
  | idle source_id =>
      simp only [Dispatcher.step, Option.some.injEq] at h
      exact h ▸ dispatch_idle_inv d hinv source_id
  | got_all proxy requestable_channels error =>
      exact dispatcher_connection_got_all_inv d d' hinv proxy requestable_channels error h
  | init_connection connection =>
      simp only [Dispatcher.step, Option.some.injEq] at h
      exact h ▸ dispatcher_init_connection_if_needed_inv d hinv connection
  | connection_invalidated connection domain code message =>
      simp only [Dispatcher.step, Option.some.injEq] at h
      exact h ▸ dispatcher_connection_invalidated_cb_inv d hinv connection domain code message

theorem Dispatcher.run_inv (events : List DispatcherEvent) (d d' : Dispatcher) (hinv : d.Inv)
    (h : d.run events = some d') : d'.Inv := by
  induction events generalizing d with
  | nil =>
      simp only [Dispatcher.run, Option.some.injEq] at h
      exact h ▸ hinv
  | cons e rest ih =>
      simp only [Dispatcher.run] at h
      cases hs : d.step e with
      | none => simp [hs] at h
      | some d₁ =>
          simp only [hs] at h
          exact ih d₁ (Dispatcher.step_inv d d₁ hinv e hs) h

theorem Dispatcher.Inv.class_calls_nodup {d : Dispatcher} (hinv : d.Inv) :
    (d.class_calls.map (fun c => c.request.id)).Nodup := by
  have hle : ((d.class_calls.map (fun c => c.request) : List FindChannelRequest) :
      Multiset FindChannelRequest) ≤ d.requests := by
    unfold Dispatcher.requests
    exact Multiset.le_add_left _ _
  have := Multiset.nodup_of_le (Multiset.map_le_map hle) hinv.nodup
  simpa [Function.comp_def] using this

theorem find_channel_classes_connections (priv priv' : EmpathyDispatcherPriv)
    (h : priv.connections = priv'.connections) (connection : TpConnection)
    (channel_type : Option String) (handle_type : Nat)
    (fixed_properties : Option (List String)) :
    empathy_dispatcher_find_channel_classes priv connection channel_type handle_type
        fixed_properties =
      empathy_dispatcher_find_channel_classes priv' connection channel_type handle_type
        fixed_properties := by
  unfold empathy_dispatcher_find_channel_classes
  rw [h]

theorem is_ready_iff_classes_known (priv : EmpathyDispatcherPriv) (connection : TpConnection) :
    (match priv.connections.lookup connection with
      | none => false
      | some cd =>
        match cd.requestable_channels with
        | none => false
        | some _ => true) = true ↔ classes_known priv connection := by
  unfold classes_known
  cases priv.connections.lookup connection with
  | none => simp
  | some cd =>
      cases hc : cd.requestable_channels with
      | none => simp [hc]
      | some classes => simp [hc]

theorem find_channel_class_idle_cb_known (d : Dispatcher) (request : FindChannelRequest)
    (h : classes_known d.priv request.connection) :
    (find_channel_class_idle_cb d request).class_calls =
        d.class_calls ++ [⟨request, empathy_dispatcher_find_channel_classes d.priv
          request.connection request.channel_type request.handle_type request.properties⟩] ∧
      (find_channel_class_idle_cb d request).priv.connections = d.priv.connections := by
  have hr := (is_ready_iff_classes_known d.priv request.connection).2 h
  unfold find_channel_class_idle_cb
  rw [if_pos hr]
  refine ⟨?_, rfl⟩
  simp only
  rw [find_channel_classes_connections
    { d.priv with request_channel_class_async_ids :=
        d.priv.request_channel_class_async_ids.remove request.id } d.priv rfl]

theorem find_channel_class_idle_cb_unknown (d : Dispatcher) (request : FindChannelRequest)
    (h : ¬ classes_known d.priv request.connection) :
    (find_channel_class_idle_cb d request).class_calls = d.class_calls ∧
      request ∈ ((find_channel_class_idle_cb d request).priv.outstanding_classes_requests.lookup
        request.connection).getD [] := by
  have hr : ¬ _ := fun hh => h ((is_ready_iff_classes_known d.priv request.connection).1 hh)
  unfold find_channel_class_idle_cb
  rw [if_neg hr]
  refine ⟨rfl, ?_⟩
  simp [GHashTable.lookup, GHashTable.insert]

theorem lookup_remove_self {κ ν : Type} [DecidableEq κ] (t : GHashTable κ ν) (k : κ) :
    (t.remove k).lookup k = none := by
  simp [GHashTable.lookup, GHashTable.remove]

theorem dispatcher_connection_got_all_calls (d d' : Dispatcher) (proxy : TpConnection)
    (classes : List ChannelClass)
    (h : dispatcher_connection_got_all d proxy (some classes) none = some d') :
    d'.class_calls = d.class_calls ++
        ((d.priv.outstanding_classes_requests.lookup proxy).getD []).map (fun request =>
          ⟨request, empathy_dispatcher_find_channel_classes d'.priv proxy
            request.channel_type request.handle_type request.properties⟩) ∧
      d'.priv.outstanding_classes_requests.lookup proxy = none ∧
      ∃ cd, d'.priv.connections.lookup proxy = some cd ∧
        cd.requestable_channels = some classes := by
  unfold dispatcher_connection_got_all at h
  cases hl : d.priv.connections.lookup proxy with
  | none => simp [hl] at h
  | some cd =>
      simp only [hl, Option.some.injEq] at h
      subst h
      refine ⟨?_, lookup_remove_self _ _, _, lookup_store_self _ _ _ _ hl, rfl⟩
      simp only
      congr 1

theorem Dispatcher.step_class_calls (d d' : Dispatcher) (hinv : d.Inv) (event : DispatcherEvent)
    (h : d.step event = some d') :
    ∃ calls, d'.class_calls = d.class_calls ++ calls ∧
      ∀ c ∈ calls,
        classes_known d'.priv c.request.connection ∧
        c.classes = empathy_dispatcher_find_channel_classes d'.priv c.request.connection
          c.request.channel_type c.request.handle_type c.request.properties := by
  cases event with
  | find_classes_async connection channel_type handle_type callback user_data first var_args =>
      simp only [Dispatcher.step, Option.some.injEq] at h
      subst h
      refine ⟨[], ?_, by simp⟩
      unfold empathy_dispatcher_find_requestable_channel_classes_async
      cases channel_type with
      | none => simp
      | some ct => by_cases hz : handle_type = 0 <;> simp [hz]
  | idle source_id =>
      simp only [Dispatcher.step, Option.some.injEq] at h
      subst h
      unfold dispatch_idle
      cases hf : d.idle_sources.find? (fun s => decide (s.1 = source_id)) with
      | none => exact ⟨[], by simp, by simp⟩
      | some found =>
          obtain ⟨s, request⟩ := found
          simp only
          by_cases hk : classes_known d.priv request.connection
          · obtain ⟨hc, hconn⟩ := find_channel_class_idle_cb_known
              { d with idle_sources :=
                  d.idle_sources.filter (fun s => decide (s.1 ≠ source_id)) } request hk
            refine ⟨_, hc, ?_⟩
            intro c hc'
            rw [List.mem_singleton] at hc'
            subst hc'
            refine ⟨?_, find_channel_classes_connections _ _ hconn.symm _ _ _ _⟩
            unfold classes_known
            rw [hconn]
            exact hk
          · obtain ⟨hc, _⟩ := find_channel_class_idle_cb_unknown
              { d with idle_sources :=
                  d.idle_sources.filter (fun s => decide (s.1 ≠ source_id)) } request hk
            exact ⟨[], by simpa using hc, by simp⟩
  | got_all proxy requestable_channels error =>
      simp only [Dispatcher.step] at h
      cases error with
      | some e =>
          simp only [dispatcher_connection_got_all, Option.some.injEq] at h
          subst h
          exact ⟨[], by simp, by simp⟩
      | none =>
        cases requestable_channels with
        | none =>
            simp only [dispatcher_connection_got_all, Option.some.injEq] at h
            subst h
            exact ⟨[], by simp, by simp⟩
        | some classes =>
            obtain ⟨hc, _, cd, hl, hcl⟩ := dispatcher_connection_got_all_calls d d' proxy classes h
            refine ⟨_, hc, ?_⟩
            intro c hc'
            obtain ⟨r, hr, rfl⟩ := List.mem_map.1 hc'
            have hconn : r.connection = proxy := by
              cases hq : d.priv.outstanding_classes_requests.lookup proxy with
              | none => simp [hq] at hr
              | some l =>
                  simp only [hq, Option.getD_some] at hr
                  exact hinv.keyed _ (lookup_mem_entries _ _ _ hq) r hr
            simp only [hconn, and_true]
            exact ⟨cd, classes, hl, hcl⟩
  | init_connection connection =>
      simp only [Dispatcher.step, Option.some.injEq] at h
      subst h
      refine ⟨[], ?_, by simp⟩
      unfold dispatcher_init_connection_if_needed
      cases d.priv.connections.lookup connection <;> simp
  | connection_invalidated connection domain code message =>
      simp only [Dispatcher.step, Option.some.injEq] at h
      subst h
      exact ⟨[], by simp [dispatcher_connection_invalidated_cb], by simp⟩

/-- C5: in every state reached from the initial one, no request has had its
callback invoked twice; whatever the next event, each callback it invokes belongs
to a request whose connection has its classes known, and receives the list that
`empathy_dispatcher_find_channel_classes` gives in the resulting state for the
connection, channel type, handle type and properties of the request; the request
made by the asynchronous entry point carries the arguments of the call, so that
this list is the one the synchronous function returns; the idle callback invokes
the callback at once when the classes are known and queues the request
otherwise (a call with handle type 0 makes no request); and
`dispatcher_connection_got_all` invokes the callbacks of the
requests queued for the connection and empties the queue. -/
theorem find_requestable_channel_classes_async_agrees (events : List DispatcherEvent)
    (d : Dispatcher) (hrun : empathy_dispatcher_init.run events = some d) :
    (d.class_calls.map (fun c => c.request.id)).Nodup ∧
    (∀ (event : DispatcherEvent) (d' : Dispatcher), d.step event = some d' →
      ∃ calls, d'.class_calls = d.class_calls ++ calls ∧
        ∀ c ∈ calls,
          classes_known d'.priv c.request.connection ∧
          c.classes = empathy_dispatcher_find_channel_classes d'.priv c.request.connection
            c.request.channel_type c.request.handle_type c.request.properties) ∧
    (∀ (connection : TpConnection) (channel_type : String) (handle_type callback
        user_data : Nat) (first_property_name : Option String) (var_args : List String),
      handle_type ≠ 0 →
      ∃ request : FindChannelRequest,
        (empathy_dispatcher_find_requestable_channel_classes_async d connection
            (some channel_type) handle_type callback user_data first_property_name
            var_args).idle_sources = d.idle_sources ++ [(d.next_source_id, request)] ∧
        (empathy_dispatcher_find_requestable_channel_classes_async d connection
            (some channel_type) handle_type callback user_data first_property_name
            var_args).class_calls = d.class_calls ∧
        request.connection = connection ∧ request.callback = callback ∧
        request.user_data = user_data ∧
        ∀ priv : EmpathyDispatcherPriv,
          empathy_dispatcher_find_channel_classes priv request.connection
              request.channel_type request.handle_type request.properties =
            empathy_dispatcher_find_requestable_channel_classes priv connection
              (some channel_type) handle_type first_property_name var_args) ∧
    (∀ (connection : TpConnection) (channel_type : Option String) (callback user_data : Nat)
        (first_property_name : Option String) (var_args : List String),
      empathy_dispatcher_find_requestable_channel_classes_async d connection channel_type 0
        callback user_data first_property_name var_args = d) ∧
    (∀ request : FindChannelRequest,
      (classes_known d.priv request.connection →
        (find_channel_class_idle_cb d request).class_calls =
          d.class_calls ++ [⟨request, empathy_dispatcher_find_channel_classes d.priv
            request.connection request.channel_type request.handle_type
            request.properties⟩]) ∧
      (¬ classes_known d.priv request.connection →
        (find_channel_class_idle_cb d request).class_calls = d.class_calls ∧
        request ∈
          ((find_channel_class_idle_cb d request).priv.outstanding_classes_requests.lookup
            request.connection).getD [])) ∧
    (∀ (proxy : TpConnection) (classes : List ChannelClass) (d' : Dispatcher),
      dispatcher_connection_got_all d proxy (some classes) none = some d' →
        d'.class_calls = d.class_calls ++
          ((d.priv.outstanding_classes_requests.lookup proxy).getD []).map (fun request =>
            ⟨request, empathy_dispatcher_find_channel_classes d'.priv proxy
              request.channel_type request.handle_type request.properties⟩) ∧
        (∀ request ∈ (d.priv.outstanding_classes_requests.lookup proxy).getD [],
          request.connection = proxy) ∧
        d'.priv.outstanding_classes_requests.lookup proxy = none) := by
  have hinv : d.Inv := Dispatcher.run_inv events _ d empathy_dispatcher_init_inv hrun
  refine ⟨hinv.class_calls_nodup, ?_, ?_, ?_, ?_, ?_⟩
  · intro event d' hstep
    exact Dispatcher.step_class_calls d d' hinv event hstep
  · intro connection channel_type handle_type callback user_data first var_args hz
    refine ⟨{ id := d.next_request_id, connection := connection,
              channel_type := some channel_type, handle_type := handle_type,
              properties := setup_varargs var_args first, callback := callback,
              user_data := user_data }, ?_, ?_, rfl, rfl, rfl, fun priv => rfl⟩
    · simp [empathy_dispatcher_find_requestable_channel_classes_async, hz]
    · simp [empathy_dispatcher_find_requestable_channel_classes_async, hz]
  · intro connection channel_type callback user_data first var_args
    cases channel_type <;>
      simp [empathy_dispatcher_find_requestable_channel_classes_async]
  · intro request
    exact ⟨fun hk => (find_channel_class_idle_cb_known d request hk).1,
      fun hk => find_channel_class_idle_cb_unknown d request hk⟩
  · intro proxy classes d' hg
    obtain ⟨hc, hq, _⟩ := dispatcher_connection_got_all_calls d d' proxy classes hg
    refine ⟨hc, ?_, hq⟩
    intro r hr
    cases hl : d.priv.outstanding_classes_requests.lookup proxy with
    | none => simp [hl] at hr
    | some l =>
        simp only [hl, Option.getD_some] at hr
        exact hinv.keyed _ (lookup_mem_entries _ _ _ hl) r hr

/-- Witness for C5: after `example_events` both requests have been answered, once
each, with the text class. -/
theorem find_requestable_channel_classes_async_agrees_witness :
    empathy_dispatcher_init.run example_events = some example_final ∧
      example_final.class_calls.map (fun c => (c.request.id, c.classes)) =
        [(0, [example_text_class]), (1, [example_text_class])] ∧
      (example_final.class_calls.map (fun c => c.request.id)).Nodup :=
  ⟨by decide, by decide,
    (find_requestable_channel_classes_async_agrees example_events example_final
      (by decide)).1⟩

/-! ## The authentication factory: the claims -/

theorem server_authentication_ne_server_tls :
    TP_IFACE_CHANNEL_TYPE_SERVER_AUTHENTICATION ≠ EMP_IFACE_CHANNEL_TYPE_SERVER_TLS_CONNECTION := by
  decide

/-- The result of `common_checks` on a single channel, test by test. -/
theorem common_checks_singleton (priv : EmpathyAuthFactoryPriv) (channel : TpChannel)
    (must_be_sasl : Bool) :
    common_checks priv [channel] must_be_sasl =
      if channel.channel_type ≠ TP_IFACE_CHANNEL_TYPE_SERVER_AUTHENTICATION ∧
          (must_be_sasl = true ∨
            channel.channel_type ≠ EMP_IFACE_CHANNEL_TYPE_SERVER_TLS_CONNECTION) then
        (false, some
          { domain := GErrorDomain.TP_ERROR
            code := TP_ERROR_INVALID_ARGUMENT
            message :=
              "Can only handle ServerTLSConnection or ServerAuthentication channels, " ++
              "this was a " ++ channel.channel_type ++ " channel" })
      else if channel.channel_type = TP_IFACE_CHANNEL_TYPE_SERVER_AUTHENTICATION ∧
          priv.sasl_handler ≠ none then
        (false, some one_sasl_channel_error)
      else if channel.channel_type = TP_IFACE_CHANNEL_TYPE_SERVER_AUTHENTICATION ∧
          tp_strv_contains (available_mechanisms channel) "X-TELEPATHY-PASSWORD" = false then
        (false, some
          { domain := GErrorDomain.TP_ERROR
            code := TP_ERROR_INVALID_ARGUMENT
            message := "Only the X-TELEPATHY-PASSWORD SASL mechanism is supported" })
      else
        match channel.invalidated with
        | some dbus_error => (false, some dbus_error)
        | none => (true, none) := by
  simp only [common_checks, available_mechanisms, one_sasl_channel_error, List.length_singleton,
    bne_self_eq_false, Bool.false_eq_true, if_false, bne_iff_ne, ne_eq, Bool.and_eq_true,
    Bool.or_eq_true, beq_iff_eq, Bool.not_eq_true', decide_eq_true_eq]

theorem common_checks_length_ne_one (priv : EmpathyAuthFactoryPriv) (channels : List TpChannel)
    (must_be_sasl : Bool) (h : channels.length ≠ 1) :
    common_checks priv channels must_be_sasl =
      (false, some
        { domain := GErrorDomain.TP_ERROR
          code := TP_ERROR_INVALID_ARGUMENT
          message := "Can't handle more than one ServerTLSConnection or ServerAuthentication " ++
            "channel for the same connection." }) := by
  simp [common_checks, h]

theorem length_eq_one_iff_singleton (channels : List TpChannel) :
    channels.length = 1 ↔ ∃ channel, channels = [channel] := by
  constructor
  · intro h
    match channels, h with
    | [c], _ => exact ⟨c, rfl⟩
  · rintro ⟨c, rfl⟩
    rfl

/-- What `common_checks` has verified when it returns `TRUE`. -/
theorem common_checks_pass (priv : EmpathyAuthFactoryPriv) (channels : List TpChannel)
    (must_be_sasl : Bool) (h : (common_checks priv channels must_be_sasl).1 = true) :
    ∃ channel, channels = [channel] ∧
      (channel.channel_type = TP_IFACE_CHANNEL_TYPE_SERVER_AUTHENTICATION ∨
        (channel.channel_type = EMP_IFACE_CHANNEL_TYPE_SERVER_TLS_CONNECTION ∧
          must_be_sasl = false)) ∧
      (channel.channel_type = TP_IFACE_CHANNEL_TYPE_SERVER_AUTHENTICATION →
        priv.sasl_handler = none ∧
        tp_strv_contains (available_mechanisms channel) "X-TELEPATHY-PASSWORD" = true) ∧
      channel.invalidated = none := by
  by_cases hlen : channels.length = 1
  · obtain ⟨channel, rfl⟩ := (length_eq_one_iff_singleton channels).1 hlen
    refine ⟨channel, rfl, ?_⟩
    rw [common_checks_singleton] at h
    have hne := server_authentication_ne_server_tls
    by_cases ha : channel.channel_type = TP_IFACE_CHANNEL_TYPE_SERVER_AUTHENTICATION
    · by_cases hs : priv.sasl_handler = none
      · cases hm : tp_strv_contains (available_mechanisms channel) "X-TELEPATHY-PASSWORD"
        · simp [ha, hs, hm] at h
        · cases hi : channel.invalidated with
          | none => simp [ha, hs]
          | some e => simp [ha, hs, hm, hi] at h
      · simp [ha, hs, one_sasl_channel_error] at h
    · by_cases ht : channel.channel_type = EMP_IFACE_CHANNEL_TYPE_SERVER_TLS_CONNECTION
      · have hne2 : ¬ EMP_IFACE_CHANNEL_TYPE_SERVER_TLS_CONNECTION =
            TP_IFACE_CHANNEL_TYPE_SERVER_AUTHENTICATION := fun h => hne h.symm
        cases must_be_sasl
        · cases hi : channel.invalidated with
          | none => simp [ht, hne2]
          | some e => simp [ht, hi, hne2] at h
        · simp [ht, hne2] at h
      · simp [ha, ht] at h
  · rw [common_checks_length_ne_one priv channels must_be_sasl hlen] at h
    simp at h

/-- The error that `common_checks` leaves when it returns `FALSE`. -/
theorem common_checks_fail (priv : EmpathyAuthFactoryPriv) (channels : List TpChannel)
    (must_be_sasl : Bool) (h : (common_checks priv channels must_be_sasl).1 = false) :
    ∃ error, (common_checks priv channels must_be_sasl).2 = some error ∧
      ((error.domain = GErrorDomain.TP_ERROR ∧ error.code = TP_ERROR_INVALID_ARGUMENT) ∨
        ∃ channel, channels = [channel] ∧ channel.invalidated = some error) := by
  by_cases hlen : channels.length = 1
  · obtain ⟨channel, rfl⟩ := (length_eq_one_iff_singleton channels).1 hlen
    rw [common_checks_singleton] at h ⊢
    split
    · exact ⟨_, rfl, Or.inl ⟨rfl, rfl⟩⟩
    · split
      · exact ⟨_, rfl, Or.inl ⟨rfl, rfl⟩⟩
      · split
        · exact ⟨_, rfl, Or.inl ⟨rfl, rfl⟩⟩
        · rename_i h1 h2 h3
          simp only [h1, h2, h3, if_false] at h
          cases hi : channel.invalidated with
          | none => simp [hi] at h
          | some e => exact ⟨e, rfl, Or.inr ⟨channel, rfl, hi⟩⟩
  · rw [common_checks_length_ne_one priv channels must_be_sasl hlen]
    exact ⟨_, rfl, Or.inl ⟨rfl, rfl⟩⟩

/-- C6: `common_checks` returns `TRUE` exactly when there is exactly one channel,
it is a ServerAuthentication channel or (with `must_be_sasl` false) a
ServerTLSConnection channel, a ServerAuthentication channel finds no SASL
handler held and offers X-TELEPATHY-PASSWORD, and the channel is not
invalidated; and when it returns `FALSE` an error is set, which is a
`TP_ERROR_INVALID_ARGUMENT` or the invalidation error of the channel. -/
theorem common_checks_true_exactly_when (priv : EmpathyAuthFactoryPriv)
    (channels : List TpChannel) (must_be_sasl : Bool) :
    ((common_checks priv channels must_be_sasl).1 = true ↔
      ∃ channel, channels = [channel] ∧
        (channel.channel_type = TP_IFACE_CHANNEL_TYPE_SERVER_AUTHENTICATION ∨
          (channel.channel_type = EMP_IFACE_CHANNEL_TYPE_SERVER_TLS_CONNECTION ∧
            must_be_sasl = false)) ∧
        (channel.channel_type = TP_IFACE_CHANNEL_TYPE_SERVER_AUTHENTICATION →
          priv.sasl_handler = none ∧
          tp_strv_contains (available_mechanisms channel) "X-TELEPATHY-PASSWORD" = true) ∧
        channel.invalidated = none) ∧
    ((common_checks priv channels must_be_sasl).1 = true ∨
      ∃ error, (common_checks priv channels must_be_sasl).2 = some error ∧
        ((error.domain = GErrorDomain.TP_ERROR ∧ error.code = TP_ERROR_INVALID_ARGUMENT) ∨
          ∃ channel, channels = [channel] ∧ channel.invalidated = some error)) := by
  have hne := server_authentication_ne_server_tls
  refine ⟨⟨common_checks_pass priv channels must_be_sasl, ?_⟩, ?_⟩
  · rintro ⟨channel, rfl, htype, hsasl, hinval⟩
    rw [common_checks_singleton]
    rcases htype with ha | ⟨ht, hm⟩
    · obtain ⟨hs, hmech⟩ := hsasl ha
      simp [ha, hs, hmech, hinval]
    · have hne2 : ¬ EMP_IFACE_CHANNEL_TYPE_SERVER_TLS_CONNECTION =
          TP_IFACE_CHANNEL_TYPE_SERVER_AUTHENTICATION := fun h => hne h.symm
      simp [ht, hm, hne2, hinval]
  · cases hok : (common_checks priv channels must_be_sasl).1 with
    | true => exact Or.inl rfl
    | false => exact Or.inr (common_checks_fail priv channels must_be_sasl hok)

/-- C7: `handle_channels` fails the context with the error of `common_checks`
and starts nothing when the checks fail; otherwise it delays the context and
starts exactly one handler creation, a TLS handler for a ServerTLSConnection
channel and a SASL handler for a ServerAuthentication channel. -/
theorem handle_channels_routes (priv : EmpathyAuthFactoryPriv) (account : Nat)
    (channels : List TpChannel) (context : Nat) :
    ((common_checks priv channels false).1 = false ∧
      ∃ error, (common_checks priv channels false).2 = some error ∧
        handle_channels priv account channels context =
          [AuthEffect.handle_channels_context_fail (some context) (some error)]) ∨
    ((common_checks priv channels false).1 = true ∧
      ∃ channel, channels = [channel] ∧
        ((channel.channel_type = EMP_IFACE_CHANNEL_TYPE_SERVER_TLS_CONNECTION ∧
            handle_channels priv account channels context =
              [AuthEffect.handle_channels_context_delay context,
               AuthEffect.server_tls_handler_new_async channel
                 (handler_context_data_new (some context))]) ∨
          (channel.channel_type = TP_IFACE_CHANNEL_TYPE_SERVER_AUTHENTICATION ∧
            handle_channels priv account channels context =
              [AuthEffect.handle_channels_context_delay context,
               AuthEffect.server_sasl_handler_new_async account channel
                 (handler_context_data_new (some context))]))) := by
  have hne := server_authentication_ne_server_tls
  cases hok : (common_checks priv channels false).1 with
  | false =>
      left
      obtain ⟨e, he, _⟩ := common_checks_fail priv channels false hok
      refine ⟨rfl, e, he, ?_⟩
      have hres : common_checks priv channels false = (false, some e) := Prod.ext hok he
      simp [handle_channels, hres]
  | true =>
      right
      obtain ⟨channel, rfl, htype, _, _⟩ := common_checks_pass priv channels false hok
      have hres : common_checks priv [channel] false =
          (true, (common_checks priv [channel] false).2) := Prod.ext hok rfl
      refine ⟨rfl, channel, rfl, ?_⟩
      rcases htype with ha | ⟨ht, _⟩
      · right
        refine ⟨ha, ?_⟩
        unfold handle_channels
        rw [hres]
        simp [ha, hne]
      · left
        refine ⟨ht, ?_⟩
        unfold handle_channels
        rw [hres]
        simp [ht]

/-- C8: the factory does not reject a second ServerAuthentication channel that is
offered while the SASL handler of the first is still being created:
`common_checks` passes and a second creation is started. When both creations
succeed both handlers are announced and the reference to the first, 100, is
overwritten by the second, 101; when the second creation fails the handler held
for the first channel is cleared. The same second creation is started after the
observer has claimed the first channel. -/
theorem second_sasl_channel_accepted_while_pending :
    (empathy_auth_factory_init.run
        [AuthEvent.handle_channels 1 [example_sasl_channel "/a"] 10,
         AuthEvent.handle_channels 1 [example_sasl_channel "/b"] 11]).effects =
      [AuthEffect.handle_channels_context_delay 10,
       AuthEffect.server_sasl_handler_new_async 1 (example_sasl_channel "/a")
         (handler_context_data_new (some 10)),
       AuthEffect.handle_channels_context_delay 11,
       AuthEffect.server_sasl_handler_new_async 1 (example_sasl_channel "/b")
         (handler_context_data_new (some 11))] ∧
    ((empathy_auth_factory_init.run
        [AuthEvent.handle_channels 1 [example_sasl_channel "/a"] 10,
         AuthEvent.handle_channels 1 [example_sasl_channel "/b"] 11,
         AuthEvent.server_sasl_handler_ready (handler_context_data_new (some 10))
           (Except.ok 100),
         AuthEvent.server_sasl_handler_ready (handler_context_data_new (some 11))
           (Except.ok 101)]).effects.filter
        (fun e => decide (e = AuthEffect.emit_new_server_sasl_handler 100 ∨
          e = AuthEffect.emit_new_server_sasl_handler 101))) =
      [AuthEffect.emit_new_server_sasl_handler 100,
       AuthEffect.emit_new_server_sasl_handler 101] ∧
    (empathy_auth_factory_init.run
        [AuthEvent.handle_channels 1 [example_sasl_channel "/a"] 10,
         AuthEvent.handle_channels 1 [example_sasl_channel "/b"] 11,
         AuthEvent.server_sasl_handler_ready (handler_context_data_new (some 10))
           (Except.ok 100)]).priv.sasl_handler = some 100 ∧
    (empathy_auth_factory_init.run
        [AuthEvent.handle_channels 1 [example_sasl_channel "/a"] 10,
         AuthEvent.handle_channels 1 [example_sasl_channel "/b"] 11,
         AuthEvent.server_sasl_handler_ready (handler_context_data_new (some 10))
           (Except.ok 100),
         AuthEvent.server_sasl_handler_ready (handler_context_data_new (some 11))
           (Except.ok 101)]).priv.sasl_handler = some 101 ∧
    (empathy_auth_factory_init.run
        [AuthEvent.handle_channels 1 [example_sasl_channel "/a"] 10,
         AuthEvent.handle_channels 1 [example_sasl_channel "/b"] 11,
         AuthEvent.server_sasl_handler_ready (handler_context_data_new (some 10))
           (Except.ok 100),
         AuthEvent.server_sasl_handler_ready (handler_context_data_new (some 11))
           (Except.error example_creation_error)]).priv.sasl_handler = none ∧
    (empathy_auth_factory_init.run
        [AuthEvent.observe_channels 1 [example_sasl_channel "/a"] 30 20,
         AuthEvent.get_password_finished example_observe_data (some "secret"),
         AuthEvent.claim_finished example_observe_data true,
         AuthEvent.handle_channels 1 [example_sasl_channel "/b"] 11]).effects =
      [AuthEffect.keyring_get_password_async 1 example_observe_data,
       AuthEffect.observe_channels_context_delay 20,
       AuthEffect.dispatch_operation_claim_async 30 example_observe_data,
       AuthEffect.observe_channels_context_accept 20,
       AuthEffect.server_sasl_handler_new_async 1 (example_sasl_channel "/a")
         (handler_context_data_new none),
       AuthEffect.handle_channels_context_delay 11,
       AuthEffect.server_sasl_handler_new_async 1 (example_sasl_channel "/b")
         (handler_context_data_new (some 11))] := by
  refine ⟨?_, ?_, ?_, ?_, ?_, ?_⟩ <;> decide

/-- What the guard of `common_checks` does ensure: in every state in which the
factory holds a SASL handler, a ServerAuthentication channel offered to
`handle_channels` or to `observe_channels` is rejected with
`one_sasl_channel_error` and nothing else is done; the held handler is only
changed by `server_sasl_handler_ready_cb`, which stores what the creation gave
(a handler, or `NULL` with an error), and by `sasl_handler_invalidated_cb`,
which clears it. -/
theorem sasl_channel_rejected_while_handler_held (s : AuthFactory) (handler account : Nat)
    (channel : TpChannel) (dispatch_operation context : Nat)
    (hheld : s.priv.sasl_handler = some handler)
    (hauth : channel.channel_type = TP_IFACE_CHANNEL_TYPE_SERVER_AUTHENTICATION) :
    s.step (AuthEvent.handle_channels account [channel] context) =
        { s with effects := s.effects ++
            [AuthEffect.handle_channels_context_fail (some context)
              (some one_sasl_channel_error)] } ∧
      s.step (AuthEvent.observe_channels account [channel] dispatch_operation context) =
        { s with effects := s.effects ++
            [AuthEffect.observe_channels_context_fail context (some one_sasl_channel_error)] } ∧
      (∀ event : AuthEvent,
        (∀ data res, event ≠ AuthEvent.server_sasl_handler_ready data res) →
        event ≠ AuthEvent.sasl_handler_invalidated →
        (s.step event).priv.sasl_handler = some handler) ∧
      (∀ data h, (s.step (AuthEvent.server_sasl_handler_ready data
          (Except.ok h))).priv.sasl_handler = some h) ∧
      (∀ data error, (s.step (AuthEvent.server_sasl_handler_ready data
          (Except.error error))).priv.sasl_handler = none) ∧
      (s.step AuthEvent.sasl_handler_invalidated).priv.sasl_handler = none := by
  have hne := server_authentication_ne_server_tls
  have hc : ∀ must_be_sasl, common_checks s.priv [channel] must_be_sasl =
      (false, some one_sasl_channel_error) := by
    intro must_be_sasl
    rw [common_checks_singleton]
    simp [hauth, hheld]
  refine ⟨?_, ?_, ?_, ?_, ?_, ?_⟩
  · simp [AuthFactory.step, handle_channels, hc]
  · simp [AuthFactory.step, observe_channels, hc]
  · intro event h1 h2
    cases event with
    | server_sasl_handler_ready data res => exact absurd rfl (h1 data res)
    | sasl_handler_invalidated => exact absurd rfl h2
    | _ => simpa [AuthFactory.step] using hheld
  · intro data h
    simp [AuthFactory.step, server_sasl_handler_ready_cb]
  · intro data error
    simp [AuthFactory.step, server_sasl_handler_ready_cb]
  · simp [AuthFactory.step, sasl_handler_invalidated_cb]

/-- With handler 100 held, a ServerAuthentication channel is rejected. -/
theorem sasl_channel_rejected_while_handler_held_witness :
    (empathy_auth_factory_init.run
        [AuthEvent.server_sasl_handler_ready (handler_context_data_new none)
          (Except.ok 100)]).step
        (AuthEvent.handle_channels 1 [example_sasl_channel "/b"] 11) =
      { priv := { sasl_handler := some 100, dispose_run := false }
        effects :=
          [AuthEffect.connect_invalidated 100, AuthEffect.emit_new_server_sasl_handler 100,
           AuthEffect.handle_channels_context_fail (some 11) (some one_sasl_channel_error)] } :=
  (sasl_channel_rejected_while_handler_held
    (empathy_auth_factory_init.run
      [AuthEvent.server_sasl_handler_ready (handler_context_data_new none) (Except.ok 100)])
    100 1 (example_sasl_channel "/b") 30 11 (by decide) (by decide)).1

/-- C9: `observe_channels` either fails the context, or its single channel is a
ServerAuthentication channel offering X-TELEPATHY-PASSWORD and the keyring
lookup is started for it; with a ServerTLSConnection channel among the
channels no keyring lookup is started. -/
theorem observe_channels_only_sasl (priv : EmpathyAuthFactoryPriv) (account : Nat)
    (channels : List TpChannel) (dispatch_operation context : Nat) :
    (((common_checks priv channels true).1 = false ∧
        observe_channels priv account channels dispatch_operation context =
          [AuthEffect.observe_channels_context_fail context
            (common_checks priv channels true).2]) ∨
      ((common_checks priv channels true).1 = true ∧
        ∃ channel, channels = [channel] ∧
          channel.channel_type = TP_IFACE_CHANNEL_TYPE_SERVER_AUTHENTICATION ∧
          tp_strv_contains (available_mechanisms channel) "X-TELEPATHY-PASSWORD" = true ∧
          observe_channels priv account channels dispatch_operation context =
            [AuthEffect.keyring_get_password_async account
               { context := context, dispatch_operation := dispatch_operation,
                 account := account, channel := channel },
             AuthEffect.observe_channels_context_delay context])) ∧
    ((∃ channel ∈ channels,
        channel.channel_type = EMP_IFACE_CHANNEL_TYPE_SERVER_TLS_CONNECTION) →
      (observe_channels priv account channels dispatch_operation context).all
        (fun e => !e.is_keyring_lookup) = true) := by
  have hne := server_authentication_ne_server_tls
  cases hok : (common_checks priv channels true).1 with
  | false =>
      have hres : common_checks priv channels true =
          (false, (common_checks priv channels true).2) := Prod.ext hok rfl
      have heff : observe_channels priv account channels dispatch_operation context =
          [AuthEffect.observe_channels_context_fail context
            (common_checks priv channels true).2] := by
        unfold observe_channels
        rw [hres]
      refine ⟨Or.inl ⟨rfl, heff⟩, fun _ => ?_⟩
      rw [heff]
      simp [AuthEffect.is_keyring_lookup]
  | true =>
      obtain ⟨channel, rfl, htype, hmech, _⟩ := common_checks_pass priv channels true hok
      have hres : common_checks priv [channel] true =
          (true, (common_checks priv [channel] true).2) := Prod.ext hok rfl
      have ha : channel.channel_type = TP_IFACE_CHANNEL_TYPE_SERVER_AUTHENTICATION := by
        rcases htype with ha | ⟨_, hf⟩
        · exact ha
        · simp at hf
      refine ⟨Or.inr ⟨rfl, channel, rfl, ha, (hmech ha).2, ?_⟩, ?_⟩
      · unfold observe_channels
        rw [hres]
      · rintro ⟨c, hc, ht⟩
        rw [List.mem_singleton] at hc
        subst hc
        rw [ha] at ht
        exact absurd ht hne

/-- C10: `get_password_cb` accepts the observe context exactly once, with or
without a password, and calls Claim on the dispatch operation exactly when
there is a password; `claim_cb` neither accepts nor claims again. -/
theorem get_password_cb_accepts_once (data : ObserveChannelsData) (password : Option String) :
    (get_password_cb data password).filter AuthEffect.is_observe_accept =
        [AuthEffect.observe_channels_context_accept data.context] ∧
      (get_password_cb data password).filter AuthEffect.is_claim =
        (if password.isSome then
          [AuthEffect.dispatch_operation_claim_async data.dispatch_operation data]
         else []) ∧
      ∀ claimed : Bool,
        (claim_cb data claimed).filter
          (fun e => e.is_observe_accept || e.is_claim) = [] := by
  refine ⟨?_, ?_, ?_⟩
  · cases password <;>
      simp [get_password_cb, AuthEffect.is_observe_accept]
  · cases password <;>
      simp [get_password_cb, AuthEffect.is_claim]
  · intro claimed
    cases claimed <;>
      simp [claim_cb, AuthEffect.is_observe_accept, AuthEffect.is_claim]

/-! ## Dispatch bookkeeping: the claims -/

theorem lookup_remove_other {κ ν : Type} [DecidableEq κ] (t : GHashTable κ ν) (k k' : κ)
    (h : k' ≠ k) : (t.remove k).lookup k' = t.lookup k' := by
  obtain ⟨entries⟩ := t
  simp only [GHashTable.lookup, GHashTable.remove]
  induction entries with
  | nil => rfl
  | cons e rest ih =>
      obtain ⟨a, b⟩ := e
      by_cases hk : a = k
      · have hk' : ¬ a = k' := fun h' => h (h'.symm.trans hk)
        rw [List.filter_cons_of_neg (by simp [hk]), List.find?_cons_of_neg _ (by simp [hk'])]
        exact ih
      · rw [List.filter_cons_of_pos (by simp [hk])]
        by_cases hk' : a = k'
        · rw [List.find?_cons_of_pos _ (by simp [hk']), List.find?_cons_of_pos _ (by simp [hk'])]
        · rw [List.find?_cons_of_neg _ (by simp [hk']), List.find?_cons_of_neg _ (by simp [hk'])]
          exact ih

theorem lookup_store_other {κ ν : Type} [DecidableEq κ] (t : GHashTable κ ν) (k k' : κ) (v : ν)
    (h : k' ≠ k) : (t.store k v).lookup k' = t.lookup k' := by
  obtain ⟨entries⟩ := t
  simp only [GHashTable.lookup, GHashTable.store]
  induction entries with
  | nil => rfl
  | cons e rest ih =>
      obtain ⟨a, b⟩ := e
      rw [List.map_cons]
      by_cases hk : a = k
      · have hk' : ¬ a = k' := fun h' => h (h'.symm.trans hk)
        simp only [hk, if_true]
        rw [List.find?_cons_of_neg _ (by simp [← hk, hk']),
          List.find?_cons_of_neg _ (by simp [← hk, hk'])]
        simpa [hk] using ih
      · simp only [hk, if_false]
        by_cases hk' : a = k'
        · rw [List.find?_cons_of_pos _ (by simp [hk']), List.find?_cons_of_pos _ (by simp [hk'])]
        · rw [List.find?_cons_of_neg _ (by simp [hk']), List.find?_cons_of_neg _ (by simp [hk'])]
          exact ih

theorem not_mem_keys_remove {κ ν : Type} [DecidableEq κ] (t : GHashTable κ ν) (k : κ) :
    k ∉ (t.remove k).keys := by
  simp [GHashTable.keys, GHashTable.remove]

theorem mem_keys_insert {κ ν : Type} [DecidableEq κ] (t : GHashTable κ ν) (k : κ) (v : ν) :
    k ∈ (t.insert k v).keys := by
  simp [GHashTable.keys, GHashTable.insert]

/-- The requests that `flush_requests_loop` keeps. -/
theorem flush_requests_loop_kept (operation : Option Nat) (error : Option GError)
    (requests : List DispatcherRequestData) :
    (flush_requests_loop operation error requests).1 =
      requests.filter (fun r => decide (r.operation ≠ operation)) := by
  induction requests with
  | nil => rfl
  | cons r rest ih =>
      by_cases h : r.operation = operation
      · simp [flush_requests_loop, h, ih]
      · simp [flush_requests_loop, h, ih]

/-- The callback invocations that `flush_requests_loop` makes. -/
theorem flush_requests_loop_calls (operation : Option Nat) (error : Option GError)
    (requests : List DispatcherRequestData) :
    (flush_requests_loop operation error requests).2 =
      (requests.filter (fun r => decide (r.operation = operation))).filterMap (fun r =>
        r.cb.map (fun cb =>
          if error.isSome then
            { cb := cb, operation := none, error := error, user_data := r.user_data }
          else
            { cb := cb, operation := operation, error := none, user_data := r.user_data })) := by
  induction requests with
  | nil => rfl
  | cons r rest ih =>
      by_cases h : r.operation = operation
      · cases hcb : r.cb with
        | none => simp [flush_requests_loop, h, ih, hcb]
        | some cb =>
            cases error with
            | none => simp [flush_requests_loop, h, ih, hcb]
            | some e => simp [flush_requests_loop, h, ih, hcb]
      · simp [flush_requests_loop, h, ih]

/-- Each request with a callback accounts for one invocation, with its callback and
user data. -/
theorem length_filter_calls (mk : Nat → Nat → DispatcherRequestCall)
    (hcb : ∀ cb ud, (mk cb ud).cb = cb) (hud : ∀ cb ud, (mk cb ud).user_data = ud)
    (requests : List DispatcherRequestData) (cb user_data : Nat) :
    ((requests.filterMap (fun r => r.cb.map (fun c => mk c r.user_data))).filter
        (fun c => decide (c.cb = cb ∧ c.user_data = user_data))).length =
      (requests.filter
        (fun r => decide (r.cb = some cb ∧ r.user_data = user_data))).length := by
  induction requests with
  | nil => rfl
  | cons r rest ih =>
      cases hr : r.cb with
      | none =>
          rw [List.filterMap_cons_none (by simp [hr]), List.filter_cons_of_neg (by simp [hr])]
          exact ih
      | some c =>
          rw [List.filterMap_cons_some (by simp [hr]; rfl)]
          by_cases h : c = cb ∧ r.user_data = user_data
          · rw [List.filter_cons_of_pos (by simp [hcb, hud, h]),
              List.filter_cons_of_pos (by simp [hr, h]), List.length_cons, List.length_cons, ih]
          · rw [List.filter_cons_of_neg (by simpa [hcb, hud] using h),
              List.filter_cons_of_neg (by simpa [hr] using h)]
            exact ih

/-- C13: when a connection is invalidated, the callbacks of its outstanding
requests that have one are invoked, once for each such request, with no
operation and with an error made of the domain, code and message of the
invalidation; the connection is no longer in the connection table afterwards,
and the entries of the other connections are what they were. -/
theorem connection_invalidated_terminates_requests (d : Dispatcher)
    (connection : TpConnection) (domain : GErrorDomain) (code : Int) (message : String) :
    (∃ calls : List DispatcherRequestCall,
      (dispatcher_connection_invalidated_cb d connection domain code message).request_calls =
        d.request_calls ++ calls ∧
      calls =
        (((d.priv.connections.lookup connection).map
            (fun cd => cd.outstanding_requests)).getD []).filterMap (fun r =>
          r.cb.map (fun cb =>
            { cb := cb, operation := none,
              error := some { domain := domain, code := code, message := message },
              user_data := r.user_data })) ∧
      (∀ c ∈ calls, c.operation = none ∧
        c.error = some { domain := domain, code := code, message := message }) ∧
      (∀ cb user_data : Nat,
        (calls.filter (fun c => decide (c.cb = cb ∧ c.user_data = user_data))).length =
          ((((d.priv.connections.lookup connection).map
              (fun cd => cd.outstanding_requests)).getD []).filter
            (fun r => decide (r.cb = some cb ∧ r.user_data = user_data))).length)) ∧
    (dispatcher_connection_invalidated_cb d connection domain code
        message).priv.connections.lookup connection = none ∧
    (∀ other : TpConnection, other ≠ connection →
      (dispatcher_connection_invalidated_cb d connection domain code
          message).priv.connections.lookup other = d.priv.connections.lookup other) := by
  refine ⟨⟨_, ?_, rfl, ?_, ?_⟩, ?_, ?_⟩
  · unfold dispatcher_connection_invalidated_cb
    cases hl : d.priv.connections.lookup connection with
    | none => simp
    | some cd =>
        simp only [Option.map_some', Option.getD_some, List.append_cancel_left_eq]
        congr 1
        funext r
        cases r.cb <;> rfl
  · intro c hc
    obtain ⟨r, _, hr⟩ := List.mem_filterMap.1 hc
    cases hcb : r.cb with
    | none => simp [hcb] at hr
    | some cb =>
        simp only [hcb, Option.map_some', Option.some.injEq] at hr
        subst hr
        exact ⟨rfl, rfl⟩
  · intro cb user_data
    exact length_filter_calls
      (fun c ud => { cb := c, operation := none,
                     error := some { domain := domain, code := code, message := message },
                     user_data := ud })
      (fun _ _ => rfl) (fun _ _ => rfl) _ cb user_data
  · exact lookup_remove_self _ _
  · intro other hne
    exact lookup_remove_other _ _ _ hne

/-- C14: after `dispatch_operation_claimed_cb` the object path of the channel is a
key of the `dispatched_channels` of the connection and is not a key of its
`dispatching_channels`; an entry that `dispatched_channels` already had for the
path is kept, otherwise a new one is made for the channel of the operation. The
call fails its assertion exactly when the connection is not in the table. -/
theorem claimed_marks_channel_dispatched (d : Dispatcher)
    (operation : EmpathyDispatchOperation) :
    (dispatch_operation_claimed_cb d operation = none ↔
      d.priv.connections.lookup operation.connection = none) ∧
    (∀ cd, d.priv.connections.lookup operation.connection = some cd →
      ∃ d' cd', dispatch_operation_claimed_cb d operation = some d' ∧
        d'.priv.connections.lookup operation.connection = some cd' ∧
        operation.object_path ∈ cd'.dispatched_channels.keys ∧
        operation.object_path ∉ cd'.dispatching_channels.keys ∧
        (∀ data, cd.dispatched_channels.lookup operation.object_path = some data →
          cd'.dispatched_channels = cd.dispatched_channels) ∧
        (cd.dispatched_channels.lookup operation.object_path = none →
          cd'.dispatched_channels.lookup operation.object_path =
            some (new_dispatch_data operation.channel operation.channel_wrapper))) := by
  constructor
  · cases hl : d.priv.connections.lookup operation.connection <;>
      simp [dispatch_operation_claimed_cb, hl]
  · intro cd hl
    simp only [dispatch_operation_claimed_cb, hl]
    refine ⟨_, _, rfl, lookup_store_self _ _ _ _ hl, ?_, not_mem_keys_remove _ _, ?_, ?_⟩
    · cases hd : cd.dispatched_channels.lookup operation.object_path with
      | none => exact mem_keys_insert _ _ _
      | some data => exact lookup_some_mem_keys _ _ _ hd
    · intro data hd
      simp [hd]
    · intro hd
      simp only [hd]
      simp [GHashTable.lookup, GHashTable.insert]

/-- C16: `dispatch_operation_flush_requests` removes from the outstanding requests
exactly those bound to the given operation and leaves the others in their
order; the callbacks invoked are those of the removed requests that have one,
once for each such request, with no operation and the error when an error is
given and with the operation and no error otherwise; nothing else of the
connection data changes. -/
theorem flush_requests_resolves_bound (operation : Option Nat) (error : Option GError)
    (cd : ConnectionData) :
    (dispatch_operation_flush_requests operation error cd).1.outstanding_requests =
        cd.outstanding_requests.filter (fun r => decide (r.operation ≠ operation)) ∧
    List.Sublist (dispatch_operation_flush_requests operation error cd).1.outstanding_requests
        cd.outstanding_requests ∧
    (dispatch_operation_flush_requests operation error cd).1 =
        { cd with outstanding_requests :=
            (dispatch_operation_flush_requests operation error cd).1.outstanding_requests } ∧
    (∀ c ∈ (dispatch_operation_flush_requests operation error cd).2,
      (error.isSome = true → c.operation = none ∧ c.error = error) ∧
      (error.isSome = false → c.operation = operation ∧ c.error = none)) ∧
    (∀ cb user_data : Nat,
      ((dispatch_operation_flush_requests operation error cd).2.filter
          (fun c => decide (c.cb = cb ∧ c.user_data = user_data))).length =
        (cd.outstanding_requests.filter (fun r =>
          decide (r.operation = operation ∧ r.cb = some cb ∧
            r.user_data = user_data))).length) := by
  have hkept := flush_requests_loop_kept operation error cd.outstanding_requests
  have hcalls := flush_requests_loop_calls operation error cd.outstanding_requests
  refine ⟨hkept, ?_, rfl, ?_, ?_⟩
  · show List.Sublist (flush_requests_loop operation error cd.outstanding_requests).1 _
    rw [hkept]
    exact List.filter_sublist _
  · intro c hc
    have hc' : c ∈ (flush_requests_loop operation error cd.outstanding_requests).2 := hc
    rw [hcalls] at hc'
    obtain ⟨r, _, hr⟩ := List.mem_filterMap.1 hc'
    cases hcb : r.cb with
    | none => simp [hcb] at hr
    | some cb =>
        simp only [hcb, Option.map_some', Option.some.injEq] at hr
        subst hr
        cases error <;> simp
  · intro cb user_data
    show ((flush_requests_loop operation error cd.outstanding_requests).2.filter _).length = _
    rw [hcalls]
    have h := length_filter_calls
      (fun c ud => if error.isSome then
          { cb := c, operation := none, error := error, user_data := ud }
        else { cb := c, operation := operation, error := none, user_data := ud })
      (fun _ _ => by split <;> rfl) (fun _ _ => by split <;> rfl)
      (cd.outstanding_requests.filter (fun r => decide (r.operation = operation))) cb user_data
    rw [h, List.filter_filter]
    congr 1
    apply List.filter_congr
    intro r _
    by_cases h1 : r.operation = operation <;> simp [h1]

/-- What `dispatch_operation_flush_requests` does for an operation when no error
is given, written out: the connection data and the callback invocations. -/
theorem flush_requests_operation_eq (operation : Nat) (cd : ConnectionData) :
    dispatch_operation_flush_requests (some operation) none cd =
      ({ cd with outstanding_requests :=
          cd.outstanding_requests.filter (fun r => decide (r.operation ≠ some operation)) },
       (cd.outstanding_requests.filter
          (fun r => decide (r.operation = some operation))).filterMap (fun r =>
        r.cb.map (fun cb =>
          ({ cb := cb, operation := some operation, error := none,
             user_data := r.user_data } : DispatcherRequestCall)))) := by
  simp only [dispatch_operation_flush_requests, flush_requests_loop_kept,
    flush_requests_loop_calls]
  simp

/-- C17: `dispatch_operation_ready_cb` connects the two signal handlers, emits
`observe` once, before any callback and any other emission, starts the
operation, then resolves the outstanding requests bound to the operation (each
of them leaves the list of the connection, the others stay in their order, and
the callback of each bound request that has one is invoked with the operation
and no error, in the order of the list), and after that emits `approve` when
the status is approving, `dispatch` when it is dispatching and nothing when it
is claimed: never both. It fails an assertion exactly when the connection is
unknown or the status is none of the three. -/
theorem ready_cb_observe_flush_route (d : Dispatcher) (operation : EmpathyDispatchOperation)
    (status : EmpathyDispatchOperationState) :
    (dispatch_operation_ready_cb d operation status = none ↔
      (d.priv.connections.lookup operation.connection = none ∨
        (status ≠ EmpathyDispatchOperationState.CLAIMED ∧
         status ≠ EmpathyDispatchOperationState.APPROVING ∧
         status ≠ EmpathyDispatchOperationState.DISPATCHING))) ∧
    (∀ d' effects, dispatch_operation_ready_cb d operation status = some (d', effects) →
      ∃ (cd : ConnectionData) (calls : List DispatcherRequestCall),
        d.priv.connections.lookup operation.connection = some cd ∧
        calls =
          (cd.outstanding_requests.filter
              (fun r => decide (r.operation = some operation.ptr))).filterMap (fun r =>
            r.cb.map (fun cb =>
              ({ cb := cb, operation := some operation.ptr, error := none,
                 user_data := r.user_data } : DispatcherRequestCall))) ∧
        effects =
          [DispatcherEffect.connect_approved operation.ptr,
           DispatcherEffect.connect_claimed operation.ptr,
           DispatcherEffect.emit_observe operation.ptr,
           DispatcherEffect.operation_start operation.ptr] ++
          calls.map DispatcherEffect.request_cb ++
          (match status with
            | EmpathyDispatchOperationState.APPROVING =>
                [DispatcherEffect.emit_approve operation.ptr]
            | EmpathyDispatchOperationState.DISPATCHING =>
                [DispatcherEffect.emit_dispatch operation.ptr]
            | _ => []) ∧
        effects.filter DispatcherEffect.is_emission_or_callback =
          DispatcherEffect.emit_observe operation.ptr ::
            (calls.map DispatcherEffect.request_cb ++
            (match status with
              | EmpathyDispatchOperationState.APPROVING =>
                  [DispatcherEffect.emit_approve operation.ptr]
              | EmpathyDispatchOperationState.DISPATCHING =>
                  [DispatcherEffect.emit_dispatch operation.ptr]
              | _ => [])) ∧
        effects.count (DispatcherEffect.emit_observe operation.ptr) = 1 ∧
        effects.filter DispatcherEffect.is_approve_or_dispatch =
          (match status with
            | EmpathyDispatchOperationState.APPROVING =>
                [DispatcherEffect.emit_approve operation.ptr]
            | EmpathyDispatchOperationState.DISPATCHING =>
                [DispatcherEffect.emit_dispatch operation.ptr]
            | _ => []) ∧
        d'.request_calls = d.request_calls ++ calls ∧
        d'.priv.connections.lookup operation.connection =
          some { cd with outstanding_requests :=
            (cd.outstanding_requests.filter
              (fun r => decide (r.operation ≠ some operation.ptr))) } ∧
        (∀ connection, connection ≠ operation.connection →
          d'.priv.connections.lookup connection = d.priv.connections.lookup connection)) := by
  have hcb : ∀ l : List DispatcherRequestCall,
      (l.map DispatcherEffect.request_cb).filter DispatcherEffect.is_emission_or_callback =
        l.map DispatcherEffect.request_cb := by
    intro l
    induction l with
    | nil => rfl
    | cons c rest ih => simp [DispatcherEffect.is_emission_or_callback, ih]
  have hcb2 : ∀ l : List DispatcherRequestCall,
      (l.map DispatcherEffect.request_cb).filter DispatcherEffect.is_approve_or_dispatch =
        [] := by
    intro l
    induction l with
    | nil => rfl
    | cons c rest ih => simp [DispatcherEffect.is_approve_or_dispatch, ih]
  have hcb3 : ∀ l : List DispatcherRequestCall,
      (l.map DispatcherEffect.request_cb).count (DispatcherEffect.emit_observe operation.ptr) =
        0 := by
    intro l
    induction l with
    | nil => rfl
    | cons c rest ih => simp [List.count_cons, ih]
  constructor
  · cases hl : d.priv.connections.lookup operation.connection with
    | none => simp [dispatch_operation_ready_cb, hl]
    | some cd => cases status <;> simp [dispatch_operation_ready_cb, hl]
  · intro d' effects h
    simp only [dispatch_operation_ready_cb] at h
    cases hl : d.priv.connections.lookup operation.connection with
    | none => simp [hl] at h
    | some cd =>
        refine ⟨cd, _, rfl, rfl, ?_⟩
        simp only [hl, flush_requests_operation_eq] at h
        cases status <;> simp at h <;> obtain ⟨rfl, rfl⟩ := h <;>
          refine ⟨by simp, ?_, ?_, ?_, rfl,
            (by
              have := lookup_store_self d.priv.connections operation.connection cd
                { cd with outstanding_requests :=
                    (cd.outstanding_requests.filter
                      (fun r => decide (r.operation ≠ some operation.ptr))) } hl
              simpa using this),
            fun connection hne => lookup_store_other _ _ _ _ hne⟩ <;>
          simp [List.filter_append, List.count_append, List.count_cons, hcb, hcb2, hcb3,
            DispatcherEffect.is_emission_or_callback, DispatcherEffect.is_approve_or_dispatch]

/-! ## Contacts: the claims -/

/-- C11: `empathy_contact_equal` is `FALSE` when exactly one of the two contacts is
`NULL`; otherwise it is `TRUE` exactly when the two pointers are equal or the
two contacts have the same id. -/
theorem empathy_contact_equal_null_pointer_id (contact1 contact2 : Option EmpathyContact) :
    (contact1.isNone ≠ contact2.isNone → empathy_contact_equal contact1 contact2 = false) ∧
    (contact1.isNone = contact2.isNone →
      (empathy_contact_equal contact1 contact2 = true ↔
        (contact1.map (fun c => c.ptr) = contact2.map (fun c => c.ptr) ∨
          empathy_contact_get_id contact1 = empathy_contact_get_id contact2))) := by
  constructor
  · intro h
    simp [empathy_contact_equal, h]
  · intro h
    unfold empathy_contact_equal
    by_cases hp : contact1.map (fun c => c.ptr) = contact2.map (fun c => c.ptr)
    · simp [h, hp]
    · by_cases hid : empathy_contact_get_id contact1 = empathy_contact_get_id contact2
      · simp [h, hp, hid, tp_strdiff]
      · simp [h, hp, hid, tp_strdiff]

/-- Witness for C11: two distinct contact objects of the same id are equal, and a
contact is not equal to `NULL`. -/
theorem empathy_contact_equal_null_pointer_id_witness :
    empathy_contact_equal
        (some (empathy_contact_set_id (empathy_contact_init 1) (some "alice@example.org")))
        (some (empathy_contact_set_id (empathy_contact_init 2) (some "alice@example.org")))
        = true ∧
      empathy_contact_equal (some (empathy_contact_init 1)) none = false :=
  ⟨((empathy_contact_equal_null_pointer_id
      (some (empathy_contact_set_id (empathy_contact_init 1) (some "alice@example.org")))
      (some (empathy_contact_set_id (empathy_contact_init 2) (some "alice@example.org")))).2
      (by decide)).2 (Or.inr (by decide)),
    (empathy_contact_equal_null_pointer_id (some (empathy_contact_init 1)) none).1
      (by decide)⟩

/-- C15, evaluated: for the entity "alice@example.org" with alias "Alice" the
contact made by `empathy_contact_from_tpl_contact` has "Alice" as its id and
"alice@example.org" as its alias; for every entity, id and alias of the contact
are the alias and the identifier of the entity, in this order, and `is_user` is
true exactly for an entity of type `TPL_ENTITY_SELF`. -/
theorem empathy_contact_from_tpl_contact_id_is_alias :
    empathy_contact_get_id (some (empathy_contact_from_tpl_contact example_capabilities 1
        (some 5) example_tpl_entity)) = some "Alice" ∧
    empathy_contact_get_alias (some (empathy_contact_from_tpl_contact example_capabilities 1
        (some 5) example_tpl_entity)) = some "alice@example.org" ∧
    example_tpl_entity.identifier = some "alice@example.org" ∧
    example_tpl_entity.alias_ = some "Alice" ∧
    (∀ (e : EmpathyCapabilitiesBits) (ptr : Nat) (account : Option Nat)
        (tpl_entity : TplEntity),
      (empathy_contact_from_tpl_contact e ptr account tpl_entity).priv.tp_contact = none ∧
      (empathy_contact_from_tpl_contact e ptr account tpl_entity).priv.id =
        tpl_entity.alias_ ∧
      (empathy_contact_from_tpl_contact e ptr account tpl_entity).priv.alias_ =
        tpl_entity.identifier ∧
      (empathy_contact_is_user
          (some (empathy_contact_from_tpl_contact e ptr account tpl_entity))
        = true ↔ tpl_entity.entity_type = TplEntityType.SELF)) := by
  refine ⟨by decide, by decide, rfl, rfl, ?_⟩
  intro e ptr account tpl_entity
  obtain ⟨identifier, alias_, entity_type, avatar_token⟩ := tpl_entity
  have hc : ∀ tp_contact, contact_construct_properties e ptr tp_contact account =
      { ptr := ptr
        priv := { tp_contact := tp_contact, account := account, persona := none, id := none,
                  alias_ := none, capabilities := EMPATHY_CAPABILITIES_UNKNOWN e,
                  is_user := false } } := by
    intro tp_contact
    simp only [contact_construct_properties, empathy_contact_init,
      empathy_contact_set_capabilities]
    split
    · rename_i h
      have h' : (0 : Nat) = EMPATHY_CAPABILITIES_UNKNOWN e := by simpa using h
      simp [← h']
    · rfl
  refine ⟨?_, ?_, ?_, ?_⟩
  · cases alias_ <;>
      cases identifier <;>
      cases entity_type <;>
      simp [empathy_contact_from_tpl_contact, hc, empathy_contact_set_id,
        empathy_contact_set_alias, empathy_contact_set_is_user, tp_strdiff]
  · cases alias_ <;>
      cases identifier <;>
      cases entity_type <;>
      simp [empathy_contact_from_tpl_contact, hc, empathy_contact_set_id,
        empathy_contact_set_alias, empathy_contact_set_is_user, tp_strdiff]
  · cases alias_ <;>
      cases identifier <;>
      cases entity_type <;>
      simp [empathy_contact_from_tpl_contact, hc, empathy_contact_set_id,
        empathy_contact_set_alias, empathy_contact_set_is_user, tp_strdiff]
  · cases alias_ <;>
      cases identifier <;>
      cases entity_type <;>
      simp [empathy_contact_from_tpl_contact, hc, empathy_contact_set_id,
        empathy_contact_set_alias, empathy_contact_set_is_user, empathy_contact_is_user,
        tp_strdiff]

theorem testBit_one_shiftLeft_iff (b i : Nat) : (1 <<< b).testBit i = true ↔ i = b := by
  rw [Nat.one_shiftLeft, Nat.testBit_two_pow]
  simp [eq_comm]

theorem streamed_media_allowed_loop_testBit (e : EmpathyCapabilitiesBits) (allowed : List String)
    (capabilities i : Nat) :
    (streamed_media_allowed_loop e capabilities allowed).testBit i = true ↔
      (capabilities.testBit i = true ∨
        ( TP_PROP_CHANNEL_TYPE_STREAMED_MEDIA_INITIAL_AUDIO ∈ allowed ∧ i = e.audio) ∨
        (TP_PROP_CHANNEL_TYPE_STREAMED_MEDIA_INITIAL_VIDEO ∈ allowed ∧ i = e.video)) := by
  have hne : TP_PROP_CHANNEL_TYPE_STREAMED_MEDIA_INITIAL_AUDIO ≠
      TP_PROP_CHANNEL_TYPE_STREAMED_MEDIA_INITIAL_VIDEO := by decide
  induction allowed generalizing capabilities with
  | nil => simp [streamed_media_allowed_loop]
  | cons p rest ih =>
      by_cases ha : p = TP_PROP_CHANNEL_TYPE_STREAMED_MEDIA_INITIAL_AUDIO
      · subst ha
        simp only [streamed_media_allowed_loop, tp_strdiff, ne_eq, not_true_eq_false,
          decide_False, Bool.not_false, if_true, ih, Nat.testBit_or, Bool.or_eq_true,
          EMPATHY_CAPABILITIES_AUDIO, testBit_one_shiftLeft_iff, List.mem_cons, true_or, true_and]
        have hne2 : ¬ TP_PROP_CHANNEL_TYPE_STREAMED_MEDIA_INITIAL_VIDEO =
            TP_PROP_CHANNEL_TYPE_STREAMED_MEDIA_INITIAL_AUDIO := fun h => hne h.symm
        simp only [hne2, false_or]
        tauto
      · by_cases hv : p = TP_PROP_CHANNEL_TYPE_STREAMED_MEDIA_INITIAL_VIDEO
        · subst hv
          have hne2 : ¬ TP_PROP_CHANNEL_TYPE_STREAMED_MEDIA_INITIAL_VIDEO =
              TP_PROP_CHANNEL_TYPE_STREAMED_MEDIA_INITIAL_AUDIO := fun h => hne h.symm
          simp only [streamed_media_allowed_loop, tp_strdiff, ne_eq, Option.some.injEq, hne2,
            not_false_eq_true, decide_True, Bool.not_true, Bool.false_eq_true, if_false,
            not_true_eq_false, decide_False, Bool.not_false, if_true, ih, Nat.testBit_or,
            Bool.or_eq_true, EMPATHY_CAPABILITIES_VIDEO, testBit_one_shiftLeft_iff,
            List.mem_cons, true_or, true_and]
          have hne3 : ¬ TP_PROP_CHANNEL_TYPE_STREAMED_MEDIA_INITIAL_AUDIO =
              TP_PROP_CHANNEL_TYPE_STREAMED_MEDIA_INITIAL_VIDEO := hne
          simp only [hne3, false_or]
          tauto
        · have ha' : ¬ TP_PROP_CHANNEL_TYPE_STREAMED_MEDIA_INITIAL_AUDIO = p :=
            fun h => ha h.symm
          have hv' : ¬ TP_PROP_CHANNEL_TYPE_STREAMED_MEDIA_INITIAL_VIDEO = p :=
            fun h => hv h.symm
          simp only [streamed_media_allowed_loop, tp_strdiff, ne_eq, Option.some.injEq, ha, hv,
            not_false_eq_true, decide_True, Bool.not_true, Bool.false_eq_true, if_false, ih,
            List.mem_cons, ha', hv', false_or]

theorem capabilities_flags_testBit (e : EmpathyCapabilitiesBits) (i : Nat) :
    ((EMPATHY_CAPABILITIES_FT e).testBit i = true ↔ i = e.ft) ∧
    ((EMPATHY_CAPABILITIES_RFB_STREAM_TUBE e).testBit i = true ↔ i = e.rfb_stream_tube) ∧
    (( EMPATHY_CAPABILITIES_AUDIO e).testBit i = true ↔ i = e.audio) ∧
    ((EMPATHY_CAPABILITIES_VIDEO e).testBit i = true ↔ i = e.video) :=
  ⟨testBit_one_shiftLeft_iff _ _, testBit_one_shiftLeft_iff _ _,
    testBit_one_shiftLeft_iff _ _, testBit_one_shiftLeft_iff _ _⟩

theorem file_transfer_ne_stream_tube :
    TP_IFACE_CHANNEL_TYPE_FILE_TRANSFER ≠ TP_IFACE_CHANNEL_TYPE_STREAM_TUBE := by decide

theorem file_transfer_ne_streamed_media :
    TP_IFACE_CHANNEL_TYPE_FILE_TRANSFER ≠ TP_IFACE_CHANNEL_TYPE_STREAMED_MEDIA := by decide

theorem stream_tube_ne_streamed_media :
    TP_IFACE_CHANNEL_TYPE_STREAM_TUBE ≠ TP_IFACE_CHANNEL_TYPE_STREAMED_MEDIA := by decide

/-- The body of the loop of `tp_caps_to_capabilities`, test by test. -/
theorem tp_caps_class_step_eq (e : EmpathyCapabilitiesBits) (capabilities : Nat)
    (cls : ChannelClass) :
    tp_caps_class_step e capabilities cls =
      if (tp_asv_get_uint32 cls.fixed PROP_TARGET_HANDLE_TYPE).1 ≠ TP_HANDLE_TYPE_CONTACT then
        capabilities
      else if tp_asv_get_string cls.fixed PROP_CHANNEL_TYPE =
          some TP_IFACE_CHANNEL_TYPE_FILE_TRANSFER then
        capabilities ||| EMPATHY_CAPABILITIES_FT e
      else if tp_asv_get_string cls.fixed PROP_CHANNEL_TYPE =
          some TP_IFACE_CHANNEL_TYPE_STREAM_TUBE then
        (if tp_asv_get_string cls.fixed TP_PROP_CHANNEL_TYPE_STREAM_TUBE_SERVICE = some "rfb" then
          capabilities ||| EMPATHY_CAPABILITIES_RFB_STREAM_TUBE e
        else capabilities)
      else if tp_asv_get_string cls.fixed PROP_CHANNEL_TYPE =
          some TP_IFACE_CHANNEL_TYPE_STREAMED_MEDIA then
        (if tp_asv_get_boolean cls.fixed TP_PROP_CHANNEL_TYPE_STREAMED_MEDIA_INITIAL_VIDEO = true
          then
            (if tp_asv_get_boolean cls.fixed TP_PROP_CHANNEL_TYPE_STREAMED_MEDIA_INITIAL_AUDIO
                = true then
              streamed_media_allowed_loop e capabilities cls.allowed |||
                EMPATHY_CAPABILITIES_AUDIO e
            else streamed_media_allowed_loop e capabilities cls.allowed) |||
              EMPATHY_CAPABILITIES_VIDEO e
          else
            (if tp_asv_get_boolean cls.fixed TP_PROP_CHANNEL_TYPE_STREAMED_MEDIA_INITIAL_AUDIO
                = true then
              streamed_media_allowed_loop e capabilities cls.allowed |||
                EMPATHY_CAPABILITIES_AUDIO e
            else streamed_media_allowed_loop e capabilities cls.allowed))
      else capabilities := by
  simp only [tp_caps_class_step, tp_strdiff, bne_iff_ne, ne_eq, Bool.not_eq_true',
    decide_eq_false_iff_not, Decidable.not_not, decide_not, Bool.not_not, decide_eq_true_eq]

theorem tp_caps_class_step_testBit (e : EmpathyCapabilitiesBits) (capabilities : Nat)
    (cls : ChannelClass) (i : Nat) :
    (tp_caps_class_step e capabilities cls).testBit i = true ↔
      (capabilities.testBit i = true ∨ class_contributes e cls i) := by
  have h1 := file_transfer_ne_stream_tube
  have h2 := file_transfer_ne_streamed_media
  have h3 := stream_tube_ne_streamed_media
  obtain ⟨fft, frfb, faudio, fvideo⟩ := capabilities_flags_testBit e i
  have hloop := streamed_media_allowed_loop_testBit e cls.allowed capabilities i
  rw [tp_caps_class_step_eq]
  unfold class_contributes
  generalize tp_asv_get_string cls.fixed PROP_CHANNEL_TYPE = ct
  generalize tp_asv_get_string cls.fixed TP_PROP_CHANNEL_TYPE_STREAM_TUBE_SERVICE = service
  generalize (tp_asv_get_uint32 cls.fixed PROP_TARGET_HANDLE_TYPE).1 = ht
  generalize tp_asv_get_boolean cls.fixed TP_PROP_CHANNEL_TYPE_STREAMED_MEDIA_INITIAL_AUDIO = ba
  generalize tp_asv_get_boolean cls.fixed TP_PROP_CHANNEL_TYPE_STREAMED_MEDIA_INITIAL_VIDEO = bv
  generalize ( TP_PROP_CHANNEL_TYPE_STREAMED_MEDIA_INITIAL_AUDIO ∈ cls.allowed) = ma at hloop ⊢
  generalize (TP_PROP_CHANNEL_TYPE_STREAMED_MEDIA_INITIAL_VIDEO ∈ cls.allowed) = mv at hloop ⊢
  generalize TP_IFACE_CHANNEL_TYPE_FILE_TRANSFER = FT at h1 h2 ⊢
  generalize TP_IFACE_CHANNEL_TYPE_STREAM_TUBE = ST at h1 h3 ⊢
  generalize TP_IFACE_CHANNEL_TYPE_STREAMED_MEDIA = SM at h2 h3 ⊢
  generalize TP_HANDLE_TYPE_CONTACT = CONTACT
  generalize EMPATHY_CAPABILITIES_FT e = fFT at fft ⊢
  generalize EMPATHY_CAPABILITIES_RFB_STREAM_TUBE e = fRFB at frfb ⊢
  generalize EMPATHY_CAPABILITIES_AUDIO e = fA at faudio hloop ⊢
  generalize EMPATHY_CAPABILITIES_VIDEO e = fV at fvideo hloop ⊢
  generalize streamed_media_allowed_loop e capabilities cls.allowed = looped at hloop ⊢
  by_cases hh : ht = CONTACT
  · rw [if_neg (not_not.2 hh)]
    by_cases hft : ct = some FT
    · rw [if_pos hft, Nat.testBit_or, Bool.or_eq_true, fft]
      subst hft
      have e1 : ¬ some FT = some ST := fun h => h1 (Option.some.inj h)
      have e2 : ¬ some FT = some SM := fun h => h2 (Option.some.inj h)
      clear hloop
      simp only [hh, e1, e2, true_and, false_and, or_false]
    · rw [if_neg hft]
      by_cases hst : ct = some ST
      · rw [if_pos hst]
        subst hst
        have e2 : ¬ some ST = some SM := fun h => h3 (Option.some.inj h)
        clear hloop
        by_cases hs : service = some "rfb"
        · rw [if_pos hs, Nat.testBit_or, Bool.or_eq_true, frfb]
          simp only [hh, hft, e2, hs, true_and, false_and, or_false, false_or]
        · rw [if_neg hs]
          simp only [hh, hft, e2, hs, true_and, false_and, and_false, or_false, false_or]
      · rw [if_neg hst]
        by_cases hsm : ct = some SM
        · rw [if_pos hsm]
          subst hsm
          cases ba <;> cases bv <;>
            simp only [Bool.false_eq_true, if_false, if_true, Nat.testBit_or, Bool.or_eq_true,
              faudio, fvideo, hloop, hh, hft, hst, true_and, false_and, or_false,
              false_or, or_true, true_or] <;>
            clear hloop fft frfb faudio fvideo h1 h2 h3 hft hst hh <;>
            tauto
        · rw [if_neg hsm]
          clear hloop
          simp only [hh, hft, hst, hsm, true_and, false_and, and_false, or_false]
  · rw [if_pos hh]
    clear hloop
    simp only [hh, false_and, or_false]

theorem foldl_tp_caps_class_step_testBit (e : EmpathyCapabilitiesBits)
    (classes : List ChannelClass) (capabilities i : Nat) :
    (classes.foldl (tp_caps_class_step e) capabilities).testBit i = true ↔
      (capabilities.testBit i = true ∨ ∃ cls ∈ classes, class_contributes e cls i) := by
  induction classes generalizing capabilities with
  | nil => simp
  | cons cls rest ih =>
      rw [List.foldl_cons, ih, tp_caps_class_step_testBit]
      simp only [List.mem_cons, exists_eq_or_imp]
      tauto

/-- C18: bit `i` is set in the result of `tp_caps_to_capabilities` exactly when
some channel class of the list contributes it, in the sense of
`class_contributes`: only classes with TargetHandleType CONTACT, FT for a
FileTransfer class, RFB_STREAM_TUBE for a StreamTube class with Service "rfb",
AUDIO and VIDEO for a StreamedMedia class with InitialAudio and InitialVideo
allowed or fixed to true. No other bit is set, the four flags are single bits,
and the result for an empty list is 0. -/
theorem tp_caps_to_capabilities_union (e : EmpathyCapabilitiesBits)
    (classes : List ChannelClass) :
    (∀ i : Nat, (tp_caps_to_capabilities e classes).testBit i = true ↔
      ∃ cls ∈ classes, class_contributes e cls i) ∧
    (∀ i : Nat, (tp_caps_to_capabilities e classes).testBit i = true →
      i = e.ft ∨ i = e.rfb_stream_tube ∨ i = e.audio ∨ i = e.video) ∧
    (∀ i : Nat,
      ((EMPATHY_CAPABILITIES_FT e).testBit i = true ↔ i = e.ft) ∧
      ((EMPATHY_CAPABILITIES_RFB_STREAM_TUBE e).testBit i = true ↔ i = e.rfb_stream_tube) ∧
      (( EMPATHY_CAPABILITIES_AUDIO e).testBit i = true ↔ i = e.audio) ∧
      ((EMPATHY_CAPABILITIES_VIDEO e).testBit i = true ↔ i = e.video)) ∧
    tp_caps_to_capabilities e [] = 0 := by
  have hbit : ∀ i : Nat, (tp_caps_to_capabilities e classes).testBit i = true ↔
      ∃ cls ∈ classes, class_contributes e cls i := by
    intro i
    unfold tp_caps_to_capabilities
    rw [foldl_tp_caps_class_step_testBit]
    simp
  refine ⟨hbit, ?_, ?_, rfl⟩
  · intro i hi
    obtain ⟨cls, _, _, hc⟩ := (hbit i).1 hi
    rcases hc with ⟨_, h⟩ | ⟨_, _, h⟩ | ⟨_, ⟨_, h⟩ | ⟨_, h⟩⟩
    · exact Or.inl h
    · exact Or.inr (Or.inl h)
    · exact Or.inr (Or.inr (Or.inl h))
    · exact Or.inr (Or.inr (Or.inr h))
  · exact capabilities_flags_testBit e

/-! ## The best contact for an action: the claim -/

theorem g_list_sort_merge_perm {α : Type} (compare_func : α → α → Int) (fuel : Nat)
    (l1 l2 : List α) (h : l1.length + l2.length ≤ fuel) :
    (g_list_sort_merge compare_func fuel l1 l2).Perm (l1 ++ l2) := by
  induction fuel generalizing l1 l2 with
  | zero => simp [g_list_sort_merge]
  | succ fuel ih =>
      cases l1 with
      | nil => simp [g_list_sort_merge]
      | cons a l1 =>
          cases l2 with
          | nil => simp [g_list_sort_merge]
          | cons b l2 =>
              simp only [g_list_sort_merge]
              simp only [List.length_cons] at h
              split
              · exact List.Perm.cons a (ih l1 (b :: l2) (by simp only [List.length_cons]; omega))
              · refine (List.Perm.cons b (ih (a :: l1) l2
                  (by simp only [List.length_cons]; omega))).trans ?_
                exact (@List.perm_middle _ b (a :: l1) l2).symm

theorem g_list_sort_real_perm {α : Type} (compare_func : α → α → Int) (fuel : Nat)
    (list : List α) : (g_list_sort_real compare_func fuel list).Perm list := by
  induction fuel generalizing list with
  | zero => simp [g_list_sort_real]
  | succ fuel ih =>
      match list with
      | [] => simp [g_list_sort_real]
      | [a] => simp [g_list_sort_real]
      | a :: b :: rest =>
          simp only [g_list_sort_real]
          refine (g_list_sort_merge_perm compare_func _ _ _ (le_refl _)).trans ?_
          refine (List.Perm.append (ih _) (ih _)).trans ?_
          rw [List.take_append_drop]

theorem g_list_sort_merge_head {α : Type} (compare_func : α → α → Int) (dom : α → α → Prop)
    (htrans : ∀ a b c, dom a b → dom b c → dom a c)
    (hle : ∀ a b, compare_func a b ≤ 0 → dom a b)
    (hgt : ∀ a b, ¬ compare_func a b ≤ 0 → dom b a)
    (fuel : Nat) (l1 l2 : List α) (h : l1.length + l2.length ≤ fuel)
    (h1 : HeadDominates dom l1) (h2 : HeadDominates dom l2) :
    HeadDominates dom (g_list_sort_merge compare_func fuel l1 l2) := by
  have hperm := g_list_sort_merge_perm compare_func fuel l1 l2 h
  cases l1 with
  | nil =>
      cases fuel <;> simpa [g_list_sort_merge] using h2
  | cons a l1 =>
      cases l2 with
      | nil => cases fuel <;> simpa [g_list_sort_merge] using h1
      | cons b l2 =>
          cases fuel with
          | zero => simp at h
          | succ fuel =>
              intro hd tl heq x hx
              have hx' : x ∈ a :: l1 ∨ x ∈ b :: l2 := by
                exact List.mem_append.1 (hperm.mem_iff.1 hx)
              simp only [g_list_sort_merge] at heq
              split at heq
              · rename_i hc
                have : hd = a := by
                  have := List.cons.inj heq
                  exact this.1.symm
                subst this
                rcases hx' with hx' | hx'
                · exact h1 _ _ rfl x hx'
                · exact htrans _ _ _ (hle _ _ hc) (h2 _ _ rfl x hx')
              · rename_i hc
                have : hd = b := by
                  have := List.cons.inj heq
                  exact this.1.symm
                subst this
                rcases hx' with hx' | hx'
                · exact htrans _ _ _ (hgt _ _ hc) (h1 _ _ rfl x hx')
                · exact h2 _ _ rfl x hx'

theorem g_list_sort_real_head {α : Type} (compare_func : α → α → Int) (dom : α → α → Prop)
    (hrefl : ∀ a, dom a a) (htrans : ∀ a b c, dom a b → dom b c → dom a c)
    (hle : ∀ a b, compare_func a b ≤ 0 → dom a b)
    (hgt : ∀ a b, ¬ compare_func a b ≤ 0 → dom b a)
    (fuel : Nat) (list : List α) (h : list.length ≤ fuel) :
    HeadDominates dom (g_list_sort_real compare_func fuel list) := by
  induction fuel generalizing list with
  | zero =>
      have : list = [] := List.length_eq_zero.1 (Nat.le_zero.1 h)
      subst this
      intro hd tl heq
      simp [g_list_sort_real] at heq
  | succ fuel ih =>
      match list, h with
      | [], _ =>
          intro hd tl heq
          simp [g_list_sort_real] at heq
      | [a], _ =>
          intro hd tl heq x hx
          simp only [g_list_sort_real, List.cons.injEq] at heq hx
          simp only [List.mem_singleton] at hx
          rw [hx, ← heq.1]
          exact hrefl a
      | a :: b :: rest, h =>
          simp only [g_list_sort_real]
          simp only [List.length_cons] at h
          apply g_list_sort_merge_head compare_func dom htrans hle hgt _ _ _ (le_refl _)
          · apply ih
            simp only [List.length_take, List.length_cons]
            omega
          · apply ih
            simp only [List.length_drop, List.length_cons]
            omega

theorem lookup_insert_self {κ ν : Type} [DecidableEq κ] (t : GHashTable κ ν) (k : κ) (v : ν) :
    (GHashTable.insert t k v).lookup k = some v := by
  simp [GHashTable.lookup, GHashTable.insert]

theorem lookup_insert_other {κ ν : Type} [DecidableEq κ] (t : GHashTable κ ν) (k k' : κ) (v : ν)
    (h : k' ≠ k) : (GHashTable.insert t k v).lookup k' = t.lookup k' := by
  have h1 : (GHashTable.insert t k v).lookup k' = (t.remove k).lookup k' := by
    simp only [GHashTable.lookup, GHashTable.insert]
    rw [List.find?_cons_of_neg _ (by simpa using fun h' => h h'.symm)]
  rw [h1, lookup_remove_other _ _ _ h]

theorem lookup_store_eq {κ ν : Type} [DecidableEq κ] (t : GHashTable κ ν) (k : κ) (v : ν) :
    (t.store k v).lookup k = (t.lookup k).map (fun _ => v) := by
  cases h : t.lookup k with
  | some v0 => rw [lookup_store_self _ _ _ _ h]; rfl
  | none =>
      obtain ⟨entries⟩ := t
      simp only [GHashTable.lookup, GHashTable.store] at h ⊢
      induction entries with
      | nil => rfl
      | cons e rest ih =>
          obtain ⟨a, b⟩ := e
          by_cases hk : a = k
          · simp [hk] at h
          · rw [List.find?_cons_of_neg _ (by simpa using hk)] at h
            rw [List.map_cons]
            simp only [hk, if_false]
            rw [List.find?_cons_of_neg _ (by simpa using hk)]
            exact ih h

theorem object_write (s : ContactsState) (k k' : Nat) (v : EmpathyContact) :
    (s.write k v).object k' =
      if k' = k then (s.object k).map (fun c => { c with contact := v }) else s.object k' := by
  unfold ContactsState.write ContactsState.object
  cases ht : s.contacts_table with
  | none => simp [ht]
  | some table =>
      simp only []
      cases hl : table.lookup k with
      | none =>
          simp only [ht]
          split
          · rename_i h; subst h; simp [hl]
          · rfl
      | some c =>
          simp only []
          split
          · rename_i h; subst h
            rw [lookup_store_self _ _ _ _ hl]; simp
          · rename_i h
            rw [lookup_store_other _ _ _ _ h]

theorem object_g_object_ref (s : ContactsState) (k k' : Nat) :
    (g_object_ref s k).object k' =
      if k' = k then (s.object k).map (fun c => { c with ref_count := c.ref_count + 1 })
      else s.object k' := by
  unfold g_object_ref ContactsState.object
  cases ht : s.contacts_table with
  | none => simp [ht]
  | some table =>
      simp only []
      cases hl : table.lookup k with
      | none =>
          simp only [ht]
          split
          · rename_i h; subst h; simp [hl]
          · rfl
      | some c =>
          simp only []
          split
          · rename_i h; subst h
            rw [lookup_store_self _ _ _ _ hl]; simp
          · rename_i h
            rw [lookup_store_other _ _ _ _ h]

theorem object_g_object_unref (s : ContactsState) (k k' : Nat) :
    (g_object_unref s k).object k' =
      match s.object k with
      | none => s.object k'
      | some c =>
          if c.ref_count = 1 then
            match c.contact.priv.tp_contact with
            | none => s.object k'
            | some t => if k' = t.ptr then none else s.object k'
          else if k' = k then some { c with ref_count := c.ref_count - 1 }
          else s.object k' := by
  unfold g_object_unref ContactsState.object
  cases ht : s.contacts_table with
  | none => simp [ht]
  | some table =>
      simp only []
      cases hl : table.lookup k with
      | none => simp [ht]
      | some c =>
          simp only []
          by_cases h1 : c.ref_count = 1
          · simp only [h1, if_true, contact_dispose, ht]
            cases htp : c.contact.priv.tp_contact with
            | none => simp [ht]
            | some t =>
                simp only []
                split
                · rename_i h; subst h; exact lookup_remove_self _ _
                · rename_i h; exact lookup_remove_other _ _ _ h
          · simp only [h1, if_false]
            split
            · rename_i h; subst h
              rw [lookup_store_self _ _ _ _ hl]
            · rename_i h
              rw [lookup_store_other _ _ _ _ h]

theorem dup_from_tp_contact_fst (e : EmpathyCapabilitiesBits) (w : ContactEnv)
    (s : ContactsState) (k : Nat) : (empathy_contact_dup_from_tp_contact e w s k).1 = k := by
  unfold empathy_contact_dup_from_tp_contact
  simp only []
  split <;> rfl

theorem object_dup_from_tp_contact (e : EmpathyCapabilitiesBits) (w : ContactEnv)
    (s : ContactsState) (k k' : Nat) :
    (empathy_contact_dup_from_tp_contact e w s k).2.object k' =
      if k' = k then
        some (match s.object k with
          | none => { contact := empathy_contact_new e w s.next_address k, ref_count := 1 }
          | some c => { c with ref_count := c.ref_count + 1 })
      else s.object k' := by
  unfold empathy_contact_dup_from_tp_contact ContactsState.object
  cases ht : s.contacts_table with
  | none =>
      simp only []
      split
      · rename_i h; subst h; exact lookup_insert_self _ _ _
      · rename_i h
        rw [lookup_insert_other _ _ _ _ h]
        rfl
  | some table =>
      simp only []
      cases hl : table.lookup k with
      | none =>
          simp only []
          split
          · rename_i h; subst h; exact lookup_insert_self _ _ _
          · rename_i h; exact lookup_insert_other _ _ _ _ h
      | some c =>
          simp only []
          split
          · rename_i h; subst h
            rw [lookup_store_self _ _ _ _ hl]
          · rename_i h
            rw [lookup_store_other _ _ _ _ h]

theorem contact_eq_map_object (s : ContactsState) (k : Nat) :
    s.contact k = (s.object k).map (fun c => c.contact) := rfl

theorem object_set_persona (s : ContactsState) (k k' p : Nat) :
    (empathy_contact_set_persona s k p).object k' =
      if k' = k then (s.object k).map (fun c => { c with contact := c.contact.with_persona p })
      else s.object k' := by
  unfold empathy_contact_set_persona
  rw [contact_eq_map_object]
  cases ho : s.object k with
  | none =>
      simp only [Option.map_none']
      split
      · rename_i h; subst h; exact ho
      · rfl
  | some c =>
      obtain ⟨⟨ptr, priv⟩, rc⟩ := c
      obtain ⟨a1, a2, a3, a4, a5, a6, a7⟩ := priv
      simp only [Option.map_some']
      by_cases hp : a3 = some p
      · subst hp
        simp only [beq_self_eq_true, if_true]
        split
        · rename_i h; subst h
          rw [ho]
          rfl
        · rfl
      · have hb : (a3 == some p) = false := by simp [hp]
        simp only [hb, Bool.false_eq_true, if_false]
        cases a5 with
        | none =>
            simp only []
            rw [object_write, ho]
            rfl
        | some a =>
            simp only [empathy_contact_set_alias, tp_strdiff, ne_eq, not_true_eq_false,
              decide_False, Bool.false_eq_true, if_false]
            rw [object_write, ho]
            rfl

theorem get_account_fst (w : ContactEnv) (s : ContactsState) (k : Nat) :
    (empathy_contact_get_account w s k).1 = (s.contact k).bind (contact_account w) := by
  unfold empathy_contact_get_account
  cases hc : s.contact k with
  | none => rfl
  | some c =>
      simp only [Option.some_bind, contact_account]
      split <;> simp_all

theorem object_get_account (w : ContactEnv) (s : ContactsState) (k k' : Nat) :
    (empathy_contact_get_account w s k).2.object k' =
      if k' = k then (s.object k).map (fun c => { c with contact := c.contact.with_account w })
      else s.object k' := by
  unfold empathy_contact_get_account
  rw [contact_eq_map_object]
  cases ho : s.object k with
  | none =>
      simp only [Option.map_none']
      split
      · rename_i h; subst h; exact ho
      · rfl
  | some c =>
      simp only [Option.map_some']
      obtain ⟨⟨ptr, priv⟩, rc⟩ := c
      obtain ⟨a1, a2, a3, a4, a5, a6, a7⟩ := priv
      cases a2 with
      | some acc =>
          simp only []
          split
          · rename_i h; subst h; rw [ho]; rfl
          · rfl
      | none =>
          cases a1 with
          | none =>
              simp only []
              split
              · rename_i h; subst h; rw [ho]; rfl
              · rfl
          | some t =>
              simp only []
              rw [object_write, ho]
              rfl

theorem can_do_action_fst (e : EmpathyCapabilitiesBits) (w : ContactEnv) (s : ContactsState)
    (k : Nat) (action_type : EmpathyActionType) (c : EmpathyContact)
    (hc : s.contact k = some c) :
    (empathy_contact_can_do_action e w s k action_type).1 =
      contact_can_do_action e w c action_type := by
  unfold empathy_contact_can_do_action contact_can_do_action
  cases action_type <;> simp only [hc]
  · rfl
  · simp only [contact_has_log, get_account_fst, hc, Option.some_bind]
    cases w.log_exists (contact_account w c) (empathy_contact_get_id (some c)) <;> rfl

theorem object_can_do_action (e : EmpathyCapabilitiesBits) (w : ContactEnv) (s : ContactsState)
    (k k' : Nat) (action_type : EmpathyActionType) :
    (empathy_contact_can_do_action e w s k action_type).2.object k' =
      if k' = k then
        (s.object k).map (fun c => { c with contact :=
          if action_type = EmpathyActionType.VIEW_LOGS then c.contact.with_account w
          else c.contact })
      else s.object k' := by
  unfold empathy_contact_can_do_action
  cases action_type <;> simp only [reduceCtorEq, if_false, if_true]
  case VIEW_LOGS =>
    simp only [contact_has_log]
    exact object_get_account w s k k'
  all_goals
    split
    · rename_i h; subst h
      cases s.object k' <;> rfl
    · rfl

theorem SameAbilities.refl (w : ContactEnv) (c : EmpathyContact) : SameAbilities w c c :=
  ⟨rfl, rfl, rfl, rfl⟩

theorem SameAbilities.symm {w : ContactEnv} {c c' : EmpathyContact}
    (h : SameAbilities w c c') : SameAbilities w c' c :=
  ⟨h.1.symm, h.2.1.symm, h.2.2.1.symm, h.2.2.2.symm⟩

theorem SameAbilities.trans {w : ContactEnv} {c c' c'' : EmpathyContact}
    (h : SameAbilities w c c') (h' : SameAbilities w c' c'') : SameAbilities w c c'' :=
  ⟨h.1.trans h'.1, h.2.1.trans h'.2.1, h.2.2.1.trans h'.2.2.1, h.2.2.2.trans h'.2.2.2⟩

theorem sameAbilities_of_priv (w : ContactEnv) (c c' : EmpathyContact)
    (h : c.priv = c'.priv) : SameAbilities w c c' := by
  simp only [SameAbilities, contact_account, h]
  simp

theorem sameAbilities_with_persona (w : ContactEnv) (c : EmpathyContact) (p : Nat) :
    SameAbilities w c (c.with_persona p) :=
  ⟨rfl, rfl, rfl, rfl⟩

theorem sameAbilities_with_account (w : ContactEnv) (c : EmpathyContact) :
    SameAbilities w c (c.with_account w) := by
  refine ⟨rfl, rfl, rfl, ?_⟩
  obtain ⟨ptr, priv⟩ := c
  obtain ⟨a1, a2, a3, a4, a5, a6, a7⟩ := priv
  cases a2 with
  | some acc => rfl
  | none =>
      cases a1 with
      | none => rfl
      | some t =>
          simp only [EmpathyContact.with_account, contact_account]
          cases h : w.account_for_connection (w.connection t.ptr) <;> simp [h]

theorem sameAbilities_after_loop_body (w : ContactEnv) (action_type : EmpathyActionType)
    (c : EmpathyContact) (p : Nat) :
    SameAbilities w c (c.after_loop_body w action_type p) := by
  unfold EmpathyContact.after_loop_body
  split
  · exact (sameAbilities_with_persona w c p).trans (sameAbilities_with_account w _)
  · exact sameAbilities_with_persona w c p

theorem after_loop_body_persona (w : ContactEnv) (action_type : EmpathyActionType)
    (c : EmpathyContact) (p : Nat) :
    (c.after_loop_body w action_type p).priv.persona = some p := by
  unfold EmpathyContact.after_loop_body
  split <;> rfl

theorem contact_can_do_action_congr (e : EmpathyCapabilitiesBits) (w : ContactEnv)
    (c c' : EmpathyContact) (action_type : EmpathyActionType) (h : SameAbilities w c c') :
    contact_can_do_action e w c action_type = contact_can_do_action e w c' action_type := by
  obtain ⟨h1, h2, h3, h4⟩ := h
  cases action_type <;>
    simp only [contact_can_do_action, empathy_contact_can_voip_audio,
      empathy_contact_can_voip_video, empathy_contact_can_send_files,
      empathy_contact_can_use_rfb_stream_tube, empathy_contact_get_id, h1, h2, h3, h4]

theorem contact_construct_properties_eq (e : EmpathyCapabilitiesBits) (ptr : Nat)
    (tp_contact : Option TpContact) (account : Option Nat) :
    contact_construct_properties e ptr tp_contact account =
      { ptr := ptr
        priv := { tp_contact := tp_contact, account := account, persona := none, id := none,
                  alias_ := none, capabilities := EMPATHY_CAPABILITIES_UNKNOWN e,
                  is_user := false } } := by
  simp only [contact_construct_properties, empathy_contact_init,
    empathy_contact_set_capabilities]
  split
  · rename_i h
    have h' : (0 : Nat) = EMPATHY_CAPABILITIES_UNKNOWN e := by simpa using h
    simp [← h']
  · rfl

theorem empathy_contact_set_capabilities_eq (c : EmpathyContact) (capabilities : Nat) :
    empathy_contact_set_capabilities c capabilities =
      { c with priv := { c.priv with capabilities := capabilities } } := by
  unfold empathy_contact_set_capabilities
  split
  · rename_i h
    have h' : c.priv.capabilities = capabilities := by simpa using h
    subst h'
    rfl
  · rfl

theorem empathy_contact_set_is_user_eq (c : EmpathyContact) (is_user : Bool) :
    empathy_contact_set_is_user c is_user =
      { c with priv := { c.priv with is_user := is_user } } := by
  unfold empathy_contact_set_is_user
  split
  · rename_i h
    have h' : c.priv.is_user = is_user := by simpa using h
    subst h'
    rfl
  · rfl

theorem empathy_contact_new_eq (e : EmpathyCapabilitiesBits) (w : ContactEnv) (a k : Nat) :
    empathy_contact_new e w a k =
      { ptr := a, priv := (empathy_contact_new e w 0 k).priv } := by
  simp only [empathy_contact_new, contact_constructed, contact_construct_properties_eq,
    set_capabilities_from_tp_caps, empathy_contact_set_capabilities_eq,
    empathy_contact_set_is_user_eq]
  cases w.capabilities (w.tp_contact k).ptr <;> rfl

theorem empathy_contact_new_tp_contact (e : EmpathyCapabilitiesBits) (w : ContactEnv)
    (a k : Nat) : (empathy_contact_new e w a k).priv.tp_contact = some (w.tp_contact k) := by
  simp only [empathy_contact_new, contact_constructed, contact_construct_properties_eq,
    set_capabilities_from_tp_caps, empathy_contact_set_capabilities_eq,
    empathy_contact_set_is_user_eq]
  cases w.capabilities (w.tp_contact k).ptr <;> rfl

theorem sameAbilities_new (e : EmpathyCapabilitiesBits) (w : ContactEnv) (a a' k : Nat) :
    SameAbilities w (empathy_contact_new e w a k) (empathy_contact_new e w a' k) := by
  apply sameAbilities_of_priv
  rw [empathy_contact_new_eq e w a k, empathy_contact_new_eq e w a' k]

/-- The state after the body of the first loop up to the question whether the
contact can perform the action. -/
theorem object_loop_body (e : EmpathyCapabilitiesBits) (w : ContactEnv) (s : ContactsState)
    (action_type : EmpathyActionType) (p k' : Nat) :
    (empathy_contact_can_do_action e w
        (empathy_contact_set_persona
          (empathy_contact_dup_from_tp_contact e w s (w.persona_contact p)).2
          (w.persona_contact p) p)
        (w.persona_contact p) action_type).2.object k' =
      if k' = w.persona_contact p then
        some { dup_object e w s (w.persona_contact p) with
          contact := (dup_object e w s (w.persona_contact p)).contact.after_loop_body w
            action_type p }
      else s.object k' := by
  rw [object_can_do_action]
  split
  · rw [object_set_persona, if_pos rfl, object_dup_from_tp_contact, if_pos rfl]
    simp only [Option.map_some', dup_object, EmpathyContact.after_loop_body]
  · rename_i h
    rw [object_set_persona, if_neg h, object_dup_from_tp_contact, if_neg h]

theorem loop_body_can (e : EmpathyCapabilitiesBits) (w : ContactEnv) (s : ContactsState)
    (action_type : EmpathyActionType) (p : Nat) :
    (empathy_contact_can_do_action e w
        (empathy_contact_set_persona
          (empathy_contact_dup_from_tp_contact e w s (w.persona_contact p)).2
          (w.persona_contact p) p)
        (w.persona_contact p) action_type).1 =
      contact_can_do_action e w (dup_object e w s (w.persona_contact p)).contact
        action_type := by
  rw [can_do_action_fst e w _ _ _
    ((dup_object e w s (w.persona_contact p)).contact.with_persona p)]
  · exact (contact_can_do_action_congr e w _ _ _ (sameAbilities_with_persona w _ p)).symm
  · rw [contact_eq_map_object, object_set_persona, if_pos rfl, object_dup_from_tp_contact,
      if_pos rfl]
    rfl

theorem persona_can_do_action_eq (e : EmpathyCapabilitiesBits) (w : ContactEnv)
    (s : ContactsState) (action_type : EmpathyActionType) (p : Nat) :
    persona_can_do_action e w s p action_type =
      contact_can_do_action e w (dup_object e w s (w.persona_contact p)).contact
        action_type := by
  simp only [persona_can_do_action, dup_from_tp_contact_fst]
  exact loop_body_can e w s action_type p

theorem BestInv.init (e : EmpathyCapabilitiesBits) (w : ContactEnv)
    (action_type : EmpathyActionType) (personas : List Nat) (s0 : ContactsState) :
    BestInv e w action_type personas s0 s0 [] where
  old := fun k c0 h => ⟨c0, h, SameAbilities.refl w _, by simp⟩
  fresh := fun k h => Or.inl ⟨h, by simp⟩
  mem := fun k h => by simp at h

theorem BestInv.can_do_eq {e : EmpathyCapabilitiesBits} {w : ContactEnv}
    {action_type : EmpathyActionType} {personas : List Nat} {s0 s : ContactsState}
    {contacts : List Nat} (hinv : BestInv e w action_type personas s0 s contacts) (k : Nat) :
    contact_can_do_action e w (dup_object e w s k).contact action_type =
      contact_can_do_action e w (dup_object e w s0 k).contact action_type := by
  apply contact_can_do_action_congr
  cases h0 : s0.object k with
  | some c0 =>
      obtain ⟨c, hc, hsame, _⟩ := hinv.old k c0 h0
      simp only [dup_object, h0, hc]
      exact hsame.symm
  | none =>
      rcases hinv.fresh k h0 with ⟨hn, _⟩ | ⟨c, hc, _, hsame, _⟩
      · simp only [dup_object, h0, hn]
        exact sameAbilities_new e w _ _ k
      · simp only [dup_object, h0, hc]
        exact hsame.symm

theorem pnat_add_one_ne_one (r : PNat) : r + 1 ≠ 1 := by
  intro h
  have := congrArg PNat.val h
  simp at this

theorem pnat_add_one_sub_one (r : PNat) : r + 1 - 1 = r := by
  apply PNat.eq
  rw [PNat.sub_coe]
  have h1 : (1 : PNat) < r + 1 := by
    rw [← PNat.coe_lt_coe]
    simp
  simp [h1]

/-- The invariant after the loop body, when the contact can perform the action. -/
theorem BestInv.step_can {e : EmpathyCapabilitiesBits} {w : ContactEnv}
    {action_type : EmpathyActionType} {personas : List Nat} {s0 s s' : ContactsState}
    {contacts : List Nat} (hinv : BestInv e w action_type personas s0 s contacts) (p : Nat)
    (hp : p ∈ personas) (hi : w.is_interesting p = true)
    (hcan : contact_can_do_action e w (dup_object e w s (w.persona_contact p)).contact
      action_type = true)
    (hs' : ∀ k', s'.object k' =
      if k' = w.persona_contact p then
        some { dup_object e w s (w.persona_contact p) with
          contact := (dup_object e w s (w.persona_contact p)).contact.after_loop_body w
            action_type p }
      else s.object k') :
    BestInv e w action_type personas s0 s' (w.persona_contact p :: contacts) := by
  constructor
  · intro k c0 h0
    obtain ⟨c, hc, hsame, hcount⟩ := hinv.old k c0 h0
    by_cases hk : k = w.persona_contact p
    · subst hk
      refine ⟨_, by rw [hs', if_pos rfl], ?_, ?_⟩
      · simp only [dup_object, hc]
        exact hsame.trans (sameAbilities_after_loop_body w action_type _ p)
      · simp only [dup_object, hc, List.count_cons_self, PNat.add_coe, PNat.val_ofNat]
        omega
    · refine ⟨c, by rw [hs', if_neg hk, hc], hsame, ?_⟩
      rw [List.count_cons_of_ne hk]
      exact hcount
  · intro k h0
    by_cases hk : k = w.persona_contact p
    · subst hk
      right
      refine ⟨_, by rw [hs', if_pos rfl], ?_, ?_, ?_⟩
      · rcases hinv.fresh _ h0 with ⟨hn, _⟩ | ⟨c, hc, htp, _, _⟩
        · simp only [dup_object, hn]
          rw [← empathy_contact_new_tp_contact e w s.next_address]
          exact ((sameAbilities_after_loop_body w action_type _ p).1).symm
        · simp only [dup_object, hc]
          rw [← htp]
          exact ((sameAbilities_after_loop_body w action_type _ p).1).symm
      · rcases hinv.fresh _ h0 with ⟨hn, _⟩ | ⟨c, hc, _, hsame, _⟩
        · simp only [dup_object, hn]
          exact (sameAbilities_new e w _ _ _).trans
            (sameAbilities_after_loop_body w action_type _ p)
        · simp only [dup_object, hc]
          exact hsame.trans (sameAbilities_after_loop_body w action_type _ p)
      · rcases hinv.fresh _ h0 with ⟨hn, hnot⟩ | ⟨c, hc, _, _, hcount⟩
        · simp only [dup_object, hn, List.count_cons_self, List.count_eq_zero_of_not_mem hnot]
          rfl
        · simp only [dup_object, hc, List.count_cons_self, PNat.add_coe, PNat.val_ofNat]
          omega
    · rcases hinv.fresh k h0 with ⟨hn, hnot⟩ | ⟨c, hc, htp, hsame, hcount⟩
      · left
        refine ⟨by rw [hs', if_neg hk, hn], ?_⟩
        simp only [List.mem_cons, not_or]
        exact ⟨hk, hnot⟩
      · right
        refine ⟨c, by rw [hs', if_neg hk, hc], htp, hsame, ?_⟩
        rw [List.count_cons_of_ne hk]
        exact hcount
  · intro k hk
    by_cases hkp : k = w.persona_contact p
    · subst hkp
      refine ⟨_, by rw [hs', if_pos rfl], ?_, p, hp, ?_, hi, rfl⟩
      · rw [← contact_can_do_action_congr e w _ _ _
          (sameAbilities_after_loop_body w action_type _ p)]
        exact hcan
      · exact after_loop_body_persona w action_type _ p
    · have hk' : k ∈ contacts := by
        rcases List.mem_cons.1 hk with h | h
        · exact absurd h hkp
        · exact h
      obtain ⟨c, hc, hrest⟩ := hinv.mem k hk'
      exact ⟨c, by rw [hs', if_neg hkp, hc], hrest⟩

/-- The state after the loop body and `g_object_unref`, when the contact cannot
perform the action. -/
theorem object_loop_body_unref (e : EmpathyCapabilitiesBits) (w : ContactEnv)
    (s s3 : ContactsState) (action_type : EmpathyActionType) (p k' : Nat)
    (hs3 : ∀ k', s3.object k' =
      if k' = w.persona_contact p then
        some { dup_object e w s (w.persona_contact p) with
          contact := (dup_object e w s (w.persona_contact p)).contact.after_loop_body w
            action_type p }
      else s.object k') :
    (g_object_unref s3 (w.persona_contact p)).object k' =
      if k' = w.persona_contact p then
        (s.object k').map (fun c =>
          { c with contact := c.contact.after_loop_body w action_type p })
      else s.object k' := by
  rw [object_g_object_unref, hs3 (w.persona_contact p), if_pos rfl]
  simp only []
  cases ho : s.object (w.persona_contact p) with
  | none =>
      have htp : ((dup_object e w s (w.persona_contact p)).contact.after_loop_body w
          action_type p).priv.tp_contact = some (w.tp_contact (w.persona_contact p)) := by
        rw [← (sameAbilities_after_loop_body w action_type _ p).1]
        simp only [dup_object, ho]
        exact empathy_contact_new_tp_contact e w _ _
      have hrc : (dup_object e w s (w.persona_contact p)).ref_count = 1 := by
        simp only [dup_object, ho]
      simp only [hrc, if_true, htp, ContactEnv.tp_contact]
      split
      · rename_i h; subst h; rw [ho]; rfl
      · rename_i h; rw [hs3, if_neg h]
  | some c =>
      have hrc : (dup_object e w s (w.persona_contact p)).ref_count = c.ref_count + 1 := by
        simp only [dup_object, ho]
      simp only [hrc, pnat_add_one_ne_one, if_false, pnat_add_one_sub_one]
      split
      · rename_i h; subst h
        rw [ho]
        simp only [dup_object, ho, Option.map_some']
      · rename_i h; rw [hs3, if_neg h]

/-- The invariant after the loop body, when the contact cannot perform the
action and is unreferenced. -/
theorem BestInv.step_cannot {e : EmpathyCapabilitiesBits} {w : ContactEnv}
    {action_type : EmpathyActionType} {personas : List Nat} {s0 s s' : ContactsState}
    {contacts : List Nat} (hinv : BestInv e w action_type personas s0 s contacts) (p : Nat)
    (hcan : contact_can_do_action e w (dup_object e w s (w.persona_contact p)).contact
      action_type = false)
    (hs' : ∀ k', s'.object k' =
      if k' = w.persona_contact p then
        (s.object k').map (fun c =>
          { c with contact := c.contact.after_loop_body w action_type p })
      else s.object k') :
    BestInv e w action_type personas s0 s' contacts := by
  have hnot : w.persona_contact p ∉ contacts := by
    intro hmem
    obtain ⟨c, hc, hcd, _⟩ := hinv.mem _ hmem
    simp only [dup_object, hc] at hcan
    rw [hcd] at hcan
    exact absurd hcan (by simp)
  constructor
  · intro k c0 h0
    obtain ⟨c, hc, hsame, hcount⟩ := hinv.old k c0 h0
    by_cases hk : k = w.persona_contact p
    · subst hk
      refine ⟨{ c with contact := c.contact.after_loop_body w action_type p },
        by rw [hs', if_pos rfl, hc]; rfl, ?_, hcount⟩
      exact hsame.trans (sameAbilities_after_loop_body w action_type _ p)
    · exact ⟨c, by rw [hs', if_neg hk, hc], hsame, hcount⟩
  · intro k h0
    by_cases hk : k = w.persona_contact p
    · subst hk
      rcases hinv.fresh _ h0 with ⟨hn, hnot'⟩ | ⟨c, hc, htp, hsame, hcount⟩
      · left
        exact ⟨by rw [hs', if_pos rfl, hn]; rfl, hnot'⟩
      · right
        refine ⟨{ c with contact := c.contact.after_loop_body w action_type p },
          by rw [hs', if_pos rfl, hc]; rfl, ?_, ?_, hcount⟩
        · rw [← htp]
          exact ((sameAbilities_after_loop_body w action_type _ p).1).symm
        · exact hsame.trans (sameAbilities_after_loop_body w action_type _ p)
    · rcases hinv.fresh k h0 with ⟨hn, hnot'⟩ | ⟨c, hc, htp, hsame, hcount⟩
      · left
        exact ⟨by rw [hs', if_neg hk, hn], hnot'⟩
      · right
        exact ⟨c, by rw [hs', if_neg hk, hc], htp, hsame, hcount⟩
  · intro k hk
    have hkp : k ≠ w.persona_contact p := fun h => hnot (h ▸ hk)
    obtain ⟨c, hc, hrest⟩ := hinv.mem k hk
    exact ⟨c, by rw [hs', if_neg hkp, hc], hrest⟩

/-- The first loop keeps the invariant, and the list it gives holds, besides what
it held, the contacts of the interesting personas that can perform the action. -/
theorem best_for_action_contacts_spec (e : EmpathyCapabilitiesBits) (w : ContactEnv)
    (action_type : EmpathyActionType) (personas : List Nat) (s0 : ContactsState) :
    ∀ (rest : List Nat) (s : ContactsState) (contacts : List Nat),
      (∀ p ∈ rest, p ∈ personas) → BestInv e w action_type personas s0 s contacts →
      BestInv e w action_type personas s0
          (best_for_action_contacts e w action_type s contacts rest).1
          (best_for_action_contacts e w action_type s contacts rest).2 ∧
      ∀ k, k ∈ (best_for_action_contacts e w action_type s contacts rest).2 ↔
        k ∈ contacts ∨ ∃ p ∈ rest, w.is_interesting p = true ∧ w.persona_contact p = k ∧
          persona_can_do_action e w s0 p action_type = true := by
  intro rest
  induction rest with
  | nil =>
      intro s contacts _ hinv
      simp only [best_for_action_contacts]
      exact ⟨hinv, fun k => by simp⟩
  | cons p rest ih =>
      intro s contacts hsub hinv
      have hsub' : ∀ q ∈ rest, q ∈ personas := fun q hq => hsub q (List.mem_cons_of_mem _ hq)
      have hp : p ∈ personas := hsub p (List.mem_cons_self _ _)
      have hpc : persona_can_do_action e w s0 p action_type =
          contact_can_do_action e w (dup_object e w s (w.persona_contact p)).contact
            action_type := by
        rw [persona_can_do_action_eq, hinv.can_do_eq]
      simp only [best_for_action_contacts, dup_from_tp_contact_fst]
      cases hi : w.is_interesting p with
      | false =>
          simp only [Bool.not_false, if_true]
          obtain ⟨h1, h2⟩ := ih s contacts hsub' hinv
          refine ⟨h1, fun k => ?_⟩
          rw [h2 k]
          constructor
          · rintro (h | ⟨q, hq, hqi, hqk, hqc⟩)
            · exact Or.inl h
            · exact Or.inr ⟨q, List.mem_cons_of_mem _ hq, hqi, hqk, hqc⟩
          · rintro (h | ⟨q, hq, hqi, hqk, hqc⟩)
            · exact Or.inl h
            · rcases List.mem_cons.1 hq with rfl | hq'
              · rw [hi] at hqi
                exact absurd hqi (by simp)
              · exact Or.inr ⟨q, hq', hqi, hqk, hqc⟩
      | true =>
          simp only [Bool.not_true, Bool.false_eq_true, if_false]
          rw [loop_body_can]
          cases hcan : contact_can_do_action e w
              (dup_object e w s (w.persona_contact p)).contact action_type with
          | true =>
              simp only [Bool.not_true, Bool.false_eq_true, if_false]
              have hinv' := hinv.step_can p hp hi hcan
                (fun k' => object_loop_body e w s action_type p k')
              obtain ⟨h1, h2⟩ := ih _ _ hsub' hinv'
              refine ⟨h1, fun k => ?_⟩
              rw [h2 k]
              constructor
              · rintro (h | ⟨q, hq, hqi, hqk, hqc⟩)
                · rcases List.mem_cons.1 h with rfl | h'
                  · exact Or.inr ⟨p, List.mem_cons_self _ _, hi, rfl, by rw [hpc, hcan]⟩
                  · exact Or.inl h'
                · exact Or.inr ⟨q, List.mem_cons_of_mem _ hq, hqi, hqk, hqc⟩
              · rintro (h | ⟨q, hq, hqi, hqk, hqc⟩)
                · exact Or.inl (List.mem_cons_of_mem _ h)
                · rcases List.mem_cons.1 hq with rfl | hq'
                  · exact Or.inl (by rw [hqk]; exact List.mem_cons_self _ _)
                  · exact Or.inr ⟨q, hq', hqi, hqk, hqc⟩
          | false =>
              simp only [Bool.not_false, if_true]
              have hinv' := hinv.step_cannot p hcan
                (fun k' => object_loop_body_unref e w s _ action_type p k'
                  (fun k'' => object_loop_body e w s action_type p k''))
              obtain ⟨h1, h2⟩ := ih _ _ hsub' hinv'
              refine ⟨h1, fun k => ?_⟩
              rw [h2 k]
              constructor
              · rintro (h | ⟨q, hq, hqi, hqk, hqc⟩)
                · exact Or.inl h
                · exact Or.inr ⟨q, List.mem_cons_of_mem _ hq, hqi, hqk, hqc⟩
              · rintro (h | ⟨q, hq, hqi, hqk, hqc⟩)
                · exact Or.inl h
                · rcases List.mem_cons.1 hq with rfl | hq'
                  · rw [hpc, hcan] at hqc
                    exact absurd hqc (by simp)
                  · exact Or.inr ⟨q, hq', hqi, hqk, hqc⟩

theorem pnat_sub_one_coe (r : PNat) (h : r ≠ 1) : ((r - 1 : PNat) : Nat) = (r : Nat) - 1 := by
  rw [PNat.sub_coe]
  have h1 : (1 : PNat) < r := by
    rcases lt_or_eq_of_le (PNat.one_le r) with h' | h'
    · exact h'
    · exact absurd h'.symm h
  simp [h1]

theorem pnat_two_le (r : PNat) (h : r ≠ 1) : 2 ≤ (r : Nat) := by
  have h1 : (1 : PNat) < r := by
    rcases lt_or_eq_of_le (PNat.one_le r) with h' | h'
    · exact h'
    · exact absurd h'.symm h
  have := (PNat.coe_lt_coe 1 r).2 h1
  simp only [PNat.one_coe] at this
  omega

/-- Unreferencing the contacts of a list leaves an object that has more
references than places in the list where it is, with the fields it has. -/
theorem unref_list_keeps (contacts : List Nat) :
    ∀ (s : ContactsState), CleanInv s contacts →
      ∀ (kb : Nat) (c : CachedContact), s.object kb = some c →
        contacts.count kb < c.ref_count →
        ∃ c', (contacts.foldl g_object_unref s).object kb = some c' ∧
          c'.contact = c.contact := by
  induction contacts with
  | nil =>
      intro s _ kb c hc _
      exact ⟨c, hc, rfl⟩
  | cons k rest ih =>
      intro s hinv kb c hc hcount
      obtain ⟨ck, hck, hdisj⟩ := hinv k (List.mem_cons_self _ _)
      simp only [List.foldl_cons]
      have hobj := fun k' => object_g_object_unref s k k'
      simp only [hck] at hobj
      by_cases h1 : ck.ref_count = 1
      · -- the last reference: the object is disposed
        have hone : ((ck.ref_count : PNat) : Nat) = 1 := by rw [h1]; rfl
        rcases hdisj with hlt | ⟨heq, htp⟩
        · rw [List.count_cons_self, hone] at hlt
          omega
        · rw [List.count_cons_self, hone] at heq
          have hk0 : rest.count k = 0 := by omega
          have hknot : k ∉ rest := List.count_eq_zero.1 hk0
          obtain ⟨t, ht, htk⟩ : ∃ t, ck.contact.priv.tp_contact = some t ∧ t.ptr = k := by
            cases htc : ck.contact.priv.tp_contact with
            | none => rw [htc] at htp; simp at htp
            | some t =>
                rw [htc] at htp
                exact ⟨t, rfl, by simpa using htp⟩
          have hobj' : ∀ k', (g_object_unref s k).object k' =
              if k' = k then none else s.object k' := by
            intro k'
            rw [hobj k']
            simp only [h1, if_true, ht, htk]
          have hkb : kb ≠ k := by
            intro h
            subst h
            rw [hck] at hc
            cases hc
            rw [List.count_cons_self, hone] at hcount
            omega
          apply ih (g_object_unref s k) _ kb c
          · rw [hobj', if_neg hkb, hc]
          · rw [List.count_cons_of_ne hkb] at hcount
            exact hcount
          · intro k' hk'
            have hk'k : k' ≠ k := fun h => hknot (h ▸ hk')
            obtain ⟨c', hc', hd'⟩ := hinv k' (List.mem_cons_of_mem _ hk')
            refine ⟨c', by rw [hobj', if_neg hk'k, hc'], ?_⟩
            rw [List.count_cons_of_ne hk'k] at hd'
            exact hd'
      · -- another reference is left
        have htwo := pnat_two_le _ h1
        have hsub := pnat_sub_one_coe _ h1
        have hobj' : ∀ k', (g_object_unref s k).object k' =
            if k' = k then some { ck with ref_count := ck.ref_count - 1 } else s.object k' := by
          intro k'
          rw [hobj k']
          simp only [h1, if_false]
        have hinv' : CleanInv (g_object_unref s k) rest := by
          intro k' hk'
          by_cases hk'k : k' = k
          · subst hk'k
            refine ⟨_, by rw [hobj', if_pos rfl], ?_⟩
            simp only [hsub]
            rcases hdisj with hlt | ⟨heq, htp⟩
            · left
              rw [List.count_cons_self] at hlt
              omega
            · right
              rw [List.count_cons_self] at heq
              exact ⟨by omega, htp⟩
          · obtain ⟨c', hc', hd'⟩ := hinv k' (List.mem_cons_of_mem _ hk')
            refine ⟨c', by rw [hobj', if_neg hk'k, hc'], ?_⟩
            rw [List.count_cons_of_ne hk'k] at hd'
            exact hd'
        by_cases hkb : kb = k
        · subst hkb
          rw [hck] at hc
          cases hc
          obtain ⟨c', hc', hcc⟩ := ih (g_object_unref s kb) hinv' kb
            { c with ref_count := c.ref_count - 1 } (by rw [hobj', if_pos rfl])
            (by
              simp only [hsub]
              rw [List.count_cons_self] at hcount
              omega)
          exact ⟨c', hc', hcc⟩
        · apply ih (g_object_unref s k) hinv' kb c
          · rw [hobj', if_neg hkb, hc]
          · rw [List.count_cons_of_ne hkb] at hcount
            exact hcount

theorem get_persona_fst (w : ContactEnv) (s : ContactsState) (k : Nat) :
    (empathy_contact_get_persona w s k).1 = contact_persona w (s.contact k) := by
  unfold empathy_contact_get_persona contact_persona
  rw [contact_eq_map_object]
  cases ho : s.object k with
  | none => rfl
  | some c =>
      obtain ⟨⟨ptr, priv⟩, rc⟩ := c
      obtain ⟨a1, a2, a3, a4, a5, a6, a7⟩ := priv
      simp only [Option.map_some']
      cases a3 with
      | some per => rfl
      | none =>
          cases a1 with
          | none => rfl
          | some t =>
              simp only []
              cases hs : get_persona_search w t.ptr w.individuals with
              | none => rfl
              | some p =>
                  simp only []
                  rw [contact_eq_map_object, object_set_persona, if_pos rfl, ho]
                  rfl

theorem get_persona_snd (w : ContactEnv) (s : ContactsState) (a b : Nat) :
    contact_persona w ((empathy_contact_get_persona w s a).2.contact b) =
      contact_persona w (s.contact b) := by
  unfold empathy_contact_get_persona
  rw [contact_eq_map_object s a]
  cases ho : s.object a with
  | none => rfl
  | some c =>
      obtain ⟨⟨ptr, priv⟩, rc⟩ := c
      obtain ⟨a1, a2, a3, a4, a5, a6, a7⟩ := priv
      simp only [Option.map_some']
      cases a3 with
      | some per => rfl
      | none =>
          cases a1 with
          | none => rfl
          | some t =>
              simp only []
              cases hs : get_persona_search w t.ptr w.individuals with
              | none => rfl
              | some p =>
                  simp only []
                  rw [contact_eq_map_object, object_set_persona, contact_eq_map_object]
                  by_cases hba : b = a
                  · subst hba
                    rw [if_pos rfl, ho]
                    simp only [Option.map_some', contact_persona, EmpathyContact.with_persona,
                      hs]
                  · rw [if_neg hba]

theorem get_persona_unchanged (w : ContactEnv) (s : ContactsState) (k : Nat)
    (c : EmpathyContact) (p : Nat) (hc : s.contact k = some c)
    (hp : c.priv.persona = some p) :
    empathy_contact_get_persona w s k = (some p, s) := by
  unfold empathy_contact_get_persona
  simp only [hc, hp]

theorem contact_presence_type_eq (w : ContactEnv) (s : ContactsState) (k : Nat) :
    contact_presence_type w s k =
      folks_presence_details_get_presence_type w (contact_persona w (s.contact k)) := by
  simp only [contact_presence_type, get_persona_fst]

theorem presence_cmp_func_fst (w : ContactEnv) (s : ContactsState) (a b : Nat) :
    (presence_cmp_func w s a b).1 =
      folks_presence_details_typecmp (contact_presence_type w s b)
        (contact_presence_type w s a) := by
  simp only [presence_cmp_func, get_persona_fst, get_persona_snd, contact_presence_type_eq,
    folks_presence_details_typecmp]
  show -(_ - _) = _
  omega

theorem tie_break_sign (p tie : Int) :
    ((if p != 0 then p else tie) ≤ 0 → p ≤ 0) ∧ (¬ (if p != 0 then p else tie) ≤ 0 → 0 ≤ p) := by
  by_cases hp : p = 0
  · subst hp
    simp
  · have : (p != 0) = true := by simpa using hp
    simp only [this, if_true]
    omega

theorem sort_func_presence (e : EmpathyCapabilitiesBits) (w : ContactEnv)
    (action_type : EmpathyActionType) (s : ContactsState) (a b : Nat) :
    ((get_sort_func_for_action e w action_type s a b).1 ≤ 0 →
      (presence_cmp_func w s a b).1 ≤ 0) ∧
    (¬ (get_sort_func_for_action e w action_type s a b).1 ≤ 0 →
      0 ≤ (presence_cmp_func w s a b).1) := by
  have hv : ∀ tie : Int,
      ((if (presence_cmp_func w s a b).1 != 0 then (presence_cmp_func w s a b).1 else tie)
          ≤ 0 → (presence_cmp_func w s a b).1 ≤ 0) ∧
      (¬ (if (presence_cmp_func w s a b).1 != 0 then (presence_cmp_func w s a b).1 else tie)
          ≤ 0 → 0 ≤ (presence_cmp_func w s a b).1) := fun tie => tie_break_sign _ tie
  have hvoip : (voip_sort_func e w s a b).1 =
      if (presence_cmp_func w s a b).1 != 0 then (presence_cmp_func w s a b).1
      else voip_cmp_func e (presence_cmp_func w s a b).2 a b := by
    simp only [voip_sort_func]
    split <;> rfl
  have hchat : ∃ tie, (chat_sort_func e w s a b).1 =
      if (presence_cmp_func w s a b).1 != 0 then (presence_cmp_func w s a b).1 else tie := by
    simp only [chat_sort_func]
    by_cases h : ((presence_cmp_func w s a b).1 != 0) = true
    · exact ⟨0, by simp only [h, if_true]⟩
    · simp only [h, if_false]
      exact ⟨_, rfl⟩
  cases action_type
  case CHAT =>
    obtain ⟨tie, ht⟩ := hchat
    simp only [get_sort_func_for_action, ht]
    exact hv tie
  case AUDIO_CALL =>
    simp only [get_sort_func_for_action, hvoip]
    exact hv _
  case VIDEO_CALL =>
    simp only [get_sort_func_for_action, hvoip]
    exact hv _
  all_goals
    simp only [get_sort_func_for_action]
    omega

theorem presence_cmp_func_snd (w : ContactEnv) (s : ContactsState) (a b : Nat)
    (ca cb : EmpathyContact) (pa pb : Nat) (ha : s.contact a = some ca)
    (hb : s.contact b = some cb) (hpa : ca.priv.persona = some pa)
    (hpb : cb.priv.persona = some pb) : (presence_cmp_func w s a b).2 = s := by
  simp only [presence_cmp_func, get_persona_unchanged w s a ca pa ha hpa,
    get_persona_unchanged w s b cb pb hb hpb]

theorem sort_func_snd (e : EmpathyCapabilitiesBits) (w : ContactEnv)
    (action_type : EmpathyActionType) (s : ContactsState) (a b : Nat)
    (ca cb : EmpathyContact) (pa pb : Nat) (ha : s.contact a = some ca)
    (hb : s.contact b = some cb) (hpa : ca.priv.persona = some pa)
    (hpb : cb.priv.persona = some pb) :
    (get_sort_func_for_action e w action_type s a b).2 = s := by
  have h := presence_cmp_func_snd w s a b ca cb pa pb ha hb hpa hpb
  cases action_type <;> simp only [get_sort_func_for_action, voip_sort_func, chat_sort_func]
  case CHAT =>
    split
    · exact h
    · split
      · exact h
      · split <;> exact h
  case AUDIO_CALL => split <;> exact h
  case VIDEO_CALL => split <;> exact h
  all_goals exact h

theorem dup_best_for_action_nil (e : EmpathyCapabilitiesBits) (w : ContactEnv)
    (s : ContactsState) (personas : List Nat) (action_type : EmpathyActionType)
    (h : (best_for_action_contacts e w action_type s [] personas).2 = []) :
    empathy_contact_dup_best_for_action e w s personas action_type =
      (none, (best_for_action_contacts e w action_type s [] personas).1) := by
  simp only [empathy_contact_dup_best_for_action, h]

theorem dup_best_for_action_cons (e : EmpathyCapabilitiesBits) (w : ContactEnv)
    (s : ContactsState) (personas : List Nat) (action_type : EmpathyActionType)
    (h : (best_for_action_contacts e w action_type s [] personas).2 ≠ []) :
    ∃ best tl,
      g_list_sort (best_for_action_contacts e w action_type s [] personas).2
        (fun a b => (get_sort_func_for_action e w action_type
          (best_for_action_contacts e w action_type s [] personas).1 a b).1) = best :: tl ∧
      empathy_contact_dup_best_for_action e w s personas action_type =
        (some best, (best :: tl).foldl g_object_unref
          (g_object_ref (best_for_action_contacts e w action_type s [] personas).1 best)) := by
  cases hL : (best_for_action_contacts e w action_type s [] personas).2 with
  | nil => exact absurd hL h
  | cons c0 cs =>
      have hperm := g_list_sort_real_perm
        (fun a b => (get_sort_func_for_action e w action_type
          (best_for_action_contacts e w action_type s [] personas).1 a b).1)
        (c0 :: cs).length (c0 :: cs)
      cases hs : g_list_sort (c0 :: cs)
          (fun a b => (get_sort_func_for_action e w action_type
            (best_for_action_contacts e w action_type s [] personas).1 a b).1) with
      | nil =>
          simp only [g_list_sort] at hs
          rw [hs] at hperm
          exact absurd hperm.symm.eq_nil (by simp)
      | cons best tl =>
          refine ⟨best, tl, rfl, ?_⟩
          simp only [empathy_contact_dup_best_for_action, hL, hs]

/-- The contacts of the list after the first loop, with their reference counts. -/
theorem BestInv.clean {e : EmpathyCapabilitiesBits} {w : ContactEnv}
    {action_type : EmpathyActionType} {personas : List Nat} {s0 s : ContactsState}
    {contacts : List Nat} (hinv : BestInv e w action_type personas s0 s contacts) :
    CleanInv s contacts := by
  intro k hk
  cases h0 : s0.object k with
  | some c0 =>
      obtain ⟨c, hc, _, hcount⟩ := hinv.old k c0 h0
      exact ⟨c, hc, Or.inl hcount⟩
  | none =>
      rcases hinv.fresh k h0 with ⟨_, hnot⟩ | ⟨c, hc, htp, _, hcount⟩
      · exact absurd hk hnot
      · refine ⟨c, hc, Or.inr ⟨hcount, ?_⟩⟩
        rw [htp]
        rfl

theorem BestInv.count_le {e : EmpathyCapabilitiesBits} {w : ContactEnv}
    {action_type : EmpathyActionType} {personas : List Nat} {s0 s : ContactsState}
    {contacts : List Nat} (hinv : BestInv e w action_type personas s0 s contacts)
    (k : Nat) (c : CachedContact) (hc : s.object k = some c) :
    contacts.count k ≤ c.ref_count := by
  cases h0 : s0.object k with
  | some c0 =>
      obtain ⟨c', hc', _, hcount⟩ := hinv.old k c0 h0
      rw [hc] at hc'
      cases hc'
      omega
  | none =>
      rcases hinv.fresh k h0 with ⟨hn, _⟩ | ⟨c', hc', _, _, hcount⟩
      · rw [hc] at hn
        cases hn
      · rw [hc] at hc'
        cases hc'
        omega

/-- C12: `empathy_contact_dup_best_for_action` returns `NULL` exactly when no
interesting persona of the individual has a contact that can perform the
action. The sort functions leave the state as it is on the contacts of the
list. A contact that is returned is the contact of an interesting persona that
can perform the action; it can perform the action in the state returned, where
it is the object it was when the list was sorted; and no contact of an
interesting persona that can perform the action has a strictly higher
presence: the presence of each, which is that of an interesting persona of the
individual with this contact, compares as at most equal to that of the contact
returned. Whether the contact of a persona can perform the action is what
`contact_can_do_action` says of the object that the table holds for the
`TpContact` of the persona, or of a new object when the table holds none. -/
theorem dup_best_for_action_highest_presence (e : EmpathyCapabilitiesBits) (w : ContactEnv)
    (s : ContactsState) (personas : List Nat) (action_type : EmpathyActionType) :
    ((empathy_contact_dup_best_for_action e w s personas action_type).1 = none ↔
      ∀ p ∈ personas, w.is_interesting p = true →
        persona_can_do_action e w s p action_type = false) ∧
    (∀ p, persona_can_do_action e w s p action_type =
      contact_can_do_action e w (dup_object e w s (w.persona_contact p)).contact
        action_type) ∧
    (∀ a ∈ (best_for_action_contacts e w action_type s [] personas).2,
      ∀ b ∈ (best_for_action_contacts e w action_type s [] personas).2,
        (get_sort_func_for_action e w action_type
          (best_for_action_contacts e w action_type s [] personas).1 a b).2 =
          (best_for_action_contacts e w action_type s [] personas).1) ∧
    (∀ best, (empathy_contact_dup_best_for_action e w s personas action_type).1 = some best →
      (∃ p ∈ personas, w.is_interesting p = true ∧ w.persona_contact p = best ∧
        persona_can_do_action e w s p action_type = true) ∧
      (empathy_contact_can_do_action e w
        (empathy_contact_dup_best_for_action e w s personas action_type).2 best
        action_type).1 = true ∧
      (empathy_contact_dup_best_for_action e w s personas action_type).2.contact best =
        (best_for_action_contacts e w action_type s [] personas).1.contact best ∧
      ∀ p ∈ personas, w.is_interesting p = true →
        persona_can_do_action e w s p action_type = true →
        (∃ c p', (best_for_action_contacts e w action_type s [] personas).1.contact
              (w.persona_contact p) = some c ∧
            c.priv.persona = some p' ∧ p' ∈ personas ∧ w.is_interesting p' = true ∧
            w.persona_contact p' = w.persona_contact p ∧
            contact_presence_type w (best_for_action_contacts e w action_type s [] personas).1
              (w.persona_contact p) = w.presence_type p') ∧
        folks_presence_details_typecmp
          (contact_presence_type w (best_for_action_contacts e w action_type s [] personas).1
            (w.persona_contact p))
          (contact_presence_type w (best_for_action_contacts e w action_type s [] personas).1
            best) ≤ 0) := by
  obtain ⟨hinv, hmem⟩ := best_for_action_contacts_spec e w action_type personas s personas s []
    (fun p hp => hp) (BestInv.init e w action_type personas s)
  have hmem' : ∀ k, k ∈ (best_for_action_contacts e w action_type s [] personas).2 ↔
      ∃ p ∈ personas, w.is_interesting p = true ∧ w.persona_contact p = k ∧
        persona_can_do_action e w s p action_type = true := by
    intro k
    rw [hmem k]
    simp
  generalize hs1 : (best_for_action_contacts e w action_type s [] personas).1 = s1 at *
  generalize hL : (best_for_action_contacts e w action_type s [] personas).2 = contacts at *
  have hpers : ∀ k ∈ contacts, ∃ c p', s1.contact k = some c ∧ c.priv.persona = some p' ∧
      p' ∈ personas ∧ w.is_interesting p' = true ∧ w.persona_contact p' = k ∧
      contact_can_do_action e w c action_type = true ∧
      contact_presence_type w s1 k = w.presence_type p' := by
    intro k hk
    obtain ⟨c, hc, hcan, p', hp', hper, hi, hk'⟩ := hinv.mem k hk
    have hcc : s1.contact k = some c.contact := by
      rw [contact_eq_map_object, hc]
      rfl
    refine ⟨c.contact, p', hcc, hper, hp', hi, hk', hcan, ?_⟩
    rw [contact_presence_type_eq, hcc]
    simp only [contact_persona, hper, folks_presence_details_get_presence_type]
  refine ⟨?_, fun p => persona_can_do_action_eq e w s action_type p, ?_, ?_⟩
  · -- the result is NULL exactly when the list is empty
    constructor
    · intro hnone p hp hi
      cases hcan : persona_can_do_action e w s p action_type with
      | false => rfl
      | true =>
          have hk : w.persona_contact p ∈ contacts := (hmem' _).2 ⟨p, hp, hi, rfl, hcan⟩
          have hne : (best_for_action_contacts e w action_type s [] personas).2 ≠ [] := by
            rw [hL]
            intro h
            rw [h] at hk
            simp at hk
          obtain ⟨best, tl, _, heq⟩ := dup_best_for_action_cons e w s personas action_type hne
          rw [heq] at hnone
          simp at hnone
    · intro hall
      have hnil : contacts = [] := by
        cases hc : contacts with
        | nil => rfl
        | cons k rest =>
            have hk : k ∈ contacts := by rw [hc]; exact List.mem_cons_self _ _
            obtain ⟨p, hp, hi, _, hcan⟩ := (hmem' k).1 hk
            rw [hall p hp hi] at hcan
            exact absurd hcan (by simp)
      rw [dup_best_for_action_nil e w s personas action_type (by rw [hL, hnil])]
  · -- the sort functions leave the state as it is
    intro a ha b hb
    obtain ⟨ca, pa, hca, hpa, _⟩ := hpers a ha
    obtain ⟨cb, pb, hcb, hpb, _⟩ := hpers b hb
    exact sort_func_snd e w action_type s1 a b ca cb pa pb hca hcb hpa hpb
  · intro best hbest
    have hne : (best_for_action_contacts e w action_type s [] personas).2 ≠ [] := by
      intro h
      rw [dup_best_for_action_nil e w s personas action_type h] at hbest
      simp at hbest
    obtain ⟨best', tl, hsort, heq⟩ := dup_best_for_action_cons e w s personas action_type hne
    rw [hs1, hL] at hsort
    rw [hs1] at heq
    rw [heq] at hbest ⊢
    simp only [Option.some.injEq] at hbest
    subst hbest
    have hperm : (best' :: tl).Perm contacts := by
      rw [← hsort]
      exact g_list_sort_real_perm _ _ _
    have hbmem : best' ∈ contacts := hperm.mem_iff.1 (List.mem_cons_self _ _)
    obtain ⟨cb, pb, hcb, hpb, _, _, _, hcanb, _⟩ := hpers best' hbmem
    obtain ⟨ob, hob, hobc⟩ : ∃ ob, s1.object best' = some ob ∧ ob.contact = cb := by
      rw [contact_eq_map_object] at hcb
      cases ho : s1.object best' with
      | none => rw [ho] at hcb; simp at hcb
      | some ob =>
          rw [ho] at hcb
          exact ⟨ob, rfl, by simpa using hcb⟩
    -- the state in which the contacts are unreferenced
    have hclean : CleanInv (g_object_ref s1 best') (best' :: tl) := by
      intro k hk
      have hk' : k ∈ contacts := hperm.mem_iff.1 hk
      obtain ⟨c, hc, hdisj⟩ := hinv.clean k hk'
      rw [hperm.count_eq]
      by_cases hkb : k = best'
      · subst hkb
        refine ⟨{ c with ref_count := c.ref_count + 1 },
          by rw [object_g_object_ref, if_pos rfl, hc]; rfl, Or.inl ?_⟩
        have := hinv.count_le k c hc
        simp only [PNat.add_coe, PNat.val_ofNat]
        omega
      · exact ⟨c, by rw [object_g_object_ref, if_neg hkb, hc], hdisj⟩
    obtain ⟨c', hc', hcc'⟩ := unref_list_keeps (best' :: tl) (g_object_ref s1 best') hclean best'
      { ob with ref_count := ob.ref_count + 1 }
      (by rw [object_g_object_ref, if_pos rfl, hob]; rfl)
      (by
        rw [hperm.count_eq]
        have := hinv.count_le best' ob hob
        simp only [PNat.add_coe, PNat.val_ofNat]
        omega)
    have hfinal : ((best' :: tl).foldl g_object_unref (g_object_ref s1 best')).contact best' =
        some cb := by
      rw [contact_eq_map_object, hc']
      simp only [Option.map_some', hcc', hobc]
    refine ⟨(hmem' best').1 hbmem, ?_, ?_, ?_⟩
    · rw [can_do_action_fst e w _ _ _ cb hfinal]
      exact hcanb
    · rw [hfinal, hcb]
    · intro p hp hi hcan
      have hk : w.persona_contact p ∈ contacts := (hmem' _).2 ⟨p, hp, hi, rfl, hcan⟩
      obtain ⟨c, p', hc, hper, hp', hi', hk', _, hpres⟩ := hpers _ hk
      refine ⟨⟨c, p', hc, hper, hp', hi', hk', hpres⟩, ?_⟩
      have hhead := g_list_sort_real_head
        (fun a b => (get_sort_func_for_action e w action_type s1 a b).1)
        (fun a b => folks_presence_details_typecmp (contact_presence_type w s1 b)
          (contact_presence_type w s1 a) ≤ 0)
        (fun a => by simp [folks_presence_details_typecmp])
        (fun a b c hab hbc => by
          simp only [folks_presence_details_typecmp] at hab hbc ⊢
          omega)
        (fun a b hle => by
          have := (sort_func_presence e w action_type s1 a b).1 hle
          rwa [presence_cmp_func_fst] at this)
        (fun a b hgt => by
          have := (sort_func_presence e w action_type s1 a b).2 hgt
          rw [presence_cmp_func_fst] at this
          simp only [folks_presence_details_typecmp] at this ⊢
          omega)
        contacts.length contacts (le_refl _)
      exact hhead best' tl hsort _ (by
        show w.persona_contact p ∈ g_list_sort contacts _
        rw [hsort]
        exact hperm.mem_iff.2 hk)

/-- The contact of a persona whose `priv->account` is `NULL` can show logs when
logs exist for the account of its connection: it is returned, with the account
kept in the object. -/
theorem example_best_for_view_logs :
    (empathy_contact_dup_best_for_action example_capabilities example_contact_env
      example_contacts_state [3] EmpathyActionType.VIEW_LOGS).1 = some 13 ∧
    (empathy_contact_dup_best_for_action example_capabilities example_contact_env
      example_contacts_state [3] EmpathyActionType.VIEW_LOGS).2.object 13 =
      some
        { contact :=
            { ptr := 101
              priv :=
                { tp_contact := some { ptr := 13, identifier := some "bob@example.org",
                                       alias_ := none }
                  account := some 7, persona := some 3, id := none, alias_ := none,
                  capabilities := 128, is_user := false } }
          ref_count := 1 } := by
  decide

/-- Two personas of one `TpContact` share one object, which is twice in the list
and has the persona set last, 2, which is offline: the contact of persona 3,
which is away, is returned, and the shared object, new and no longer
referenced, is gone from the table. -/
theorem example_best_shared_tp_contact :
    (best_for_action_contacts example_capabilities example_contact_env
      EmpathyActionType.CHAT example_contacts_state [] [1, 2, 3]).2 = [13, 11, 11] ∧
    ((best_for_action_contacts example_capabilities example_contact_env
      EmpathyActionType.CHAT example_contacts_state [] [1, 2, 3]).1.contact 11).map
        (fun c => c.priv.persona) = some (some 2) ∧
    (empathy_contact_dup_best_for_action example_capabilities example_contact_env
      example_contacts_state [1, 2, 3] EmpathyActionType.CHAT).1 = some 13 ∧
    (empathy_contact_dup_best_for_action example_capabilities example_contact_env
      example_contacts_state [1, 2, 3] EmpathyActionType.CHAT).2.object 11 = none ∧
    ((empathy_contact_dup_best_for_action example_capabilities example_contact_env
      example_contacts_state [1, 2, 3] EmpathyActionType.CHAT).2.object 13).map
        (fun c => (c.contact.ptr, c.contact.priv.persona, c.ref_count)) =
      some (102, some 3, 1) := by
  decide

end Empathy
